import Mathlib

/-!
# Scene.cpp : per-frame animation and render orchestration

A shallow embedding of `src/Scene.cpp`.

* The arithmetic of `float` is a parameter of the code: every definition translated
  from the source is generic in the number type `K` and uses only the operations the
  source applies (`+`, `-`, `*`, `/`, `<`, the literals, the conversion from `int`).
  At `K := Binary32`, the IEEE 754 binary32 numbers defined below, every operation of
  the code is rounded once, to nearest with ties to even, and overflows to an infinity;
  the infinities and NaN are values of the type. Signed zeros and NaN payloads are not
  told apart.
* What a call writes where, in which order and from which operands is proved for every
  linearly ordered field `K`; what values the oscillators and the orbits reach is
  proved at `Binary32`.
* The module-level globals and the function-local `static` variables of
  `UpdateScene` are the fields of one record, `Scene`.
* Code that `Scene.cpp` calls but that lives in other translation units
  (`cos`, `sin`, `pow`, `ToRadians`, the `Model` / `Camera` classes, the
  viewport globals) is supplied through the record `Env`.
-/

namespace SceneCpp

/-! ## Data model -/

/-- Direction flag used by the four switch-based oscillators (`valueChange` in the source). -/
inductive valueChange where
  | UP
  | DOWN
  deriving DecidableEq, Repr

/-- Three-component vector (`CVector3`). -/
structure CVector3 (K : Type) where
  x : K
  y : K
  z : K
  deriving DecidableEq, Repr

/-- Component-wise sum, `operator+` of `CVector3`. -/
def CVector3.add {K : Type} [Add K] (a b : CVector3 K) : CVector3 K :=
  ⟨a.x + b.x, a.y + b.y, a.z + b.z⟩

/-- Component-wise difference, `operator-` of `CVector3`. -/
def CVector3.sub {K : Type} [Sub K] (a b : CVector3 K) : CVector3 K :=
  ⟨a.x - b.x, a.y - b.y, a.z - b.z⟩

/-- Vector times scalar, `operator*` of `CVector3` (used for colour times strength). -/
def CVector3.smul {K : Type} [Mul K] (a : CVector3 K) (k : K) : CVector3 K :=
  ⟨a.x * k, a.y * k, a.z * k⟩

/-- Four-channel colour (`ColourRGBA`). -/
structure ColourRGBA (K : Type) where
  r : K
  g : K
  b : K
  a : K
  deriving DecidableEq, Repr

/-- The eight mesh globals of the source. -/
inductive Mesh where
  | gPortalMesh
  | gLightMesh
  | gFloorMesh
  | gTeapotMesh
  | gSphereMesh
  | gCubeMesh
  | gTrollMesh
  | gRobotMesh
  deriving DecidableEq, Repr

/-- Transform part of a `Model` instance together with the mesh it refers to. -/
structure Model (K : Type) where
  mesh : Mesh
  position : CVector3 K
  rotation : CVector3 K
  scale : CVector3 K
  deriving DecidableEq, Repr

/-- State of a `Camera` instance. -/
structure Camera (K : Type) where
  position : CVector3 K
  rotation : CVector3 K
  nearClip : K
  farClip : K
  deriving DecidableEq, Repr

/-- Accessor `Model::Position`. -/
def Model.Position {K : Type} (m : Model K) : CVector3 K := m.position

/-- Mutator `Model::SetPosition`. -/
def Model.SetPosition {K : Type} (m : Model K) (p : CVector3 K) : Model K :=
  { m with position := p }

/-- Mutator `Model::SetRotation`. -/
def Model.SetRotation {K : Type} (m : Model K) (r : CVector3 K) : Model K :=
  { m with rotation := r }

/-- Mutator `Model::SetScale(CVector3)`. -/
def Model.SetScale3 {K : Type} (m : Model K) (sc : CVector3 K) : Model K :=
  { m with scale := sc }

/-- Mutator `Model::SetScale(float)`: the scalar is used for all three axes. -/
def Model.SetScale {K : Type} (m : Model K) (k : K) : Model K :=
  { m with scale := ⟨k, k, k⟩ }

/-- Accessor `Camera::Position`. -/
def Camera.Position {K : Type} (c : Camera K) : CVector3 K := c.position

/-- Mutator `Camera::SetPosition`. -/
def Camera.SetPosition {K : Type} (c : Camera K) (p : CVector3 K) : Camera K :=
  { c with position := p }

/-- Mutator `Camera::SetRotation`. -/
def Camera.SetRotation {K : Type} (c : Camera K) (r : CVector3 K) : Camera K :=
  { c with rotation := r }

/-- Mutator `Camera::SetNearClip`. -/
def Camera.SetNearClip {K : Type} (c : Camera K) (k : K) : Camera K :=
  { c with nearClip := k }

/-- Mutator `Camera::SetFarClip`. -/
def Camera.SetFarClip {K : Type} (c : Camera K) (k : K) : Camera K :=
  { c with farClip := k }

/-- Per-frame shader constants (`PerFrameConstants`, the fields `Scene.cpp` writes). -/
structure PerFrameConstants (K M : Type) where
  viewMatrix : M
  projectionMatrix : M
  viewProjectionMatrix : M
  light1Colour : CVector3 K
  light1Position : CVector3 K
  light2Colour : CVector3 K
  light2Position : CVector3 K
  light3Colour : CVector3 K
  light3Position : CVector3 K
  light4Colour : CVector3 K
  light4Position : CVector3 K
  light5Colour : CVector3 K
  light5Position : CVector3 K
  ambientColour : CVector3 K
  specularPower : K
  cameraPosition : CVector3 K
  outlineColour : CVector3 K
  outlineThickness : K

/-- Per-model shader constants (`PerModelConstants`, the fields `Scene.cpp` touches). -/
structure PerModelConstants (K M : Type) where
  worldMatrix : M
  objectColour : CVector3 K
  wiggle : K
  rotation : K
  lerp : K

/-- Everything `Scene.cpp` uses from outside the file: the C maths library, the
constructors and matrix getters of `Model` and `Camera`, keyboard-driven camera
control, the default object colour of a model and the viewport size. -/
structure Env (K M : Type) where
  cos : K → K
  sin : K → K
  pow : K → K → K
  ToRadians : K → K
  zeroMatrix : M
  newModel : Mesh → Model K
  newCamera : Camera K
  modelFacing : Model K → CVector3 K → CVector3 K
  cameraFacing : Camera K → CVector3 K → CVector3 K
  Control : K → Camera K → Camera K
  ViewMatrix : Camera K → M
  ProjectionMatrix : Camera K → M
  ViewProjectionMatrix : Camera K → M
  WorldMatrix : Model K → M
  defaultColour : CVector3 K
  gViewportWidth : Int
  gViewportHeight : Int

/-- Modelled from the spec: `Model::FaceTarget` (Model.cpp is not among the sources).
"Face target" recomputes the rotation so that the forward axis points at the given
world point; position and scale are kept. The new rotation itself is `Env.modelFacing`. -/
def Model.FaceTarget {K M : Type} (E : Env K M) (m : Model K) (target : CVector3 K) : Model K :=
  { m with rotation := E.modelFacing m target }

/-- Modelled from the spec: `Camera::FaceTarget` (Camera.cpp is not among the sources).
It recomputes the rotation so that the camera looks at the given world point; the
position and the clip distances are kept. -/
def Camera.FaceTarget {K M : Type} (E : Env K M) (c : Camera K) (target : CVector3 K) : Camera K :=
  { c with rotation := E.cameraFacing c target }

/-- The globals of `Scene.cpp` that the update and render code reads or writes,
followed by the function-local statics of `UpdateScene`. -/
structure Scene (K M : Type) where
  light1Pulse : valueChange
  redColour : valueChange
  greenColour : valueChange
  lerpEffect : valueChange
  gFloor : Model K
  gTeapot : Model K
  gSphere : Model K
  gLight1 : Model K
  gLight2 : Model K
  gLight3 : Model K
  gLight4 : Model K
  gLight5 : Model K
  gTwoTextureCube : Model K
  gAddBlendcube : Model K
  gMultiBlendcube : Model K
  gAlphaBlendCube : Model K
  gNormalMapCube : Model K
  gTroll : Model K
  gPortal : Model K
  gRobot : Model K
  gCamera : Camera K
  gPortalCamera : Camera K
  gAmbientColour : CVector3 K
  gBackgroundColor : ColourRGBA K
  gSpecularPower : K
  gLight1Colour : CVector3 K
  gLight1Strength : K
  light1Scale : K
  gLight2Colour : CVector3 K
  gLight2Strength : K
  gLight2Red : K
  gLight2Green : K
  gLight2blue : K
  gLight3Colour : CVector3 K
  gLight3Strength : K
  gLight4Colour : CVector3 K
  gLight4Strength : K
  gLight5Colour : CVector3 K
  gLight5Strength : K
  rotateX : K
  rotateY : K
  rotateZ : K
  OutlineColour : CVector3 K
  OutlineThickness : K
  gPortalWidth : Int
  gPortalHeight : Int
  gPerFrameConstants : PerFrameConstants K M
  gPerModelConstants : PerModelConstants K M
  rotate : K
  rotate2 : K
  rotate3 : K
  rotate4 : K
  rotate5 : K
  totalFrameTime : K
  frameCount : Int

/-! ## Constants -/

section Constants

variable (K : Type) [Zero K] [One K] [NatCast K] [Div K]

/-- Orbit radius of light 2. -/
def gLight2Orbit : K := 20
/-- Orbit radius of light 3. -/
def gLight3Orbit : K := 40
/-- Orbit radius of light 4. -/
def gLight4Orbit : K := 20
/-- Orbit radius of light 5. -/
def gLight5Orbit : K := 30
/-- Pulse rate of light 1. -/
def gLight1Multiplier : K := 10
/-- Angular speed of light 2. -/
def gLight2OrbitSpeed : K := 7 / 10
/-- Angular speed of light 3. -/
def gLight3OrbitSpeed : K := 1
/-- Angular speed of light 4. -/
def gLight4OrbitSpeed : K := 1
/-- Angular speed of light 5. -/
def gLight5OrbitSpeed : K := 1
/-- Lower bound of the light-1 strength. -/
def gMinLightStrength : K := 1
/-- Upper bound of the light-1 strength. -/
def gMaxLightStrength : K := 30
/-- Lower bound of the light-2 colour channels. -/
def gMinLightColour : K := 2 / 10
/-- Upper bound of the light-2 colour channels. -/
def gMaxLightColour : K := 99 / 100
/-- Lower bound of the lerp factor. -/
def gLerpMinValue : K := 0
/-- Upper bound of the lerp factor. -/
def gLerpMaxValue : K := 1
/-- Angular speed of the portal. -/
def gPortalRotateMultipler : K := 1 / 2
/-- Interval between two frame-time reports (`fpsUpdateTime`). -/
def fpsUpdateTime : K := 1 / 2

end Constants

/-- Integer divisor applied to the light-1 strength before it is used as a scale. -/
def gLightStrengthModifer : Int := 2
/-- Integer divisor of the frame time in the colour oscillators. -/
def gLightColorModifier : Int := 5
/-- Integer multiplier of the frame time for the wiggle phase. -/
def gWiggleMultipler : Int := 6
/-- Integer divisor of the frame time for the cube rotations. -/
def gRotateModifer : Int := 2

/-! ## InitScene -/

section Code

variable {K M : Type} [Zero K] [One K] [NatCast K] [IntCast K] [Neg K] [Add K] [Sub K]
  [Mul K] [Div K] [LT K] [DecidableRel ((· < ·) : K → K → Prop)]

/-- The state of the globals once `InitScene()` has returned: the statically
initialised values of the file, the sixteen models and the two cameras. -/
def InitScene (E : Env K M) : Scene K M where
  light1Pulse := .UP
  redColour := .UP
  greenColour := .UP
  lerpEffect := .UP
  gFloor := E.newModel .gFloorMesh
  gTeapot := (E.newModel .gTeapotMesh).SetPosition ⟨-10, 0, 0⟩
  gSphere := (E.newModel .gSphereMesh).SetPosition ⟨15, 15, 50⟩
  gLight1 := ((E.newModel .gLightMesh).SetPosition ⟨40, 20, 0⟩).SetScale (E.pow 10 (3 / 2))
  gLight2 := ((E.newModel .gLightMesh).SetPosition ⟨-10, 10, 0⟩).SetScale (E.pow 10 1)
  gLight3 := ((E.newModel .gLightMesh).SetPosition ⟨150, 50, -60⟩).SetScale (E.pow 20 1)
  gLight4 := ((E.newModel .gLightMesh).SetPosition ⟨30, 30, -200⟩).SetScale (E.pow 10 1)
  gLight5 := ((E.newModel .gLightMesh).SetPosition ⟨150, 20, -250⟩).SetScale (E.pow 10 1)
  gTwoTextureCube := (E.newModel .gCubeMesh).SetPosition ⟨30, 5, -20⟩
  gAddBlendcube := (E.newModel .gCubeMesh).SetPosition ⟨100, 15, -40⟩
  gMultiBlendcube := (E.newModel .gCubeMesh).SetPosition ⟨100, 15, -60⟩
  gAlphaBlendCube := (E.newModel .gCubeMesh).SetPosition ⟨100, 15, -80⟩
  gNormalMapCube := (E.newModel .gCubeMesh).SetPosition ⟨30, 20, -100⟩
  gTroll :=
    (((E.newModel .gTrollMesh).SetPosition ⟨-70, 10, -120⟩).SetRotation
      ⟨E.ToRadians 0, E.ToRadians 60, 0⟩).SetScale 10
  gPortal := ((E.newModel .gPortalMesh).SetScale3 ⟨3, 3, 1 / 10⟩).SetPosition ⟨-70, 30, -100⟩
  gRobot :=
    (((E.newModel .gRobotMesh).SetPosition ⟨-50, 0, -40⟩).SetScale 4).SetRotation
      ⟨E.ToRadians 0, E.ToRadians 110, 0⟩
  gCamera :=
    (((E.newCamera.SetPosition ⟨15, 45, -75⟩).SetRotation
      ⟨E.ToRadians 30, E.ToRadians 0, 0⟩).SetNearClip (1 / 10)).SetFarClip 100000
  gPortalCamera :=
    (E.newCamera.SetPosition ⟨45, 45, 85⟩).SetRotation ⟨E.ToRadians 20, E.ToRadians 215, 0⟩
  gAmbientColour := ⟨2 / 10, 2 / 10, 3 / 10⟩
  gBackgroundColor := ⟨2 / 10, 2 / 10, 3 / 10, 1⟩
  gSpecularPower := 256
  gLight1Colour := ⟨1, 8 / 10, 2 / 10⟩
  gLight1Strength := 10
  light1Scale := 0
  gLight2Colour := ⟨1, 1, 1⟩
  gLight2Strength := 10
  gLight2Red := 1 / 10
  gLight2Green := 0
  gLight2blue := 1 / 2
  gLight3Colour := ⟨1, 1, 1⟩
  gLight3Strength := 20
  gLight4Colour := ⟨0, 164 / 1000, 839 / 1000⟩
  gLight4Strength := 10
  gLight5Colour := ⟨1, 1, 1⟩
  gLight5Strength := 10
  rotateX := 0
  rotateY := 0
  rotateZ := 0
  OutlineColour := ⟨0, 0, 0⟩
  OutlineThickness := 50 / 1000
  gPortalWidth := 1024
  gPortalHeight := 1024
  gPerFrameConstants :=
    { viewMatrix := E.zeroMatrix
      projectionMatrix := E.zeroMatrix
      viewProjectionMatrix := E.zeroMatrix
      light1Colour := ⟨0, 0, 0⟩
      light1Position := ⟨0, 0, 0⟩
      light2Colour := ⟨0, 0, 0⟩
      light2Position := ⟨0, 0, 0⟩
      light3Colour := ⟨0, 0, 0⟩
      light3Position := ⟨0, 0, 0⟩
      light4Colour := ⟨0, 0, 0⟩
      light4Position := ⟨0, 0, 0⟩
      light5Colour := ⟨0, 0, 0⟩
      light5Position := ⟨0, 0, 0⟩
      ambientColour := ⟨0, 0, 0⟩
      specularPower := 0
      cameraPosition := ⟨0, 0, 0⟩
      outlineColour := ⟨0, 0, 0⟩
      outlineThickness := 0 }
  gPerModelConstants :=
    { worldMatrix := E.zeroMatrix
      objectColour := ⟨0, 0, 0⟩
      wiggle := 0
      rotation := 0
      lerp := 0 }
  rotate := 0
  rotate2 := 0
  rotate3 := 0
  rotate4 := 0
  rotate5 := 0
  totalFrameTime := 0
  frameCount := 0

/-! ## UpdateScene -/

/-- Block "Pulsate light One": the first `switch` of `UpdateScene`. -/
def pulsateLightOne (frameTime : K) (s : Scene K M) : Scene K M :=
  match s.light1Pulse with
  | .UP =>
    let s := { s with gLight1Strength := s.gLight1Strength + frameTime * gLight1Multiplier K }
    let s :=
      { s with gLight1 := s.gLight1.SetScale (s.gLight1Strength / (gLightStrengthModifer : K)) }
    if s.gLight1Strength > gMaxLightStrength K then { s with light1Pulse := .DOWN } else s
  | .DOWN =>
    let s := { s with gLight1Strength := s.gLight1Strength - frameTime * gLight1Multiplier K }
    let s :=
      { s with gLight1 := s.gLight1.SetScale (s.gLight1Strength / (gLightStrengthModifer : K)) }
    if s.gLight1Strength < gMinLightStrength K then { s with light1Pulse := .UP } else s

/-- Block "Change colour of light 2", red channel: the `switch (redColour)` block. -/
def changeLight2Red (frameTime : K) (s : Scene K M) : Scene K M :=
  match s.redColour with
  | .UP =>
    let s := { s with gLight2Red := s.gLight2Red + frameTime / (gLightColorModifier : K) }
    if s.gLight2Red > gMaxLightColour K then { s with redColour := .DOWN } else s
  | .DOWN =>
    let s := { s with gLight2Red := s.gLight2Red - frameTime / (gLightColorModifier : K) }
    if s.gLight2Red < gMinLightColour K then { s with redColour := .UP } else s

/-- The `switch (greenColour)` block. -/
def changeLight2Green (frameTime : K) (s : Scene K M) : Scene K M :=
  match s.greenColour with
  | .UP =>
    let s := { s with gLight2Green := s.gLight2Green + frameTime / (gLightColorModifier : K) }
    if s.gLight2Green > gMaxLightColour K then { s with greenColour := .DOWN } else s
  | .DOWN =>
    let s := { s with gLight2Green := s.gLight2Green - frameTime / (gLightColorModifier : K) }
    if s.gLight2Green < gMinLightColour K then { s with greenColour := .UP } else s

/-- The assignment `gLight2Colour = { gLight2Red, 0.5f, 1.0f }`. -/
def composeLight2Colour (s : Scene K M) : Scene K M :=
  { s with gLight2Colour := ⟨s.gLight2Red, 1 / 2, 1⟩ }

/-- Block "Orbit Light2": position from `rotate`, then `rotate` is decremented. -/
def orbitLight2 (E : Env K M) (frameTime : K) (s : Scene K M) : Scene K M :=
  let s := { s with
    gLight2 := s.gLight2.SetPosition
      (s.gTeapot.Position.add
        ⟨E.cos s.rotate * gLight2Orbit K, 10, E.sin s.rotate * gLight2Orbit K⟩) }
  { s with rotate := s.rotate - gLight2OrbitSpeed K * frameTime }

/-- Block "Wiggle effect": the two phase accumulators of the per-model constants. -/
def wiggleEffect (frameTime : K) (s : Scene K M) : Scene K M :=
  let s := { s with
    gPerModelConstants := { s.gPerModelConstants with
      wiggle := s.gPerModelConstants.wiggle + (gWiggleMultipler : K) * frameTime } }
  { s with
    gPerModelConstants := { s.gPerModelConstants with
      rotation := s.gPerModelConstants.rotation + frameTime } }

/-- Block "Lerp effect": the `switch (lerpEffect)` block. -/
def lerpEffectStep (frameTime : K) (s : Scene K M) : Scene K M :=
  match s.lerpEffect with
  | .UP =>
    let s := { s with
      gPerModelConstants := { s.gPerModelConstants with
        lerp := s.gPerModelConstants.lerp + frameTime } }
    if s.gPerModelConstants.lerp > gLerpMaxValue K then { s with lerpEffect := .DOWN } else s
  | .DOWN =>
    let s := { s with
      gPerModelConstants := { s.gPerModelConstants with
        lerp := s.gPerModelConstants.lerp - frameTime } }
    if s.gPerModelConstants.lerp < gLerpMinValue K then { s with lerpEffect := .UP } else s

/-- Block "Rotate blending cubes". -/
def rotateBlendingCubes (frameTime : K) (s : Scene K M) : Scene K M :=
  let s := { s with rotateX := s.rotateX + frameTime / (gRotateModifer : K) }
  let s := { s with rotateY := s.rotateY + frameTime / (gRotateModifer : K) }
  let s := { s with rotateZ := s.rotateZ + frameTime / (gRotateModifer : K) }
  let s := { s with gAddBlendcube := s.gAddBlendcube.SetRotation ⟨0, s.rotateY, s.rotateZ⟩ }
  let s := { s with gMultiBlendcube := s.gMultiBlendcube.SetRotation ⟨s.rotateX, 0, s.rotateZ⟩ }
  { s with gAlphaBlendCube := s.gAlphaBlendCube.SetRotation ⟨s.rotateX, s.rotateY, 0⟩ }

/-- Block "Orbit Light3". -/
def orbitLight3 (E : Env K M) (frameTime : K) (s : Scene K M) : Scene K M :=
  let s := { s with
    gLight3 := s.gLight3.SetPosition
      (s.gMultiBlendcube.Position.add
        ⟨E.cos s.rotate2 * gLight3Orbit K, 5, E.sin s.rotate2 * gLight3Orbit K⟩) }
  { s with rotate2 := s.rotate2 - gLight3OrbitSpeed K * frameTime }

/-- Block "Orbit Light4". -/
def orbitLight4 (E : Env K M) (frameTime : K) (s : Scene K M) : Scene K M :=
  let s := { s with
    gLight4 := s.gLight4.SetPosition
      (s.gNormalMapCube.Position.add
        ⟨E.cos s.rotate3 * gLight4Orbit K, 0, E.sin s.rotate3 * gLight4Orbit K⟩) }
  { s with rotate3 := s.rotate3 - gLight4OrbitSpeed K * frameTime }

/-- Block "Orbit Light5". -/
def orbitLight5 (E : Env K M) (frameTime : K) (s : Scene K M) : Scene K M :=
  let s := { s with
    gLight5 := s.gLight5.SetPosition
      (s.gTroll.Position.add
        ⟨E.cos s.rotate4 * gLight5Orbit K, 5, E.sin s.rotate4 * gLight5Orbit K⟩) }
  { s with rotate4 := s.rotate4 - gLight5OrbitSpeed K * frameTime }

/-- Block "Move portal": orbit, re-aim the portal model, move and re-aim the portal camera. -/
def movePortal (E : Env K M) (frameTime : K) (s : Scene K M) : Scene K M :=
  let s := { s with
    gPortal := s.gPortal.SetPosition
      (s.gTwoTextureCube.Position.add ⟨E.cos s.rotate5 * 80, 40, E.sin s.rotate5 * 80⟩) }
  let s := { s with gPortal := s.gPortal.FaceTarget E s.gTwoTextureCube.Position }
  let s := { s with gPortalCamera := s.gPortalCamera.SetPosition s.gPortal.Position }
  let s := { s with gPortalCamera := s.gPortalCamera.FaceTarget E s.gTwoTextureCube.Position }
  { s with rotate5 := s.rotate5 - gPortalRotateMultipler K * frameTime }

/-- Block "Control camera": `gCamera->Control(frameTime, ...)`, the key state being external. -/
def controlCamera (E : Env K M) (frameTime : K) (s : Scene K M) : Scene K M :=
  { s with gCamera := E.Control frameTime s.gCamera }

/-- Frame-time accounting at the end of `UpdateScene` (the window title itself is
written to the window system and is not part of the state). -/
def frameTimeAccounting (frameTime : K) (s : Scene K M) : Scene K M :=
  let s := { s with totalFrameTime := s.totalFrameTime + frameTime }
  let s := { s with frameCount := s.frameCount + 1 }
  if s.totalFrameTime > fpsUpdateTime K then
    let s := { s with totalFrameTime := 0 }
    { s with frameCount := 0 }
  else s

/-- One call `UpdateScene(frameTime)`: the blocks above in source order. -/
def UpdateScene (E : Env K M) (frameTime : K) (s : Scene K M) : Scene K M :=
  let s := pulsateLightOne frameTime s
  let s := changeLight2Red frameTime s
  let s := changeLight2Green frameTime s
  let s := composeLight2Colour s
  let s := orbitLight2 E frameTime s
  let s := wiggleEffect frameTime s
  let s := lerpEffectStep frameTime s
  let s := rotateBlendingCubes frameTime s
  let s := orbitLight3 E frameTime s
  let s := orbitLight4 E frameTime s
  let s := orbitLight5 E frameTime s
  let s := movePortal E frameTime s
  let s := controlCamera E frameTime s
  frameTimeAccounting frameTime s

/-- A sequence of `UpdateScene` calls, one per frame time of the list, first to last. -/
def runUpdates (E : Env K M) (dts : List K) (s : Scene K M) : Scene K M :=
  dts.foldl (fun st dt => UpdateScene E dt st) s

/-! ## Direct3D handles and the device context -/

/-- The vertex shaders of Shader.h that the render code selects. -/
inductive VertexShader where
  | gPixelLightingVertexShader
  | gAlphaVertexShader
  | gNormalMappingVertexShader
  | gCellShadingOutlineVertexShader
  | gCellShadingVertexShader
  | gWiggleModelVertexShader
  | gFadeTwoTexturesVertexShader
  | gLightModelVertexShader
  deriving DecidableEq, Repr

/-- The pixel shaders of Shader.h that the render code selects. -/
inductive PixelShader where
  | gPixelLightingPixelShader
  | gAlphaPixelShader
  | gNormalMappingPixelShader
  | gCellShadingOutlinePixelShader
  | gCellShadingPixelShader
  | gWiggleModelPixelShader
  | gFadeTwoTexturesPixelShader
  | gLightModelPixelShader
  deriving DecidableEq, Repr

/-- Blend states of State.h. -/
inductive BlendState where
  | gNoBlendingState
  | gAdditiveBlendingState
  | gMultiplicativeBlendingState
  | gAlphaBlendingState
  deriving DecidableEq, Repr

/-- Depth-stencil states of State.h. -/
inductive DepthStencilState where
  | gUseDepthBufferState
  | gDepthReadOnlyState
  deriving DecidableEq, Repr

/-- Rasterizer (cull) states of State.h. -/
inductive RasterizerState where
  | gCullBackState
  | gCullFrontState
  | gCullNoneState
  deriving DecidableEq, Repr

/-- Sampler states of State.h. -/
inductive SamplerState where
  | gAnisotropic4xSampler
  | gPointSampler
  deriving DecidableEq, Repr

/-- The shader-resource views declared in `Scene.cpp`. -/
inductive ShaderResourceView where
  | gPortalTextureSRV
  | gPortalDiffuseSpecularMapSRV
  | gLightDiffuseMapSRV
  | gFloorDiffuseSpecularMapSRV
  | gTeapotDiffuseSpecularMapSRV
  | gSphereDiffuseSpecularMapSRV
  | gTwoTextureCubeDiffuseSpecularMap1SRV
  | gTwoTextureCubeDiffuseSpecularMap2SRV
  | gAddBlendCubeDiffuseSpecularMapSRV
  | gMultiBlendCubeDiffuseSpecularMapSRV
  | gAlphaBlendCubeDiffuseSpecularMapSRV
  | gNormalMapCubeDiffuseSpecularMapSRV
  | gNormalMapCubeNormalMapSRV
  | gTrollDiffuseMapSRV
  | gCellMapSRV
  | gRobotDiffuseSpecularMapSRV
  deriving DecidableEq, Repr

/-- The two render-target views the frame renders into. -/
inductive RenderTargetView where
  | gPortalRenderTarget
  | gBackBufferRenderTarget
  deriving DecidableEq, Repr

/-- The two depth-stencil views that go with them. -/
inductive DepthStencilView where
  | gPortalDepthStencilView
  | gDepthStencil
  deriving DecidableEq, Repr

/-- The two constant buffers. -/
inductive ConstantBuffer where
  | gPerFrameConstantBuffer
  | gPerModelConstantBuffer
  deriving DecidableEq, Repr

/-- Which of the sixteen model globals a draw renders. -/
inductive ModelName where
  | gFloor
  | gTeapot
  | gSphere
  | gLight1
  | gLight2
  | gLight3
  | gLight4
  | gLight5
  | gTwoTextureCube
  | gAddBlendcube
  | gMultiBlendcube
  | gAlphaBlendCube
  | gNormalMapCube
  | gTroll
  | gPortal
  | gRobot
  deriving DecidableEq, Repr

/-- The textures behind the views: the fourteen loaded maps, the two portal textures
created in `InitGeometry`, and the back buffer of the swap chain. -/
inductive GpuResource where
  | gPortalTexture
  | gPortalDepthStencil
  | backBuffer
  | gLightDiffuseMap
  | gFloorDiffuseSpecularMap
  | gTeapotDiffuseSpecularMap
  | gSphereDiffuseSpecularMap
  | gTwoTextureCubeDiffuseSpecularMap1
  | gTwoTextureCubeDiffuseSpecularMap2
  | gAddBlendCubeDiffuseSpecularMap
  | gMultiBlendCubeDiffuseSpecularMap
  | gAlphaBlendCubeDiffuseSpecularMap
  | gNormalMapCubeDiffuseSpecularMap
  | gNormalMapCubeNormalMap
  | gTrollDiffuseMap
  | gCellMap
  | gRobotDiffuseSpecularMap
  deriving DecidableEq, Repr

/-- The texture a shader-resource view is a view of, as `InitGeometry` creates them:
each `LoadTexture` call fills a map and its view, and `gPortalTextureSRV` is created on
`gPortalTexture`. `gPortalDiffuseSpecularMapSRV` is declared but never created. -/
def ShaderResourceView.resource : ShaderResourceView → Option GpuResource
  | .gPortalTextureSRV => some .gPortalTexture
  | .gPortalDiffuseSpecularMapSRV => none
  | .gLightDiffuseMapSRV => some .gLightDiffuseMap
  | .gFloorDiffuseSpecularMapSRV => some .gFloorDiffuseSpecularMap
  | .gTeapotDiffuseSpecularMapSRV => some .gTeapotDiffuseSpecularMap
  | .gSphereDiffuseSpecularMapSRV => some .gSphereDiffuseSpecularMap
  | .gTwoTextureCubeDiffuseSpecularMap1SRV => some .gTwoTextureCubeDiffuseSpecularMap1
  | .gTwoTextureCubeDiffuseSpecularMap2SRV => some .gTwoTextureCubeDiffuseSpecularMap2
  | .gAddBlendCubeDiffuseSpecularMapSRV => some .gAddBlendCubeDiffuseSpecularMap
  | .gMultiBlendCubeDiffuseSpecularMapSRV => some .gMultiBlendCubeDiffuseSpecularMap
  | .gAlphaBlendCubeDiffuseSpecularMapSRV => some .gAlphaBlendCubeDiffuseSpecularMap
  | .gNormalMapCubeDiffuseSpecularMapSRV => some .gNormalMapCubeDiffuseSpecularMap
  | .gNormalMapCubeNormalMapSRV => some .gNormalMapCubeNormalMap
  | .gTrollDiffuseMapSRV => some .gTrollDiffuseMap
  | .gCellMapSRV => some .gCellMap
  | .gRobotDiffuseSpecularMapSRV => some .gRobotDiffuseSpecularMap

/-- The texture a render-target view writes into: `gPortalRenderTarget` is created on
`gPortalTexture` in `InitGeometry`; the back-buffer view belongs to the swap chain. -/
def RenderTargetView.resource : RenderTargetView → GpuResource
  | .gPortalRenderTarget => .gPortalTexture
  | .gBackBufferRenderTarget => .backBuffer

/-- The view that ends up in a pixel-shader slot when the program binds `view` while
`target` is the render target. Direct3D 11 does not let a resource be bound as input
and as output at once: `PSSetShaderResources` fills the slot with NULL when the view's
resource is the one the bound render target writes into. -/
def boundView (target : Option RenderTargetView) (view : ShaderResourceView) :
    Option ShaderResourceView :=
  match target with
  | some t => if view.resource = some t.resource then none else some view
  | none => some view

/-- What stays in a pixel-shader slot when `target` is bound as render target:
`OMSetRenderTargets` sets to NULL every slot that holds a view of the target's
resource. -/
def keptView (target : RenderTargetView) (slot : Option ShaderResourceView) :
    Option ShaderResourceView :=
  match slot with
  | some view => if view.resource = some target.resource then none else some view
  | none => none

/-- The bindings of the immediate device context that the render code sets. A binding
stays in force until the next call that sets it. -/
structure Context where
  renderTarget : Option RenderTargetView
  depthStencilView : Option DepthStencilView
  viewport : Option (Int × Int)
  vertexShader : Option VertexShader
  pixelShader : Option PixelShader
  blendState : Option BlendState
  depthStencilState : Option DepthStencilState
  rasterizerState : Option RasterizerState
  psResource0 : Option ShaderResourceView
  psResource1 : Option ShaderResourceView
  psSampler0 : Option SamplerState
  psSampler1 : Option SamplerState
  vsConstantBuffer0 : Option ConstantBuffer
  psConstantBuffer0 : Option ConstantBuffer
  deriving DecidableEq, Repr

/-- What one draw observes: the model, the bindings in force and the contents of the
two constant buffers at that moment. -/
structure DrawCall (K M : Type) where
  model : ModelName
  mesh : Mesh
  context : Context
  perFrame : Option (PerFrameConstants K M)
  perModel : Option (PerModelConstants K M)

/-- The calls the render code makes on the device context and the swap chain, with
their arguments. -/
inductive Command (K M : Type) where
  | OMSetRenderTargets (target : RenderTargetView) (depth : DepthStencilView)
  | ClearRenderTargetView (target : RenderTargetView) (colour : ColourRGBA K)
  | ClearDepthStencilView (depth : DepthStencilView) (value : K)
  | RSSetViewports (width height : Int)
  | UpdatePerFrameConstants (data : PerFrameConstants K M)
  | UpdatePerModelConstants (data : PerModelConstants K M)
  | VSSetConstantBuffers (slot : Nat) (buffer : ConstantBuffer)
  | PSSetConstantBuffers (slot : Nat) (buffer : ConstantBuffer)
  | VSSetShader (shader : VertexShader)
  | PSSetShader (shader : PixelShader)
  | OMSetBlendState (state : BlendState)
  | OMSetDepthStencilState (state : DepthStencilState)
  | RSSetState (state : RasterizerState)
  | PSSetShaderResources (slot : Nat) (view : ShaderResourceView)
  | PSSetSamplers (slot : Nat) (sampler : SamplerState)
  | Draw (call : DrawCall K M)
  | Present

/-- What the graphics device keeps from one call of the render code to the next: the
context bindings and the contents of the two constant buffers. -/
structure Device (K M : Type) where
  context : Context
  perFrameBuffer : Option (PerFrameConstants K M)
  perModelBuffer : Option (PerModelConstants K M)

/-- A device on which nothing has been bound or uploaded yet. -/
def Device.fresh {K M : Type} : Device K M where
  context :=
    { renderTarget := none
      depthStencilView := none
      viewport := none
      vertexShader := none
      pixelShader := none
      blendState := none
      depthStencilState := none
      rasterizerState := none
      psResource0 := none
      psResource1 := none
      psSampler0 := none
      psSampler1 := none
      vsConstantBuffer0 := none
      psConstantBuffer0 := none }
  perFrameBuffer := none
  perModelBuffer := none

/-- The state threaded through the render code: the two CPU-side constant records, the
device, and the commands issued so far (oldest first). -/
structure Render (K M : Type) where
  gPerFrameConstants : PerFrameConstants K M
  gPerModelConstants : PerModelConstants K M
  context : Context
  perFrameBuffer : Option (PerFrameConstants K M)
  perModelBuffer : Option (PerModelConstants K M)
  issued : List (Command K M)

section Api

variable {K M : Type}

/-- Binding of colour and depth targets. A pixel-shader slot that holds a view of the
new target's texture is set to NULL by the runtime (`keptView`). -/
def OMSetRenderTargets (target : RenderTargetView) (depth : DepthStencilView)
    (r : Render K M) : Render K M :=
  { r with
    context := { r.context with
      renderTarget := some target
      depthStencilView := some depth
      psResource0 := keptView target r.context.psResource0
      psResource1 := keptView target r.context.psResource1 }
    issued := r.issued ++ [.OMSetRenderTargets target depth] }

/-- Clearing of a colour target. -/
def ClearRenderTargetView (target : RenderTargetView) (colour : ColourRGBA K)
    (r : Render K M) : Render K M :=
  { r with issued := r.issued ++ [.ClearRenderTargetView target colour] }

/-- Clearing of a depth buffer. -/
def ClearDepthStencilView (depth : DepthStencilView) (value : K) (r : Render K M) :
    Render K M :=
  { r with issued := r.issued ++ [.ClearDepthStencilView depth value] }

/-- Setting of the viewport size. -/
def RSSetViewports (width height : Int) (r : Render K M) : Render K M :=
  { r with
    context := { r.context with viewport := some (width, height) }
    issued := r.issued ++ [.RSSetViewports width height] }

/-- The call `UpdateConstantBuffer(gPerFrameConstantBuffer, gPerFrameConstants)`. -/
def UpdatePerFrameConstantBuffer (r : Render K M) : Render K M :=
  { r with
    perFrameBuffer := some r.gPerFrameConstants
    issued := r.issued ++ [.UpdatePerFrameConstants r.gPerFrameConstants] }

/-- The call `UpdateConstantBuffer(gPerModelConstantBuffer, gPerModelConstants)`. -/
def UpdatePerModelConstantBuffer (r : Render K M) : Render K M :=
  { r with
    perModelBuffer := some r.gPerModelConstants
    issued := r.issued ++ [.UpdatePerModelConstants r.gPerModelConstants] }

/-- Binding of a constant buffer to a vertex-shader slot (slot 0 is tracked). -/
def VSSetConstantBuffers (slot : Nat) (buffer : ConstantBuffer) (r : Render K M) :
    Render K M :=
  { r with
    context :=
      if slot = 0 then { r.context with vsConstantBuffer0 := some buffer } else r.context
    issued := r.issued ++ [.VSSetConstantBuffers slot buffer] }

/-- Binding of a constant buffer to a pixel-shader slot (slot 0 is tracked). -/
def PSSetConstantBuffers (slot : Nat) (buffer : ConstantBuffer) (r : Render K M) :
    Render K M :=
  { r with
    context :=
      if slot = 0 then { r.context with psConstantBuffer0 := some buffer } else r.context
    issued := r.issued ++ [.PSSetConstantBuffers slot buffer] }

/-- Selection of the vertex shader. -/
def VSSetShader (shader : VertexShader) (r : Render K M) : Render K M :=
  { r with
    context := { r.context with vertexShader := some shader }
    issued := r.issued ++ [.VSSetShader shader] }

/-- Selection of the pixel shader. -/
def PSSetShader (shader : PixelShader) (r : Render K M) : Render K M :=
  { r with
    context := { r.context with pixelShader := some shader }
    issued := r.issued ++ [.PSSetShader shader] }

/-- Selection of the blend state. -/
def OMSetBlendState (state : BlendState) (r : Render K M) : Render K M :=
  { r with
    context := { r.context with blendState := some state }
    issued := r.issued ++ [.OMSetBlendState state] }

/-- Selection of the depth-stencil state. -/
def OMSetDepthStencilState (state : DepthStencilState) (r : Render K M) : Render K M :=
  { r with
    context := { r.context with depthStencilState := some state }
    issued := r.issued ++ [.OMSetDepthStencilState state] }

/-- Selection of the rasterizer state. -/
def RSSetState (state : RasterizerState) (r : Render K M) : Render K M :=
  { r with
    context := { r.context with rasterizerState := some state }
    issued := r.issued ++ [.RSSetState state] }

/-- Binding of a texture to pixel-shader slot 0 or 1. The command is recorded as the
program issues it; the slot receives the view, or NULL when the view's texture is the
bound render target (`boundView`). -/
def PSSetShaderResources (slot : Nat) (view : ShaderResourceView) (r : Render K M) :
    Render K M :=
  { r with
    context :=
      if slot = 0 then
        { r.context with psResource0 := boundView r.context.renderTarget view }
      else if slot = 1 then
        { r.context with psResource1 := boundView r.context.renderTarget view }
      else r.context
    issued := r.issued ++ [.PSSetShaderResources slot view] }

/-- Binding of a sampler to pixel-shader slot 0 or 1. -/
def PSSetSamplers (slot : Nat) (sampler : SamplerState) (r : Render K M) : Render K M :=
  { r with
    context :=
      if slot = 0 then { r.context with psSampler0 := some sampler }
      else if slot = 1 then { r.context with psSampler1 := some sampler }
      else r.context
    issued := r.issued ++ [.PSSetSamplers slot sampler] }

/-- The draw issued by `Mesh::Render`, recorded with what it observes. -/
def Draw (name : ModelName) (mesh : Mesh) (r : Render K M) : Render K M :=
  { r with
    issued := r.issued ++
      [.Draw
        { model := name
          mesh := mesh
          context := r.context
          perFrame := r.perFrameBuffer
          perModel := r.perModelBuffer }] }

/-- The call `gSwapChain->Present(0, 0)`. -/
def Present (r : Render K M) : Render K M :=
  { r with issued := r.issued ++ [.Present] }

/-- Modelled from the spec: `Model::Render` (Model.cpp is not among the sources).
"Before every individual draw, PerModelConstants (world matrix from the model's current
Transform, color override if any, current wiggle/rotation/lerp phases) is rewritten and
uploaded", and "default color must reset, not persist". The world matrix of the model's
current transform is written into the per-model constants; the record, with the colour
override if the caller wrote one, is uploaded; the mesh is drawn; and the object colour
returns to the default colour, so that an override does not reach a later draw. The
specification does not give the default colour: it is `Env.defaultColour`. -/
def Model.Render (E : Env K M) (name : ModelName) (m : Model K) (r : Render K M) :
    Render K M :=
  let r := { r with
    gPerModelConstants := { r.gPerModelConstants with worldMatrix := E.WorldMatrix m } }
  let r := UpdatePerModelConstantBuffer r
  let r := Draw name m.mesh r
  { r with
    gPerModelConstants := { r.gPerModelConstants with objectColour := E.defaultColour } }

end Api

/-! ## RenderSceneFromCamera and RenderScene -/

/-- One pass: `RenderSceneFromCamera(camera)`, statement by statement. The scene `s`
is only read; the two constant records and the device are in `r`. -/
def RenderSceneFromCamera (E : Env K M) (s : Scene K M) (camera : Camera K)
    (r : Render K M) : Render K M :=
  -- Set camera matrices in the constant buffer and send over to GPU
  let r := { r with
    gPerFrameConstants := { r.gPerFrameConstants with viewMatrix := E.ViewMatrix camera } }
  let r := { r with
    gPerFrameConstants := { r.gPerFrameConstants with
      projectionMatrix := E.ProjectionMatrix camera } }
  let r := { r with
    gPerFrameConstants := { r.gPerFrameConstants with
      viewProjectionMatrix := E.ViewProjectionMatrix camera } }
  let r := { r with
    gPerFrameConstants := { r.gPerFrameConstants with outlineColour := s.OutlineColour } }
  let r := { r with
    gPerFrameConstants := { r.gPerFrameConstants with outlineThickness := s.OutlineThickness } }
  let r := UpdatePerFrameConstantBuffer r
  let r := VSSetConstantBuffers 0 .gPerFrameConstantBuffer r
  let r := PSSetConstantBuffers 0 .gPerFrameConstantBuffer r
  -- RENDER GROUND
  let r := VSSetShader .gPixelLightingVertexShader r
  let r := PSSetShader .gPixelLightingPixelShader r
  let r := OMSetBlendState .gNoBlendingState r
  let r := OMSetDepthStencilState .gUseDepthBufferState r
  let r := RSSetState .gCullBackState r
  let r := PSSetShaderResources 0 .gFloorDiffuseSpecularMapSRV r
  let r := PSSetSamplers 0 .gAnisotropic4xSampler r
  let r := Model.Render E .gFloor s.gFloor r
  -- RENDER TEAPOT
  let r := PSSetShaderResources 0 .gTeapotDiffuseSpecularMapSRV r
  let r := Model.Render E .gTeapot s.gTeapot r
  -- RENDER ADDITAVE BLENDING CUBE
  let r := PSSetShaderResources 0 .gAddBlendCubeDiffuseSpecularMapSRV r
  let r := RSSetState .gCullNoneState r
  let r := OMSetBlendState .gAdditiveBlendingState r
  let r := Model.Render E .gAddBlendcube s.gAddBlendcube r
  -- RENDER MULTIPLICATIVE BLENDING CUBE
  let r := PSSetShaderResources 0 .gMultiBlendCubeDiffuseSpecularMapSRV r
  let r := OMSetBlendState .gMultiplicativeBlendingState r
  let r := Model.Render E .gMultiBlendcube s.gMultiBlendcube r
  -- RENDER ALPHA BLENDING CUBE
  let r := VSSetShader .gAlphaVertexShader r
  let r := PSSetShader .gAlphaPixelShader r
  let r := PSSetShaderResources 0 .gAlphaBlendCubeDiffuseSpecularMapSRV r
  let r := OMSetBlendState .gAlphaBlendingState r
  let r := Model.Render E .gAlphaBlendCube s.gAlphaBlendCube r
  -- RENDER NORMAL MAPPING CUBE
  let r := VSSetShader .gNormalMappingVertexShader r
  let r := PSSetShader .gNormalMappingPixelShader r
  let r := PSSetShaderResources 0 .gNormalMapCubeDiffuseSpecularMapSRV r
  let r := PSSetShaderResources 1 .gNormalMapCubeNormalMapSRV r
  let r := Model.Render E .gNormalMapCube s.gNormalMapCube r
  -- RENDER CELL SHADING TROLL - FIRST PASS
  let r := VSSetShader .gCellShadingOutlineVertexShader r
  let r := PSSetShader .gCellShadingOutlinePixelShader r
  let r := OMSetBlendState .gNoBlendingState r
  let r := RSSetState .gCullFrontState r
  let r := Model.Render E .gTroll s.gTroll r
  -- RENDER CELL SHADING TROLL - SECOND PASS
  let r := VSSetShader .gCellShadingVertexShader r
  let r := PSSetShader .gCellShadingPixelShader r
  let r := RSSetState .gCullBackState r
  let r := PSSetShaderResources 0 .gTrollDiffuseMapSRV r
  let r := PSSetSamplers 0 .gAnisotropic4xSampler r
  let r := PSSetShaderResources 1 .gCellMapSRV r
  let r := PSSetSamplers 1 .gPointSampler r
  let r := Model.Render E .gTroll s.gTroll r
  -- RENDER SPHERE
  let r := VSSetShader .gWiggleModelVertexShader r
  let r := PSSetShader .gWiggleModelPixelShader r
  let r := PSSetShaderResources 0 .gSphereDiffuseSpecularMapSRV r
  let r := PSSetSamplers 0 .gAnisotropic4xSampler r
  let r := Model.Render E .gSphere s.gSphere r
  -- RENDER TWO TEXTURE CUBE
  let r := VSSetShader .gFadeTwoTexturesVertexShader r
  let r := PSSetShader .gFadeTwoTexturesPixelShader r
  let r := PSSetShaderResources 0 .gTwoTextureCubeDiffuseSpecularMap1SRV r
  let r := PSSetShaderResources 1 .gTwoTextureCubeDiffuseSpecularMap2SRV r
  let r := Model.Render E .gTwoTextureCube s.gTwoTextureCube r
  -- RENDER LIGHTS
  let r := VSSetShader .gLightModelVertexShader r
  let r := PSSetShader .gLightModelPixelShader r
  let r := PSSetShaderResources 0 .gLightDiffuseMapSRV r
  let r := OMSetBlendState .gAdditiveBlendingState r
  let r := OMSetDepthStencilState .gDepthReadOnlyState r
  let r := RSSetState .gCullNoneState r
  let r := { r with
    gPerModelConstants := { r.gPerModelConstants with objectColour := s.gLight1Colour } }
  let r := Model.Render E .gLight1 s.gLight1 r
  let r := { r with
    gPerModelConstants := { r.gPerModelConstants with objectColour := s.gLight2Colour } }
  let r := Model.Render E .gLight2 s.gLight2 r
  let r := { r with
    gPerModelConstants := { r.gPerModelConstants with objectColour := s.gLight3Colour } }
  let r := Model.Render E .gLight3 s.gLight3 r
  let r := { r with
    gPerModelConstants := { r.gPerModelConstants with objectColour := s.gLight4Colour } }
  let r := Model.Render E .gLight4 s.gLight4 r
  let r := { r with
    gPerModelConstants := { r.gPerModelConstants with objectColour := s.gLight5Colour } }
  let r := Model.Render E .gLight5 s.gLight5 r
  -- Render Portal
  let r := VSSetShader .gPixelLightingVertexShader r
  let r := PSSetShader .gPixelLightingPixelShader r
  let r := OMSetBlendState .gNoBlendingState r
  let r := OMSetDepthStencilState .gUseDepthBufferState r
  let r := RSSetState .gCullBackState r
  let r := PSSetShaderResources 0 .gPortalTextureSRV r
  let r := Model.Render E .gPortal s.gPortal r
  -- Robot
  let r := VSSetShader .gPixelLightingVertexShader r
  let r := PSSetShader .gPixelLightingPixelShader r
  let r := OMSetBlendState .gNoBlendingState r
  let r := OMSetDepthStencilState .gUseDepthBufferState r
  let r := RSSetState .gCullBackState r
  Model.Render E .gRobot s.gRobot r

/-- Block "Common settings for both main scene and portal scene": the light, ambient,
specular and camera-position fields of the per-frame constants. -/
def commonSettings (s : Scene K M) (r : Render K M) : Render K M :=
  { r with
    gPerFrameConstants := { r.gPerFrameConstants with
      light1Colour := s.gLight1Colour.smul s.gLight1Strength
      light1Position := s.gLight1.Position
      light2Colour := s.gLight2Colour.smul s.gLight2Strength
      light2Position := s.gLight2.Position
      light3Colour := s.gLight3Colour.smul s.gLight3Strength
      light3Position := s.gLight3.Position
      light4Colour := s.gLight4Colour.smul s.gLight4Strength
      light4Position := s.gLight4.Position
      light5Colour := s.gLight5Colour.smul s.gLight5Strength
      light5Position := s.gLight5.Position
      ambientColour := s.gAmbientColour
      specularPower := s.gSpecularPower
      cameraPosition := s.gCamera.Position } }

/-- Block "Portal scene rendering", up to the pass itself: bind and clear the portal targets,
set the portal viewport. -/
def portalTargetSetup (s : Scene K M) (r : Render K M) : Render K M :=
  let r := OMSetRenderTargets .gPortalRenderTarget .gPortalDepthStencilView r
  let r := ClearRenderTargetView .gPortalRenderTarget s.gBackgroundColor r
  let r := ClearDepthStencilView .gPortalDepthStencilView 1 r
  RSSetViewports s.gPortalWidth s.gPortalHeight r

/-- Block "Main scene rendering", up to the pass itself: bind and clear the back buffer and
the main depth buffer, set the window viewport. -/
def mainTargetSetup (E : Env K M) (s : Scene K M) (r : Render K M) : Render K M :=
  let r := OMSetRenderTargets .gBackBufferRenderTarget .gDepthStencil r
  let r := ClearRenderTargetView .gBackBufferRenderTarget s.gBackgroundColor r
  let r := ClearDepthStencilView .gDepthStencil 1 r
  RSSetViewports E.gViewportWidth E.gViewportHeight r

/-- The render state at the start of a `RenderScene` call: the constant records of the
scene, the device as the previous call left it, no command issued yet. -/
def Render.start (s : Scene K M) (d : Device K M) : Render K M where
  gPerFrameConstants := s.gPerFrameConstants
  gPerModelConstants := s.gPerModelConstants
  context := d.context
  perFrameBuffer := d.perFrameBuffer
  perModelBuffer := d.perModelBuffer
  issued := []

/-- The render state of `RenderScene` just before `RenderSceneFromCamera(gPortalCamera)`. -/
def beforePortalPass (s : Scene K M) (d : Device K M) : Render K M :=
  portalTargetSetup s (commonSettings s (Render.start s d))

/-- The render state of `RenderScene` just before `RenderSceneFromCamera(gCamera)`. -/
def beforeMainPass (E : Env K M) (s : Scene K M) (d : Device K M) : Render K M :=
  mainTargetSetup E s (RenderSceneFromCamera E s s.gPortalCamera (beforePortalPass s d))

/-- One call `RenderScene()`, as the render state it ends in. -/
def RenderScene.run (E : Env K M) (s : Scene K M) (d : Device K M) : Render K M :=
  let r := Render.start s d
  let r := commonSettings s r
  let r := portalTargetSetup s r
  let r := RenderSceneFromCamera E s s.gPortalCamera r
  let r := mainTargetSetup E s r
  let r := RenderSceneFromCamera E s s.gCamera r
  Present r

/-- One call `RenderScene()`: the scene with its two constant records as the call
leaves them, the device as the call leaves it, and the commands issued, in order. -/
def RenderScene (E : Env K M) (s : Scene K M) (d : Device K M) :
    Scene K M × Device K M × List (Command K M) :=
  let r := RenderScene.run E s d
  ({ s with gPerFrameConstants := r.gPerFrameConstants
            gPerModelConstants := r.gPerModelConstants },
    { context := r.context, perFrameBuffer := r.perFrameBuffer,
      perModelBuffer := r.perModelBuffer },
    r.issued)

/-- The commands issued by one `RenderScene` call. -/
def frameCommands (E : Env K M) (s : Scene K M) (d : Device K M) : List (Command K M) :=
  (RenderScene E s d).2.2

/-- The commands a step of the render code issues when started in state `r`. -/
def issuedBy (step : Render K M → Render K M) (r : Render K M) : List (Command K M) :=
  (step { r with issued := [] }).issued

/-- The commands of the portal pass of one `RenderScene` call. -/
def portalPassCommands (E : Env K M) (s : Scene K M) (d : Device K M) :
    List (Command K M) :=
  issuedBy (RenderSceneFromCamera E s s.gPortalCamera) (beforePortalPass s d)

/-- The commands of the main pass of one `RenderScene` call. -/
def mainPassCommands (E : Env K M) (s : Scene K M) (d : Device K M) : List (Command K M) :=
  issuedBy (RenderSceneFromCamera E s s.gCamera) (beforeMainPass E s d)

/-- The per-frame constant records uploaded by a list of commands, in order. -/
def uploadedPerFrame (cs : List (Command K M)) : List (PerFrameConstants K M) :=
  cs.filterMap fun c =>
    match c with
    | .UpdatePerFrameConstants data => some data
    | _ => none

/-- The draws of a list of commands, in order. -/
def draws (cs : List (Command K M)) : List (DrawCall K M) :=
  cs.filterMap fun c =>
    match c with
    | .Draw call => some call
    | _ => none

/-- The command writes into the portal colour target: it clears it, or it is a draw
issued while it is the bound render target. -/
def writesPortalTarget (c : Command K M) : Bool :=
  match c with
  | .ClearRenderTargetView target _ => decide (target = .gPortalRenderTarget)
  | .Draw call => decide (call.context.renderTarget = some .gPortalRenderTarget)
  | _ => false

/-- The command binds the back buffer as render target. -/
def bindsBackBuffer (c : Command K M) : Bool :=
  match c with
  | .OMSetRenderTargets target _ => decide (target = .gBackBufferRenderTarget)
  | _ => false

/-- The command is a draw. -/
def isDraw (c : Command K M) : Bool :=
  match c with
  | .Draw _ => true
  | _ => false

/-- The command uploads the per-frame constants. -/
def isPerFrameUpload (c : Command K M) : Bool :=
  match c with
  | .UpdatePerFrameConstants _ => true
  | _ => false

/-! ## The commands of a pass, written out -/

/-- The per-frame constants a pass uploads: the record it finds, with the three camera
matrices and the two outline fields written by `RenderSceneFromCamera`. -/
def passPerFrame (E : Env K M) (s : Scene K M) (camera : Camera K)
    (pf : PerFrameConstants K M) : PerFrameConstants K M :=
  { pf with
    viewMatrix := E.ViewMatrix camera
    projectionMatrix := E.ProjectionMatrix camera
    viewProjectionMatrix := E.ViewProjectionMatrix camera
    outlineColour := s.OutlineColour
    outlineThickness := s.OutlineThickness }

/-- The per-model constants uploaded for a model: its world matrix, the object colour in
the record at that draw, and the three animation phases of the record the pass started
with. -/
def perModelFor (E : Env K M) (pm : PerModelConstants K M) (m : Model K)
    (colour : CVector3 K) : PerModelConstants K M :=
  ⟨E.WorldMatrix m, colour, pm.wiggle, pm.rotation, pm.lerp⟩

/-- The bindings in force at a draw of a pass: targets and viewport as the pass found
them, the per-frame buffer in slot 0 of both shader stages, and the given shaders, states,
textures and samplers. -/
def drawContext (c : Context) (vs : VertexShader) (ps : PixelShader) (blend : BlendState)
    (depth : DepthStencilState) (cull : RasterizerState)
    (texture0 texture1 : Option ShaderResourceView) (sampler0 : SamplerState)
    (sampler1 : Option SamplerState) : Context :=
  ⟨c.renderTarget, c.depthStencilView, c.viewport, some vs, some ps, some blend, some depth,
    some cull, texture0, texture1, some sampler0, sampler1,
    some .gPerFrameConstantBuffer, some .gPerFrameConstantBuffer⟩

/-- The commands of one pass in full, for a pass that starts with bindings `c`, per-frame
constants `pf` and per-model constants `pm`. `RenderSceneFromCamera_eq` proves that this
is what `RenderSceneFromCamera` issues. -/
def passCommandList (E : Env K M) (s : Scene K M) (camera : Camera K) (c : Context)
    (pf : PerFrameConstants K M) (pm : PerModelConstants K M) : List (Command K M) :=
  [Command.UpdatePerFrameConstants (passPerFrame E s camera pf),
    Command.VSSetConstantBuffers 0 .gPerFrameConstantBuffer,
    Command.PSSetConstantBuffers 0 .gPerFrameConstantBuffer,
    Command.VSSetShader .gPixelLightingVertexShader,
    Command.PSSetShader .gPixelLightingPixelShader,
    Command.OMSetBlendState .gNoBlendingState,
    Command.OMSetDepthStencilState .gUseDepthBufferState,
    Command.RSSetState .gCullBackState,
    Command.PSSetShaderResources 0 .gFloorDiffuseSpecularMapSRV,
    Command.PSSetSamplers 0 .gAnisotropic4xSampler,
    Command.UpdatePerModelConstants (perModelFor E pm s.gFloor pm.objectColour),
    Command.Draw
      ⟨.gFloor, s.gFloor.mesh,
        (drawContext c .gPixelLightingVertexShader .gPixelLightingPixelShader
          .gNoBlendingState .gUseDepthBufferState .gCullBackState
          (some .gFloorDiffuseSpecularMapSRV) c.psResource1
          .gAnisotropic4xSampler c.psSampler1),
        some (passPerFrame E s camera pf), some (perModelFor E pm s.gFloor pm.objectColour)⟩]
  ++ [Command.PSSetShaderResources 0 .gTeapotDiffuseSpecularMapSRV,
    Command.UpdatePerModelConstants (perModelFor E pm s.gTeapot E.defaultColour),
    Command.Draw
      ⟨.gTeapot, s.gTeapot.mesh,
        (drawContext c .gPixelLightingVertexShader .gPixelLightingPixelShader
          .gNoBlendingState .gUseDepthBufferState .gCullBackState
          (some .gTeapotDiffuseSpecularMapSRV) c.psResource1
          .gAnisotropic4xSampler c.psSampler1),
        some (passPerFrame E s camera pf), some (perModelFor E pm s.gTeapot E.defaultColour)⟩]
  ++ [Command.PSSetShaderResources 0 .gAddBlendCubeDiffuseSpecularMapSRV,
    Command.RSSetState .gCullNoneState,
    Command.OMSetBlendState .gAdditiveBlendingState,
    Command.UpdatePerModelConstants (perModelFor E pm s.gAddBlendcube E.defaultColour),
    Command.Draw
      ⟨.gAddBlendcube, s.gAddBlendcube.mesh,
        (drawContext c .gPixelLightingVertexShader .gPixelLightingPixelShader
          .gAdditiveBlendingState .gUseDepthBufferState .gCullNoneState
          (some .gAddBlendCubeDiffuseSpecularMapSRV) c.psResource1
          .gAnisotropic4xSampler c.psSampler1),
        some (passPerFrame E s camera pf), some (perModelFor E pm s.gAddBlendcube E.defaultColour)⟩]
  ++ [Command.PSSetShaderResources 0 .gMultiBlendCubeDiffuseSpecularMapSRV,
    Command.OMSetBlendState .gMultiplicativeBlendingState,
    Command.UpdatePerModelConstants (perModelFor E pm s.gMultiBlendcube E.defaultColour),
    Command.Draw
      ⟨.gMultiBlendcube, s.gMultiBlendcube.mesh,
        (drawContext c .gPixelLightingVertexShader .gPixelLightingPixelShader
          .gMultiplicativeBlendingState .gUseDepthBufferState .gCullNoneState
          (some .gMultiBlendCubeDiffuseSpecularMapSRV) c.psResource1
          .gAnisotropic4xSampler c.psSampler1),
        some (passPerFrame E s camera pf), some (perModelFor E pm s.gMultiBlendcube E.defaultColour)⟩]
  ++ [Command.VSSetShader .gAlphaVertexShader,
    Command.PSSetShader .gAlphaPixelShader,
    Command.PSSetShaderResources 0 .gAlphaBlendCubeDiffuseSpecularMapSRV,
    Command.OMSetBlendState .gAlphaBlendingState,
    Command.UpdatePerModelConstants (perModelFor E pm s.gAlphaBlendCube E.defaultColour),
    Command.Draw
      ⟨.gAlphaBlendCube, s.gAlphaBlendCube.mesh,
        (drawContext c .gAlphaVertexShader .gAlphaPixelShader
          .gAlphaBlendingState .gUseDepthBufferState .gCullNoneState
          (some .gAlphaBlendCubeDiffuseSpecularMapSRV) c.psResource1
          .gAnisotropic4xSampler c.psSampler1),
        some (passPerFrame E s camera pf), some (perModelFor E pm s.gAlphaBlendCube E.defaultColour)⟩]
  ++ [Command.VSSetShader .gNormalMappingVertexShader,
    Command.PSSetShader .gNormalMappingPixelShader,
    Command.PSSetShaderResources 0 .gNormalMapCubeDiffuseSpecularMapSRV,
    Command.PSSetShaderResources 1 .gNormalMapCubeNormalMapSRV,
    Command.UpdatePerModelConstants (perModelFor E pm s.gNormalMapCube E.defaultColour),
    Command.Draw
      ⟨.gNormalMapCube, s.gNormalMapCube.mesh,
        (drawContext c .gNormalMappingVertexShader .gNormalMappingPixelShader
          .gAlphaBlendingState .gUseDepthBufferState .gCullNoneState
          (some .gNormalMapCubeDiffuseSpecularMapSRV) (some .gNormalMapCubeNormalMapSRV)
          .gAnisotropic4xSampler c.psSampler1),
        some (passPerFrame E s camera pf), some (perModelFor E pm s.gNormalMapCube E.defaultColour)⟩]
  ++ [Command.VSSetShader .gCellShadingOutlineVertexShader,
    Command.PSSetShader .gCellShadingOutlinePixelShader,
    Command.OMSetBlendState .gNoBlendingState,
    Command.RSSetState .gCullFrontState,
    Command.UpdatePerModelConstants (perModelFor E pm s.gTroll E.defaultColour),
    Command.Draw
      ⟨.gTroll, s.gTroll.mesh,
        (drawContext c .gCellShadingOutlineVertexShader .gCellShadingOutlinePixelShader
          .gNoBlendingState .gUseDepthBufferState .gCullFrontState
          (some .gNormalMapCubeDiffuseSpecularMapSRV) (some .gNormalMapCubeNormalMapSRV)
          .gAnisotropic4xSampler c.psSampler1),
        some (passPerFrame E s camera pf), some (perModelFor E pm s.gTroll E.defaultColour)⟩]
  ++ [Command.VSSetShader .gCellShadingVertexShader,
    Command.PSSetShader .gCellShadingPixelShader,
    Command.RSSetState .gCullBackState,
    Command.PSSetShaderResources 0 .gTrollDiffuseMapSRV,
    Command.PSSetSamplers 0 .gAnisotropic4xSampler,
    Command.PSSetShaderResources 1 .gCellMapSRV,
    Command.PSSetSamplers 1 .gPointSampler,
    Command.UpdatePerModelConstants (perModelFor E pm s.gTroll E.defaultColour),
    Command.Draw
      ⟨.gTroll, s.gTroll.mesh,
        (drawContext c .gCellShadingVertexShader .gCellShadingPixelShader
          .gNoBlendingState .gUseDepthBufferState .gCullBackState
          (some .gTrollDiffuseMapSRV) (some .gCellMapSRV)
          .gAnisotropic4xSampler (some .gPointSampler)),
        some (passPerFrame E s camera pf), some (perModelFor E pm s.gTroll E.defaultColour)⟩]
  ++ [Command.VSSetShader .gWiggleModelVertexShader,
    Command.PSSetShader .gWiggleModelPixelShader,
    Command.PSSetShaderResources 0 .gSphereDiffuseSpecularMapSRV,
    Command.PSSetSamplers 0 .gAnisotropic4xSampler,
    Command.UpdatePerModelConstants (perModelFor E pm s.gSphere E.defaultColour),
    Command.Draw
      ⟨.gSphere, s.gSphere.mesh,
        (drawContext c .gWiggleModelVertexShader .gWiggleModelPixelShader
          .gNoBlendingState .gUseDepthBufferState .gCullBackState
          (some .gSphereDiffuseSpecularMapSRV) (some .gCellMapSRV)
          .gAnisotropic4xSampler (some .gPointSampler)),
        some (passPerFrame E s camera pf), some (perModelFor E pm s.gSphere E.defaultColour)⟩]
  ++ [Command.VSSetShader .gFadeTwoTexturesVertexShader,
    Command.PSSetShader .gFadeTwoTexturesPixelShader,
    Command.PSSetShaderResources 0 .gTwoTextureCubeDiffuseSpecularMap1SRV,
    Command.PSSetShaderResources 1 .gTwoTextureCubeDiffuseSpecularMap2SRV,
    Command.UpdatePerModelConstants (perModelFor E pm s.gTwoTextureCube E.defaultColour),
    Command.Draw
      ⟨.gTwoTextureCube, s.gTwoTextureCube.mesh,
        (drawContext c .gFadeTwoTexturesVertexShader .gFadeTwoTexturesPixelShader
          .gNoBlendingState .gUseDepthBufferState .gCullBackState
          (some .gTwoTextureCubeDiffuseSpecularMap1SRV) (some .gTwoTextureCubeDiffuseSpecularMap2SRV)
          .gAnisotropic4xSampler (some .gPointSampler)),
        some (passPerFrame E s camera pf), some (perModelFor E pm s.gTwoTextureCube E.defaultColour)⟩]
  ++ [Command.VSSetShader .gLightModelVertexShader,
    Command.PSSetShader .gLightModelPixelShader,
    Command.PSSetShaderResources 0 .gLightDiffuseMapSRV,
    Command.OMSetBlendState .gAdditiveBlendingState,
    Command.OMSetDepthStencilState .gDepthReadOnlyState,
    Command.RSSetState .gCullNoneState,
    Command.UpdatePerModelConstants (perModelFor E pm s.gLight1 s.gLight1Colour),
    Command.Draw
      ⟨.gLight1, s.gLight1.mesh,
        (drawContext c .gLightModelVertexShader .gLightModelPixelShader
          .gAdditiveBlendingState .gDepthReadOnlyState .gCullNoneState
          (some .gLightDiffuseMapSRV) (some .gTwoTextureCubeDiffuseSpecularMap2SRV)
          .gAnisotropic4xSampler (some .gPointSampler)),
        some (passPerFrame E s camera pf), some (perModelFor E pm s.gLight1 s.gLight1Colour)⟩]
  ++ [Command.UpdatePerModelConstants (perModelFor E pm s.gLight2 s.gLight2Colour),
    Command.Draw
      ⟨.gLight2, s.gLight2.mesh,
        (drawContext c .gLightModelVertexShader .gLightModelPixelShader
          .gAdditiveBlendingState .gDepthReadOnlyState .gCullNoneState
          (some .gLightDiffuseMapSRV) (some .gTwoTextureCubeDiffuseSpecularMap2SRV)
          .gAnisotropic4xSampler (some .gPointSampler)),
        some (passPerFrame E s camera pf), some (perModelFor E pm s.gLight2 s.gLight2Colour)⟩]
  ++ [Command.UpdatePerModelConstants (perModelFor E pm s.gLight3 s.gLight3Colour),
    Command.Draw
      ⟨.gLight3, s.gLight3.mesh,
        (drawContext c .gLightModelVertexShader .gLightModelPixelShader
          .gAdditiveBlendingState .gDepthReadOnlyState .gCullNoneState
          (some .gLightDiffuseMapSRV) (some .gTwoTextureCubeDiffuseSpecularMap2SRV)
          .gAnisotropic4xSampler (some .gPointSampler)),
        some (passPerFrame E s camera pf), some (perModelFor E pm s.gLight3 s.gLight3Colour)⟩]
  ++ [Command.UpdatePerModelConstants (perModelFor E pm s.gLight4 s.gLight4Colour),
    Command.Draw
      ⟨.gLight4, s.gLight4.mesh,
        (drawContext c .gLightModelVertexShader .gLightModelPixelShader
          .gAdditiveBlendingState .gDepthReadOnlyState .gCullNoneState
          (some .gLightDiffuseMapSRV) (some .gTwoTextureCubeDiffuseSpecularMap2SRV)
          .gAnisotropic4xSampler (some .gPointSampler)),
        some (passPerFrame E s camera pf), some (perModelFor E pm s.gLight4 s.gLight4Colour)⟩]
  ++ [Command.UpdatePerModelConstants (perModelFor E pm s.gLight5 s.gLight5Colour),
    Command.Draw
      ⟨.gLight5, s.gLight5.mesh,
        (drawContext c .gLightModelVertexShader .gLightModelPixelShader
          .gAdditiveBlendingState .gDepthReadOnlyState .gCullNoneState
          (some .gLightDiffuseMapSRV) (some .gTwoTextureCubeDiffuseSpecularMap2SRV)
          .gAnisotropic4xSampler (some .gPointSampler)),
        some (passPerFrame E s camera pf), some (perModelFor E pm s.gLight5 s.gLight5Colour)⟩]
  ++ [Command.VSSetShader .gPixelLightingVertexShader,
    Command.PSSetShader .gPixelLightingPixelShader,
    Command.OMSetBlendState .gNoBlendingState,
    Command.OMSetDepthStencilState .gUseDepthBufferState,
    Command.RSSetState .gCullBackState,
    Command.PSSetShaderResources 0 .gPortalTextureSRV,
    Command.UpdatePerModelConstants (perModelFor E pm s.gPortal E.defaultColour),
    Command.Draw
      ⟨.gPortal, s.gPortal.mesh,
        (drawContext c .gPixelLightingVertexShader .gPixelLightingPixelShader
          .gNoBlendingState .gUseDepthBufferState .gCullBackState
          (boundView c.renderTarget .gPortalTextureSRV)
          (some .gTwoTextureCubeDiffuseSpecularMap2SRV)
          .gAnisotropic4xSampler (some .gPointSampler)),
        some (passPerFrame E s camera pf), some (perModelFor E pm s.gPortal E.defaultColour)⟩]
  ++ [Command.VSSetShader .gPixelLightingVertexShader,
    Command.PSSetShader .gPixelLightingPixelShader,
    Command.OMSetBlendState .gNoBlendingState,
    Command.OMSetDepthStencilState .gUseDepthBufferState,
    Command.RSSetState .gCullBackState,
    Command.UpdatePerModelConstants (perModelFor E pm s.gRobot E.defaultColour),
    Command.Draw
      ⟨.gRobot, s.gRobot.mesh,
        (drawContext c .gPixelLightingVertexShader .gPixelLightingPixelShader
          .gNoBlendingState .gUseDepthBufferState .gCullBackState
          (boundView c.renderTarget .gPortalTextureSRV)
          (some .gTwoTextureCubeDiffuseSpecularMap2SRV)
          .gAnisotropic4xSampler (some .gPointSampler)),
        some (passPerFrame E s camera pf), some (perModelFor E pm s.gRobot E.defaultColour)⟩]

/-! ## Specification-side oscillator -/

/-- The oscillator step in the words of the specification: the value moves by
`rate * dt` in the current direction, and the direction flips when, going up, the new
value is above `hi`, or, going down, the new value is below `lo`. The value is not
clamped. -/
def specOscillator (rate lo hi dt : K) (d : valueChange) (v : K) : valueChange × K :=
  let v' := match d with
    | .UP => v + rate * dt
    | .DOWN => v - rate * dt
  let d' :=
    if d = .UP ∧ v' > hi then valueChange.DOWN
    else if d = .DOWN ∧ v' < lo then valueChange.UP
    else d
  (d', v')

/-- One oscillator step with the step already computed: the value moves by `step` in the
current direction; the direction flips when, going up, the new value is above `hi`, or,
going down, the new value is below `lo`. The value is not clamped. -/
def oscillate (step lo hi : K) (d : valueChange) (v : K) : valueChange × K :=
  let v' := match d with
    | .UP => v + step
    | .DOWN => v - step
  let d' :=
    if d = .UP ∧ v' > hi then valueChange.DOWN
    else if d = .DOWN ∧ v' < lo then valueChange.UP
    else d
  (d', v')

end Code

/-! ## A concrete environment -/

section Observations

variable {K M : Type} [LinearOrderedField K]

/-- Matrices as uninterpreted expressions: the matrix getters of `Camera` and `Model`
are outside `Scene.cpp`, so a matrix is recorded as "the view matrix of this camera",
"the world matrix of this model", and so on. -/
inductive MatrixExpr (K : Type) where
  | zero
  | view (c : Camera K)
  | projection (c : Camera K)
  | viewProjection (c : Camera K)
  | world (m : Model K)
  deriving DecidableEq, Repr

/-- Rational stand-in for `cos`: the x-coordinate of the point of the unit circle with
half-angle parameter `a / 2`. It is `1` at `0` and satisfies the Pythagorean identity
with `circleSin` exactly. -/
def circleCos (a : K) : K := (1 - (a / 2) ^ 2) / (1 + (a / 2) ^ 2)

/-- Rational stand-in for `sin`, the companion of `circleCos`; it is `0` at `0`. -/
def circleSin (a : K) : K := 2 * (a / 2) / (1 + (a / 2) ^ 2)

/-- An environment over any field, given the two trigonometric functions. `pow` is
exact for exponent `1` and a decimal approximation of `10 ^ 1.5` for the one other call
of `InitScene`; `ToRadians` uses `355 / 113` for pi; new models have zero position and
rotation and unit scale; facing keeps the stored rotation and no key is pressed. None of
these choices is looked at by a statement below unless it says so. -/
def sampleEnv (cos sin : K → K) : Env K (MatrixExpr K) where
  cos := cos
  sin := sin
  pow := fun a b => if b = 1 then a else if a = 10 ∧ b = 3 / 2 then 31622777 / 1000000 else 0
  ToRadians := fun d => d * (355 / 113) / 180
  zeroMatrix := .zero
  newModel := fun mesh => ⟨mesh, ⟨0, 0, 0⟩, ⟨0, 0, 0⟩, ⟨1, 1, 1⟩⟩
  newCamera := ⟨⟨0, 0, 0⟩, ⟨0, 0, 0⟩, 1 / 10, 10000⟩
  modelFacing := fun m _ => m.rotation
  cameraFacing := fun c _ => c.rotation
  Control := fun _ c => c
  ViewMatrix := .view
  ProjectionMatrix := .projection
  ViewProjectionMatrix := .viewProjection
  WorldMatrix := .world
  defaultColour := ⟨1 / 2, 1 / 2, 1 / 2⟩
  gViewportWidth := 1280
  gViewportHeight := 960

/-- The environment used to run the scene on rational numbers. -/
def ratEnv : Env ℚ (MatrixExpr ℚ) := sampleEnv circleCos circleSin

/-! ## Observations and predicates used by the statements -/

/-- The positions of the sixteen models. -/
def modelPositions (s : Scene K M) : List (CVector3 K) :=
  [s.gFloor.position, s.gTeapot.position, s.gSphere.position, s.gLight1.position,
    s.gLight2.position, s.gLight3.position, s.gLight4.position, s.gLight5.position,
    s.gTwoTextureCube.position, s.gAddBlendcube.position, s.gMultiBlendcube.position,
    s.gAlphaBlendCube.position, s.gNormalMapCube.position, s.gTroll.position,
    s.gPortal.position, s.gRobot.position]

/-- The scales of the sixteen models. -/
def modelScales (s : Scene K M) : List (CVector3 K) :=
  [s.gFloor.scale, s.gTeapot.scale, s.gSphere.scale, s.gLight1.scale, s.gLight2.scale,
    s.gLight3.scale, s.gLight4.scale, s.gLight5.scale, s.gTwoTextureCube.scale,
    s.gAddBlendcube.scale, s.gMultiBlendcube.scale, s.gAlphaBlendCube.scale,
    s.gNormalMapCube.scale, s.gTroll.scale, s.gPortal.scale, s.gRobot.scale]

/-- The colours of the five lights. -/
def lightColours (s : Scene K M) : List (CVector3 K) :=
  [s.gLight1Colour, s.gLight2Colour, s.gLight3Colour, s.gLight4Colour, s.gLight5Colour]

/-- The positions of the eleven models that `UpdateScene` never moves. -/
def fixedModelPositions (s : Scene K M) : List (CVector3 K) :=
  [s.gFloor.position, s.gTeapot.position, s.gSphere.position, s.gLight1.position,
    s.gTwoTextureCube.position, s.gAddBlendcube.position, s.gMultiBlendcube.position,
    s.gAlphaBlendCube.position, s.gNormalMapCube.position, s.gTroll.position,
    s.gRobot.position]

/-- The positions of the five orbiting models: lights 2 to 5 and the portal. -/
def orbitingPositions (s : Scene K M) : List (CVector3 K) :=
  [s.gLight2.position, s.gLight3.position, s.gLight4.position, s.gLight5.position,
    s.gPortal.position]

/-- What decides which draw of a pass a draw is: the model and the vertex shader in
force (the troll is drawn twice, first with the outline shader). -/
def drawnModels (cs : List (Command K M)) : List (ModelName × Option VertexShader) :=
  (draws cs).map fun call => (call.model, call.context.vertexShader)

/-- The object colour each draw finds in the per-model constant buffer. -/
def drawColours (cs : List (Command K M)) : List (ModelName × Option (CVector3 K)) :=
  (draws cs).map fun call => (call.model, call.perModel.map PerModelConstants.objectColour)

/-- The shader pair and the blend, depth-stencil and cull state in force at a draw. -/
def DrawCall.pipeline (call : DrawCall K M) :
    Option VertexShader × Option PixelShader × Option BlendState × Option DepthStencilState
      × Option RasterizerState :=
  (call.context.vertexShader, call.context.pixelShader, call.context.blendState,
    call.context.depthStencilState, call.context.rasterizerState)

/-- The sticky state of a draw that a pass sets itself: shader pair, blend state,
depth-stencil state, cull state, slot-0 texture and slot-0 sampler. -/
def DrawCall.sticky (call : DrawCall K M) :
    (Option VertexShader × Option PixelShader × Option BlendState × Option DepthStencilState
      × Option RasterizerState) × Option ShaderResourceView × Option SamplerState :=
  (call.pipeline, call.context.psResource0, call.context.psSampler0)

/-- The command binds the given view to some pixel-shader texture slot. -/
def bindsView (view : ShaderResourceView) (c : Command K M) : Bool :=
  match c with
  | .PSSetShaderResources _ bound => decide (bound = view)
  | _ => false

/-- The draw samples, in pixel-shader slot 0, the texture that is its render target. -/
def DrawCall.readsOwnTarget (call : DrawCall K M) : Bool :=
  match call.context.psResource0, call.context.renderTarget with
  | some view, some target => decide (view.resource = some target.resource)
  | _, _ => false

/-- The command binds a texture to a pixel-shader slot. -/
def isTextureBinding (c : Command K M) : Bool :=
  match c with
  | .PSSetShaderResources _ _ => true
  | _ => false

/-! ## InitGeometry -/

/-- The calls `InitGeometry` makes on other modules and on the device. -/
inductive InitCall where
  | newMesh (mesh : Mesh)
  | LoadShaders
  | CreateConstantBuffer (buffer : ConstantBuffer)
  | LoadTexture (view : ShaderResourceView)
  | CreateTexture2D (texture : GpuResource)
  | CreateRenderTargetView (view : RenderTargetView)
  | CreateShaderResourceView (view : ShaderResourceView)
  | CreateDepthStencilView (view : DepthStencilView)
  | CreateStates
  deriving DecidableEq, Repr

/-- How the calls of `InitGeometry` turn out: for a `Mesh` constructor, the message of
the `std::runtime_error` it throws, if it throws; for every other call, whether it
succeeds (a true return value, a non-null buffer, a result that is not `FAILED`). -/
structure InitOutcomes where
  meshError : Mesh → Option String
  ok : InitCall → Bool

/-- What a call of `InitGeometry` leaves: its return value, the last-error string, and
the calls it made, in order. -/
structure InitResult where
  result : Bool
  gLastError : String
  calls : List InitCall
  deriving DecidableEq, Repr

/-- The function `InitGeometry()`, statement by statement; every `return false` is the
first branch of a conditional and the rest of the function is the other branch. -/
def InitGeometry (o : InitOutcomes) (gLastError : String) : InitResult :=
  -- Load mesh geometry data: the try block, left at the first constructor that throws
  let calls : List InitCall := [InitCall.newMesh .gLightMesh]
  match o.meshError .gLightMesh with
  | some what => InitResult.mk false what calls
  | none =>
  let calls : List InitCall := calls ++ [InitCall.newMesh .gPortalMesh]
  match o.meshError .gPortalMesh with
  | some what => InitResult.mk false what calls
  | none =>
  let calls : List InitCall := calls ++ [InitCall.newMesh .gFloorMesh]
  match o.meshError .gFloorMesh with
  | some what => InitResult.mk false what calls
  | none =>
  let calls : List InitCall := calls ++ [InitCall.newMesh .gTeapotMesh]
  match o.meshError .gTeapotMesh with
  | some what => InitResult.mk false what calls
  | none =>
  let calls : List InitCall := calls ++ [InitCall.newMesh .gSphereMesh]
  match o.meshError .gSphereMesh with
  | some what => InitResult.mk false what calls
  | none =>
  let calls : List InitCall := calls ++ [InitCall.newMesh .gCubeMesh]
  match o.meshError .gCubeMesh with
  | some what => InitResult.mk false what calls
  | none =>
  let calls : List InitCall := calls ++ [InitCall.newMesh .gTrollMesh]
  match o.meshError .gTrollMesh with
  | some what => InitResult.mk false what calls
  | none =>
  let calls : List InitCall := calls ++ [InitCall.newMesh .gRobotMesh]
  match o.meshError .gRobotMesh with
  | some what => InitResult.mk false what calls
  | none =>
  -- Load the shaders
  let calls : List InitCall := calls ++ [InitCall.LoadShaders]
  if o.ok InitCall.LoadShaders = false then InitResult.mk false "Error loading shaders" calls else
  -- Create GPU-side constant buffers: both are created, then both are checked
  let calls : List InitCall := calls ++ [InitCall.CreateConstantBuffer .gPerFrameConstantBuffer]
  let calls : List InitCall := calls ++ [InitCall.CreateConstantBuffer .gPerModelConstantBuffer]
  if o.ok (InitCall.CreateConstantBuffer .gPerFrameConstantBuffer) = false
      ∨ o.ok (InitCall.CreateConstantBuffer .gPerModelConstantBuffer) = false then
    InitResult.mk false "Error creating constant buffers" calls else
  -- Load textures: a chain of short-circuit disjunctions, one call per operand
  let calls : List InitCall := calls ++ [InitCall.LoadTexture .gLightDiffuseMapSRV]
  if o.ok (InitCall.LoadTexture .gLightDiffuseMapSRV) = false then
    InitResult.mk false "Error loading textures" calls else
  let calls : List InitCall := calls ++ [InitCall.LoadTexture .gFloorDiffuseSpecularMapSRV]
  if o.ok (InitCall.LoadTexture .gFloorDiffuseSpecularMapSRV) = false then
    InitResult.mk false "Error loading textures" calls else
  let calls : List InitCall := calls ++ [InitCall.LoadTexture .gTeapotDiffuseSpecularMapSRV]
  if o.ok (InitCall.LoadTexture .gTeapotDiffuseSpecularMapSRV) = false then
    InitResult.mk false "Error loading textures" calls else
  let calls : List InitCall := calls ++ [InitCall.LoadTexture .gSphereDiffuseSpecularMapSRV]
  if o.ok (InitCall.LoadTexture .gSphereDiffuseSpecularMapSRV) = false then
    InitResult.mk false "Error loading textures" calls else
  let calls : List InitCall := calls ++ [InitCall.LoadTexture .gTwoTextureCubeDiffuseSpecularMap1SRV]
  if o.ok (InitCall.LoadTexture .gTwoTextureCubeDiffuseSpecularMap1SRV) = false then
    InitResult.mk false "Error loading textures" calls else
  let calls : List InitCall := calls ++ [InitCall.LoadTexture .gTwoTextureCubeDiffuseSpecularMap2SRV]
  if o.ok (InitCall.LoadTexture .gTwoTextureCubeDiffuseSpecularMap2SRV) = false then
    InitResult.mk false "Error loading textures" calls else
  let calls : List InitCall := calls ++ [InitCall.LoadTexture .gAddBlendCubeDiffuseSpecularMapSRV]
  if o.ok (InitCall.LoadTexture .gAddBlendCubeDiffuseSpecularMapSRV) = false then
    InitResult.mk false "Error loading textures" calls else
  let calls : List InitCall := calls ++ [InitCall.LoadTexture .gMultiBlendCubeDiffuseSpecularMapSRV]
  if o.ok (InitCall.LoadTexture .gMultiBlendCubeDiffuseSpecularMapSRV) = false then
    InitResult.mk false "Error loading textures" calls else
  let calls : List InitCall := calls ++ [InitCall.LoadTexture .gAlphaBlendCubeDiffuseSpecularMapSRV]
  if o.ok (InitCall.LoadTexture .gAlphaBlendCubeDiffuseSpecularMapSRV) = false then
    InitResult.mk false "Error loading textures" calls else
  let calls : List InitCall := calls ++ [InitCall.LoadTexture .gNormalMapCubeDiffuseSpecularMapSRV]
  if o.ok (InitCall.LoadTexture .gNormalMapCubeDiffuseSpecularMapSRV) = false then
    InitResult.mk false "Error loading textures" calls else
  let calls : List InitCall := calls ++ [InitCall.LoadTexture .gNormalMapCubeNormalMapSRV]
  if o.ok (InitCall.LoadTexture .gNormalMapCubeNormalMapSRV) = false then
    InitResult.mk false "Error loading textures" calls else
  let calls : List InitCall := calls ++ [InitCall.LoadTexture .gTrollDiffuseMapSRV]
  if o.ok (InitCall.LoadTexture .gTrollDiffuseMapSRV) = false then
    InitResult.mk false "Error loading textures" calls else
  let calls : List InitCall := calls ++ [InitCall.LoadTexture .gCellMapSRV]
  if o.ok (InitCall.LoadTexture .gCellMapSRV) = false then
    InitResult.mk false "Error loading textures" calls else
  let calls : List InitCall := calls ++ [InitCall.LoadTexture .gRobotDiffuseSpecularMapSRV]
  if o.ok (InitCall.LoadTexture .gRobotDiffuseSpecularMapSRV) = false then
    InitResult.mk false "Error loading textures" calls else
  -- Create the portal texture, its two views, the portal depth buffer and its view
  let calls : List InitCall := calls ++ [InitCall.CreateTexture2D .gPortalTexture]
  if o.ok (InitCall.CreateTexture2D .gPortalTexture) = false then
    InitResult.mk false "Error creating portal texture" calls else
  let calls : List InitCall := calls ++ [InitCall.CreateRenderTargetView .gPortalRenderTarget]
  if o.ok (InitCall.CreateRenderTargetView .gPortalRenderTarget) = false then
    InitResult.mk false "Error creating portal render target view" calls else
  let calls : List InitCall := calls ++ [InitCall.CreateShaderResourceView .gPortalTextureSRV]
  if o.ok (InitCall.CreateShaderResourceView .gPortalTextureSRV) = false then
    InitResult.mk false "Error creating portal shader resource view" calls else
  let calls : List InitCall := calls ++ [InitCall.CreateTexture2D .gPortalDepthStencil]
  if o.ok (InitCall.CreateTexture2D .gPortalDepthStencil) = false then
    InitResult.mk false "Error creating portal depth stencil texture" calls else
  let calls : List InitCall := calls ++ [InitCall.CreateDepthStencilView .gPortalDepthStencilView]
  if o.ok (InitCall.CreateDepthStencilView .gPortalDepthStencilView) = false then
    InitResult.mk false "Error creating portal depth stencil view" calls else
  -- Create all filtering modes, blending modes etc.
  let calls : List InitCall := calls ++ [InitCall.CreateStates]
  if o.ok InitCall.CreateStates = false then InitResult.mk false "Error creating states" calls else
  InitResult.mk true gLastError calls

/-! ### InitGeometry in the words of the specification -/

/-- The sub-steps of `InitGeometry` as the specification counts them: eight mesh loads,
the shader load, the creation of the two constant buffers, fourteen texture loads, the
five portal objects, the state objects. -/
inductive InitStep where
  | meshLoad (mesh : Mesh)
  | loadShaders
  | constantBuffers
  | textureLoad (view : ShaderResourceView)
  | portalTexture
  | portalRenderTargetView
  | portalShaderResourceView
  | portalDepthTexture
  | portalDepthStencilView
  | createStates
  deriving DecidableEq, Repr

/-- The thirty sub-steps in order. -/
def initSteps : List InitStep :=
  [.meshLoad .gLightMesh, .meshLoad .gPortalMesh, .meshLoad .gFloorMesh,
    .meshLoad .gTeapotMesh, .meshLoad .gSphereMesh, .meshLoad .gCubeMesh,
    .meshLoad .gTrollMesh, .meshLoad .gRobotMesh, .loadShaders, .constantBuffers,
    .textureLoad .gLightDiffuseMapSRV, .textureLoad .gFloorDiffuseSpecularMapSRV,
    .textureLoad .gTeapotDiffuseSpecularMapSRV, .textureLoad .gSphereDiffuseSpecularMapSRV,
    .textureLoad .gTwoTextureCubeDiffuseSpecularMap1SRV,
    .textureLoad .gTwoTextureCubeDiffuseSpecularMap2SRV,
    .textureLoad .gAddBlendCubeDiffuseSpecularMapSRV,
    .textureLoad .gMultiBlendCubeDiffuseSpecularMapSRV,
    .textureLoad .gAlphaBlendCubeDiffuseSpecularMapSRV,
    .textureLoad .gNormalMapCubeDiffuseSpecularMapSRV,
    .textureLoad .gNormalMapCubeNormalMapSRV, .textureLoad .gTrollDiffuseMapSRV,
    .textureLoad .gCellMapSRV, .textureLoad .gRobotDiffuseSpecularMapSRV, .portalTexture,
    .portalRenderTargetView, .portalShaderResourceView, .portalDepthTexture,
    .portalDepthStencilView, .createStates]

/-- The calls a sub-step consists of. -/
def InitStep.calls : InitStep → List InitCall
  | .meshLoad mesh => [.newMesh mesh]
  | .loadShaders => [.LoadShaders]
  | .constantBuffers =>
    [.CreateConstantBuffer .gPerFrameConstantBuffer,
      .CreateConstantBuffer .gPerModelConstantBuffer]
  | .textureLoad view => [.LoadTexture view]
  | .portalTexture => [.CreateTexture2D .gPortalTexture]
  | .portalRenderTargetView => [.CreateRenderTargetView .gPortalRenderTarget]
  | .portalShaderResourceView => [.CreateShaderResourceView .gPortalTextureSRV]
  | .portalDepthTexture => [.CreateTexture2D .gPortalDepthStencil]
  | .portalDepthStencilView => [.CreateDepthStencilView .gPortalDepthStencilView]
  | .createStates => [.CreateStates]

/-- A sub-step succeeds: the mesh constructor does not throw, both constant buffers are
created, the call succeeds. -/
def InitStep.succeeds (o : InitOutcomes) : InitStep → Bool
  | .meshLoad mesh => (o.meshError mesh).isNone
  | .constantBuffers =>
    o.ok (.CreateConstantBuffer .gPerFrameConstantBuffer)
      && o.ok (.CreateConstantBuffer .gPerModelConstantBuffer)
  | .loadShaders => o.ok .LoadShaders
  | .textureLoad view => o.ok (.LoadTexture view)
  | .portalTexture => o.ok (.CreateTexture2D .gPortalTexture)
  | .portalRenderTargetView => o.ok (.CreateRenderTargetView .gPortalRenderTarget)
  | .portalShaderResourceView => o.ok (.CreateShaderResourceView .gPortalTextureSRV)
  | .portalDepthTexture => o.ok (.CreateTexture2D .gPortalDepthStencil)
  | .portalDepthStencilView => o.ok (.CreateDepthStencilView .gPortalDepthStencilView)
  | .createStates => o.ok .CreateStates

/-- The message of a failing sub-step: the text of the exception for a mesh load, the
fixed text of the source for the others. -/
def InitStep.message (o : InitOutcomes) : InitStep → String
  | .meshLoad mesh => (o.meshError mesh).getD ""
  | .loadShaders => "Error loading shaders"
  | .constantBuffers => "Error creating constant buffers"
  | .textureLoad _ => "Error loading textures"
  | .portalTexture => "Error creating portal texture"
  | .portalRenderTargetView => "Error creating portal render target view"
  | .portalShaderResourceView => "Error creating portal shader resource view"
  | .portalDepthTexture => "Error creating portal depth stencil texture"
  | .portalDepthStencilView => "Error creating portal depth stencil view"
  | .createStates => "Error creating states"

/-- First-failure-wins execution of a list of sub-steps, in the words of the
specification: the sub-steps are attempted in order; the first one that fails ends the
run with result false and its message as last error; if none fails the result is true
and the last error is left as it was. -/
def runSteps (o : InitOutcomes) (gLastError : String) :
    List InitStep → List InitCall → InitResult
  | [], calls => ⟨true, gLastError, calls⟩
  | step :: rest, calls =>
    if step.succeeds o then runSteps o gLastError rest (calls ++ step.calls)
    else ⟨false, step.message o, calls ++ step.calls⟩

/-- Outcomes in which every mesh loads and every call succeeds except `LoadShaders`. -/
def shadersFail : InitOutcomes where
  meshError := fun _ => none
  ok := fun call => call != InitCall.LoadShaders

/-! ## ReleaseResources -/

/-- The two camera globals. -/
inductive CameraName where
  | gCamera
  | gPortalCamera
  deriving DecidableEq, Repr

/-- What the two init functions acquire and `ReleaseResources` has to give back: heap
objects (meshes, models, cameras) and device objects (textures, views, buffers). -/
inductive Owned where
  | mesh (mesh : Mesh)
  | model (model : ModelName)
  | camera (camera : CameraName)
  | texture (texture : GpuResource)
  | shaderResourceView (view : ShaderResourceView)
  | renderTargetView (view : RenderTargetView)
  | depthStencilView (view : DepthStencilView)
  | constantBuffer (buffer : ConstantBuffer)
  deriving DecidableEq, Repr

/-- The operations of `ReleaseResources`. -/
inductive Teardown where
  | ReleaseStates
  | ReleaseShaders
  | Release (object : Owned)
  | Delete (object : Owned)
  deriving DecidableEq, Repr

/-- The statement `if (p) p->Release();`, for a pointer that is non-null when `live`. -/
def releaseIf (live : Owned → Bool) (object : Owned) : List Teardown :=
  if live object then [.Release object] else []

/-- The statements `delete p; p = nullptr;`: deleting a null pointer does nothing. -/
def deleteIf (live : Owned → Bool) (object : Owned) : List Teardown :=
  if live object then [.Delete object] else []

/-- The device objects `ReleaseResources` releases, in the order of its statements. -/
def releaseOrder : List Owned :=
  [.depthStencilView .gPortalDepthStencilView, .texture .gPortalDepthStencil,
    .shaderResourceView .gPortalTextureSRV, .renderTargetView .gPortalRenderTarget,
    .texture .gPortalTexture,
    .shaderResourceView .gLightDiffuseMapSRV, .texture .gLightDiffuseMap,
    .shaderResourceView .gFloorDiffuseSpecularMapSRV, .texture .gFloorDiffuseSpecularMap,
    .shaderResourceView .gTeapotDiffuseSpecularMapSRV, .texture .gTeapotDiffuseSpecularMap,
    .shaderResourceView .gSphereDiffuseSpecularMapSRV, .texture .gSphereDiffuseSpecularMap,
    .shaderResourceView .gTwoTextureCubeDiffuseSpecularMap1SRV,
    .texture .gTwoTextureCubeDiffuseSpecularMap1,
    .shaderResourceView .gAddBlendCubeDiffuseSpecularMapSRV,
    .texture .gAddBlendCubeDiffuseSpecularMap,
    .shaderResourceView .gMultiBlendCubeDiffuseSpecularMapSRV,
    .texture .gMultiBlendCubeDiffuseSpecularMap,
    .shaderResourceView .gAlphaBlendCubeDiffuseSpecularMapSRV,
    .texture .gAlphaBlendCubeDiffuseSpecularMap,
    .shaderResourceView .gNormalMapCubeDiffuseSpecularMapSRV,
    .texture .gNormalMapCubeDiffuseSpecularMap,
    .shaderResourceView .gNormalMapCubeNormalMapSRV, .texture .gNormalMapCubeNormalMap,
    .shaderResourceView .gTrollDiffuseMapSRV, .texture .gTrollDiffuseMap,
    .shaderResourceView .gCellMapSRV, .texture .gCellMap,
    .texture .gRobotDiffuseSpecularMap, .shaderResourceView .gRobotDiffuseSpecularMapSRV,
    .constantBuffer .gPerModelConstantBuffer, .constantBuffer .gPerFrameConstantBuffer]

/-- The heap objects `ReleaseResources` deletes, in the order of its statements. -/
def deleteOrder : List Owned :=
  [.camera .gCamera, .camera .gPortalCamera, .mesh .gPortalMesh, .mesh .gLightMesh,
    .model .gTroll, .mesh .gFloorMesh, .mesh .gTeapotMesh, .mesh .gSphereMesh,
    .mesh .gCubeMesh, .mesh .gTrollMesh, .model .gFloor, .model .gTeapot, .model .gSphere,
    .model .gTwoTextureCube, .model .gAddBlendcube, .model .gMultiBlendcube,
    .model .gAlphaBlendCube, .model .gNormalMapCube, .model .gPortal, .model .gLight1,
    .model .gLight2, .model .gLight3, .model .gLight4, .model .gLight5, .model .gRobot]

/-- The function `ReleaseResources()`: `ReleaseStates`, the conditional releases, the
`ReleaseShaders` call, the deletes; `live` tells which pointers are non-null. -/
def ReleaseResources (live : Owned → Bool) : List Teardown :=
  [.ReleaseStates] ++ releaseOrder.flatMap (releaseIf live) ++ [.ReleaseShaders]
    ++ deleteOrder.flatMap (deleteIf live)

/-- What a successful call of `InitGeometry` yields: a mesh, a texture and its view, a
buffer, a view. Shaders and states are given back by `ReleaseShaders` and
`ReleaseStates`. -/
def InitCall.acquires : InitCall → List Owned
  | .newMesh mesh => [.mesh mesh]
  | .LoadShaders => []
  | .CreateConstantBuffer buffer => [.constantBuffer buffer]
  | .LoadTexture view =>
    match view.resource with
    | some texture => [.texture texture, .shaderResourceView view]
    | none => [.shaderResourceView view]
  | .CreateTexture2D texture => [.texture texture]
  | .CreateRenderTargetView view => [.renderTargetView view]
  | .CreateShaderResourceView view => [.shaderResourceView view]
  | .CreateDepthStencilView view => [.depthStencilView view]
  | .CreateStates => []

/-- The sixteen models and two cameras `InitScene` creates with `new`. -/
def sceneObjects : List Owned :=
  [.model .gFloor, .model .gTeapot, .model .gSphere, .model .gLight1, .model .gLight2,
    .model .gLight3, .model .gLight4, .model .gLight5, .model .gTwoTextureCube,
    .model .gAddBlendcube, .model .gMultiBlendcube, .model .gAlphaBlendCube,
    .model .gNormalMapCube, .model .gTroll, .model .gPortal, .model .gRobot,
    .camera .gCamera, .camera .gPortalCamera]

/-- The outcomes under which every call of `InitGeometry` succeeds. -/
def allSucceed : InitOutcomes where
  meshError := fun _ => none
  ok := fun _ => true

/-- Everything acquired by a successful `InitGeometry` followed by `InitScene`. -/
def acquired : List Owned :=
  (InitGeometry allSucceed "").calls.flatMap InitCall.acquires ++ sceneObjects

/-- The pointers that are non-null after a successful `InitGeometry` and `InitScene`. -/
def liveAfterInit (object : Owned) : Bool := acquired.contains object

/-- The operation that gives an object back: `delete` for a heap object, `Release` for a
device object. -/
def Owned.teardown : Owned → Teardown
  | .mesh m => .Delete (.mesh m)
  | .model m => .Delete (.model m)
  | .camera c => .Delete (.camera c)
  | object => .Release object

end Observations

/-! ## The type `float` : IEEE 754 binary32 -/

/-- Floor of the base-2 logarithm of `n` (zero for `n < 2`); the first argument bounds
the number of halvings and is taken to be `n` itself. -/
def log2Floor : Nat → Nat → Nat
  | 0, _ => 0
  | fuel + 1, n => if n < 2 then 0 else log2Floor fuel (n / 2) + 1

/-- Ceiling of the base-2 logarithm of `n` (zero for `n < 2`), with fuel as in
`log2Floor`. -/
def log2Ceil : Nat → Nat → Nat
  | 0, _ => 0
  | fuel + 1, n => if n < 2 then 0 else log2Ceil fuel ((n + 1) / 2) + 1

/-- The binade of a rational `q ≠ 0`: the integer `k` with `2 ^ k ≤ |q| < 2 ^ (k + 1)`. -/
def binade (q : ℚ) : ℤ :=
  if 1 ≤ |q| then (log2Floor ⌊|q|⌋₊ ⌊|q|⌋₊ : ℤ) else -(log2Ceil ⌈|q|⁻¹⌉₊ ⌈|q|⁻¹⌉₊ : ℤ)

/-- The spacing of binary32 numbers around `q`: 24 significant bits in the normal range,
`2 ^ (-149)` below `2 ^ (-126)`. -/
def quantum (q : ℚ) : ℚ := (2 : ℚ) ^ (max (binade q) (-126) - 23)

/-- Rounding of a rational to the nearest integer, a tie going to the even one. -/
def roundHalfEven (x : ℚ) : ℤ :=
  if x - ⌊x⌋ < 1 / 2 then ⌊x⌋
  else if 1 / 2 < x - ⌊x⌋ then ⌊x⌋ + 1
  else if ⌊x⌋ % 2 = 0 then ⌊x⌋
  else ⌊x⌋ + 1

/-- The multiple of the spacing nearest to `q`, ties to even: the binary32 rounding of
`q` in round-to-nearest mode, before the range check. -/
def nearest (q : ℚ) : ℚ := roundHalfEven (q / quantum q) * quantum q

/-- The rational is a binary32 number: rounding leaves it as it is, and it is below
`2 ^ 128` in magnitude. -/
def isBinary32 (q : ℚ) : Bool := decide (nearest q = q ∧ |q| < 2 ^ 128)

/-- A value of the C type `float` (IEEE 754 binary32): a finite binary32 number, held as
the rational it is, an infinity, or NaN. The two zeros are one value here (they compare
equal, and no operation `Scene.cpp` applies tells them apart) and so are all NaNs. -/
inductive Binary32 where
  | finite (value : ℚ) (representable : isBinary32 value = true)
  | infinity (negative : Bool)
  | NaN
  deriving DecidableEq

namespace Binary32

/-- Rounding of an exact result to binary32, round-to-nearest-even: the nearest binary32
number, or an infinity when the rounded magnitude reaches `2 ^ 128`. -/
def round (q : ℚ) : Binary32 :=
  if h : isBinary32 (nearest q) = true then .finite (nearest q) h
  else .infinity (decide (q < 0))

/-- Unary minus. -/
def neg : Binary32 → Binary32
  | .finite a _ => round (-a)
  | .infinity s => .infinity (!s)
  | .NaN => .NaN

/-- Addition: the exact sum, rounded; opposite infinities give NaN. -/
def add : Binary32 → Binary32 → Binary32
  | .finite a _, .finite b _ => round (a + b)
  | .finite _ _, .infinity s => .infinity s
  | .infinity s, .finite _ _ => .infinity s
  | .infinity s, .infinity t => if s = t then .infinity s else .NaN
  | _, _ => .NaN

/-- Subtraction, `a + (-b)`. -/
def sub (a b : Binary32) : Binary32 := add a (neg b)

/-- Multiplication: the exact product, rounded; zero times infinity gives NaN. -/
def mul : Binary32 → Binary32 → Binary32
  | .finite a _, .finite b _ => round (a * b)
  | .finite a _, .infinity s => if a = 0 then .NaN else .infinity (xor s (decide (a < 0)))
  | .infinity s, .finite b _ => if b = 0 then .NaN else .infinity (xor s (decide (b < 0)))
  | .infinity s, .infinity t => .infinity (xor s t)
  | _, _ => .NaN

/-- Division: the exact quotient, rounded. A zero divisor is taken as `+0`; zero by zero
and infinity by infinity give NaN. -/
def div : Binary32 → Binary32 → Binary32
  | .finite a _, .finite b _ =>
    if b = 0 then (if a = 0 then .NaN else .infinity (decide (a < 0))) else round (a / b)
  | .finite _ _, .infinity _ => round 0
  | .infinity s, .finite b _ => .infinity (xor s (decide (b < 0)))
  | _, _ => .NaN

/-- The comparison `a < b` of C: false when either side is NaN. -/
def lt : Binary32 → Binary32 → Bool
  | .finite a _, .finite b _ => decide (a < b)
  | .finite _ _, .infinity s => !s
  | .infinity s, .finite _ _ => s
  | .infinity s, .infinity t => s && !t
  | _, _ => false

/-- The comparison `a <= b` of C: false when either side is NaN. -/
def le : Binary32 → Binary32 → Bool
  | .finite a _, .finite b _ => decide (a ≤ b)
  | .finite _ _, .infinity s => !s
  | .infinity s, .finite _ _ => s
  | .infinity s, .infinity t => s || !t
  | _, _ => false

instance : Zero Binary32 := ⟨round 0⟩
instance : One Binary32 := ⟨round 1⟩
instance : NatCast Binary32 := ⟨fun n => round n⟩
instance : IntCast Binary32 := ⟨fun z => round z⟩
instance : Neg Binary32 := ⟨neg⟩
instance : Add Binary32 := ⟨add⟩
instance : Sub Binary32 := ⟨sub⟩
instance : Mul Binary32 := ⟨mul⟩
instance : Div Binary32 := ⟨div⟩
instance : LT Binary32 := ⟨fun a b => lt a b = true⟩
instance : LE Binary32 := ⟨fun a b => le a b = true⟩
instance : DecidableRel ((· < ·) : Binary32 → Binary32 → Prop) :=
  fun a b => inferInstanceAs (Decidable (lt a b = true))
instance : DecidableRel ((· ≤ ·) : Binary32 → Binary32 → Prop) :=
  fun a b => inferInstanceAs (Decidable (le a b = true))

/-- The rational value of a finite binary32 number (zero for infinities and NaN). -/
def toRat : Binary32 → ℚ
  | .finite a _ => a
  | _ => 0

/-- The value is a finite number. -/
def isFinite : Binary32 → Bool
  | .finite _ _ => true
  | _ => false

end Binary32

namespace Binary32

/-- The binary32 nearest to the exact product `rate * x`, for an exact rate: the step
`rate * dt` of an oscillator, rounded once. -/
def scale (rate : ℚ) : Binary32 → Binary32
  | .finite a _ => round (rate * a)
  | .infinity s => if rate = 0 then .NaN else .infinity (xor s (decide (rate < 0)))
  | .NaN => .NaN

end Binary32

/-- The oscillator step of the specification in binary32: the step is the binary32
nearest to `rate * dt`, the value moves by it with a binary32 addition or subtraction,
and the direction flips on the stored result as in `oscillate`. -/
def floatOscillator (rate : ℚ) (lo hi dt : Binary32) (d : valueChange) (v : Binary32) :
    valueChange × Binary32 :=
  oscillate (Binary32.scale rate dt) lo hi d v

/-! ## A binary32 environment -/

/-- Taylor polynomial of the cosine, degree 20, on rationals. -/
def cosTaylor (x : ℚ) : ℚ :=
  1 - x ^ 2 / 2 * (1 - x ^ 2 / 12 * (1 - x ^ 2 / 30 * (1 - x ^ 2 / 56 * (1 - x ^ 2 / 90 *
    (1 - x ^ 2 / 132 * (1 - x ^ 2 / 182 * (1 - x ^ 2 / 240 * (1 - x ^ 2 / 306 *
      (1 - x ^ 2 / 380)))))))))

/-- Taylor polynomial of the sine, degree 21, on rationals. -/
def sinTaylor (x : ℚ) : ℚ :=
  x * (1 - x ^ 2 / 6 * (1 - x ^ 2 / 20 * (1 - x ^ 2 / 42 * (1 - x ^ 2 / 72 * (1 - x ^ 2 / 110 *
    (1 - x ^ 2 / 156 * (1 - x ^ 2 / 210 * (1 - x ^ 2 / 272 * (1 - x ^ 2 / 342 *
      (1 - x ^ 2 / 420))))))))))

/-- Stand-in for the `float` cosine of the C library: the Taylor polynomial at the exact
argument, rounded to binary32. For arguments of magnitude up to 1 the polynomial is
within `10 ^ (-19)` of the cosine; `cos` of an infinity or NaN is NaN. -/
def cosf : Binary32 → Binary32
  | .finite a _ => Binary32.round (cosTaylor a)
  | _ => .NaN

/-- Stand-in for the `float` sine of the C library, as `cosf`. -/
def sinf : Binary32 → Binary32
  | .finite a _ => Binary32.round (sinTaylor a)
  | _ => .NaN

/-- An environment for running the scene in binary32: `cosf` and `sinf` for the
trigonometric functions and, as in `sampleEnv`, `pow` exact for exponent `1` and the
binary32 nearest to `10 ^ 1.5` for the one other call of `InitScene`, `355 / 113` for pi,
new models with zero position and rotation and unit scale, facing that keeps the stored
rotation, and no key pressed. -/
def floatEnv : Env Binary32 (MatrixExpr Binary32) where
  cos := cosf
  sin := sinf
  pow := fun a b =>
    if b = 1 then a else if a = 10 ∧ b = 3 / 2 then 31622777 / 1000000 else .NaN
  ToRadians := fun d => d * (355 / 113) / 180
  zeroMatrix := .zero
  newModel := fun mesh => ⟨mesh, ⟨0, 0, 0⟩, ⟨0, 0, 0⟩, ⟨1, 1, 1⟩⟩
  newCamera := ⟨⟨0, 0, 0⟩, ⟨0, 0, 0⟩, 1 / 10, 10000⟩
  modelFacing := fun m _ => m.rotation
  cameraFacing := fun c _ => c.rotation
  Control := fun _ c => c
  ViewMatrix := .view
  ProjectionMatrix := .projection
  ViewProjectionMatrix := .viewProjection
  WorldMatrix := .world
  defaultColour := ⟨1 / 2, 1 / 2, 1 / 2⟩
  gViewportWidth := 1280
  gViewportHeight := 960

/-! ## Predicates on binary32 values used by the statements -/

/-- Invariant of an oscillator value in binary32: the value is a finite number that lies
in `[L, hi]` while going up and in `[lo, H]` while going down. -/
def oscillatorInv (L lo hi H : ℚ) (d : valueChange) (v : Binary32) : Prop :=
  ∃ x hx, v = Binary32.finite x hx
    ∧ (d = .UP → L ≤ x ∧ x ≤ hi) ∧ (d = .DOWN → lo ≤ x ∧ x ≤ H)

section Proofs

variable {K M : Type} [LinearOrderedField K]

theorem pulsateLightOne_eq (dt : K) (s : Scene K M) :
    pulsateLightOne dt s =
      { s with
        gLight1Strength := (specOscillator 10 1 30 dt s.light1Pulse s.gLight1Strength).2
        gLight1 := s.gLight1.SetScale
          ((specOscillator 10 1 30 dt s.light1Pulse s.gLight1Strength).2 / 2)
        light1Pulse := (specOscillator 10 1 30 dt s.light1Pulse s.gLight1Strength).1 } := by
  cases s with
  | mk p =>
    cases p <;>
      simp only [pulsateLightOne, specOscillator, gLight1Multiplier, gMaxLightStrength,
        gMinLightStrength, gLightStrengthModifer] <;>
      split_ifs <;> simp_all [mul_comm] <;> linarith

theorem changeLight2Red_eq (dt : K) (s : Scene K M) :
    changeLight2Red dt s =
      { s with
        gLight2Red := (specOscillator (1 / 5) (2 / 10) (99 / 100) dt s.redColour s.gLight2Red).2
        redColour := (specOscillator (1 / 5) (2 / 10) (99 / 100) dt s.redColour s.gLight2Red).1 } := by
  cases s with
  | mk p q =>
    cases q <;>
      simp only [changeLight2Red, specOscillator, gMaxLightColour, gMinLightColour,
        gLightColorModifier] <;>
      split_ifs <;> simp_all [div_eq_inv_mul] <;> linarith

theorem changeLight2Green_eq (dt : K) (s : Scene K M) :
    changeLight2Green dt s =
      { s with
        gLight2Green :=
          (specOscillator (1 / 5) (2 / 10) (99 / 100) dt s.greenColour s.gLight2Green).2
        greenColour :=
          (specOscillator (1 / 5) (2 / 10) (99 / 100) dt s.greenColour s.gLight2Green).1 } := by
  cases s with
  | mk p q r =>
    cases r <;>
      simp only [changeLight2Green, specOscillator, gMaxLightColour, gMinLightColour,
        gLightColorModifier] <;>
      split_ifs <;> simp_all [div_eq_inv_mul] <;> linarith

theorem lerpEffectStep_eq (dt : K) (s : Scene K M) :
    lerpEffectStep dt s =
      { s with
        gPerModelConstants := { s.gPerModelConstants with
          lerp := (specOscillator 1 0 1 dt s.lerpEffect s.gPerModelConstants.lerp).2 }
        lerpEffect := (specOscillator 1 0 1 dt s.lerpEffect s.gPerModelConstants.lerp).1 } := by
  cases s with
  | mk p q r l =>
    cases l <;>
      simp only [lerpEffectStep, specOscillator, gLerpMaxValue, gLerpMinValue] <;>
      split_ifs <;> simp_all <;> linarith

theorem frameTimeAccounting_eq (dt : K) (s : Scene K M) :
    frameTimeAccounting dt s =
      { s with
        totalFrameTime := if s.totalFrameTime + dt > 1 / 2 then 0 else s.totalFrameTime + dt
        frameCount := if s.totalFrameTime + dt > 1 / 2 then 0 else s.frameCount + 1 } := by
  simp only [frameTimeAccounting, fpsUpdateTime]
  split_ifs <;> rfl

/-- One `UpdateScene` call as a single record update: every field the call writes,
with the value it ends up with. -/
theorem UpdateScene_eq (E : Env K M) (dt : K) (s : Scene K M) :
    UpdateScene E dt s =
      { s with
        light1Pulse := (specOscillator 10 1 30 dt s.light1Pulse s.gLight1Strength).1
        gLight1Strength := (specOscillator 10 1 30 dt s.light1Pulse s.gLight1Strength).2
        gLight1 := s.gLight1.SetScale
          ((specOscillator 10 1 30 dt s.light1Pulse s.gLight1Strength).2 / 2)
        redColour := (specOscillator (1 / 5) (2 / 10) (99 / 100) dt s.redColour s.gLight2Red).1
        gLight2Red := (specOscillator (1 / 5) (2 / 10) (99 / 100) dt s.redColour s.gLight2Red).2
        greenColour :=
          (specOscillator (1 / 5) (2 / 10) (99 / 100) dt s.greenColour s.gLight2Green).1
        gLight2Green :=
          (specOscillator (1 / 5) (2 / 10) (99 / 100) dt s.greenColour s.gLight2Green).2
        gLight2Colour :=
          ⟨(specOscillator (1 / 5) (2 / 10) (99 / 100) dt s.redColour s.gLight2Red).2, 1 / 2, 1⟩
        gLight2 := s.gLight2.SetPosition
          (s.gTeapot.Position.add ⟨E.cos s.rotate * 20, 10, E.sin s.rotate * 20⟩)
        rotate := s.rotate - 7 / 10 * dt
        gPerModelConstants :=
          { s.gPerModelConstants with
            wiggle := s.gPerModelConstants.wiggle + 6 * dt
            rotation := s.gPerModelConstants.rotation + dt
            lerp := (specOscillator 1 0 1 dt s.lerpEffect s.gPerModelConstants.lerp).2 }
        lerpEffect := (specOscillator 1 0 1 dt s.lerpEffect s.gPerModelConstants.lerp).1
        rotateX := s.rotateX + dt / 2
        rotateY := s.rotateY + dt / 2
        rotateZ := s.rotateZ + dt / 2
        gAddBlendcube := s.gAddBlendcube.SetRotation ⟨0, s.rotateY + dt / 2, s.rotateZ + dt / 2⟩
        gMultiBlendcube :=
          s.gMultiBlendcube.SetRotation ⟨s.rotateX + dt / 2, 0, s.rotateZ + dt / 2⟩
        gAlphaBlendCube :=
          s.gAlphaBlendCube.SetRotation ⟨s.rotateX + dt / 2, s.rotateY + dt / 2, 0⟩
        gLight3 := s.gLight3.SetPosition
          (s.gMultiBlendcube.Position.add ⟨E.cos s.rotate2 * 40, 5, E.sin s.rotate2 * 40⟩)
        rotate2 := s.rotate2 - 1 * dt
        gLight4 := s.gLight4.SetPosition
          (s.gNormalMapCube.Position.add ⟨E.cos s.rotate3 * 20, 0, E.sin s.rotate3 * 20⟩)
        rotate3 := s.rotate3 - 1 * dt
        gLight5 := s.gLight5.SetPosition
          (s.gTroll.Position.add ⟨E.cos s.rotate4 * 30, 5, E.sin s.rotate4 * 30⟩)
        rotate4 := s.rotate4 - 1 * dt
        gPortal :=
          (s.gPortal.SetPosition
            (s.gTwoTextureCube.Position.add
              ⟨E.cos s.rotate5 * 80, 40, E.sin s.rotate5 * 80⟩)).FaceTarget E
            s.gTwoTextureCube.Position
        gPortalCamera :=
          (s.gPortalCamera.SetPosition
            (s.gTwoTextureCube.Position.add
              ⟨E.cos s.rotate5 * 80, 40, E.sin s.rotate5 * 80⟩)).FaceTarget E
            s.gTwoTextureCube.Position
        rotate5 := s.rotate5 - 1 / 2 * dt
        gCamera := E.Control dt s.gCamera
        totalFrameTime := if s.totalFrameTime + dt > 1 / 2 then 0 else s.totalFrameTime + dt
        frameCount := if s.totalFrameTime + dt > 1 / 2 then 0 else s.frameCount + 1 } := by
  simp only [UpdateScene, pulsateLightOne_eq, changeLight2Red_eq, changeLight2Green_eq,
    lerpEffectStep_eq, frameTimeAccounting_eq, composeLight2Colour, orbitLight2, wiggleEffect,
    rotateBlendingCubes, orbitLight3, orbitLight4, orbitLight5, movePortal, controlCamera,
    gLight2Orbit, gLight3Orbit, gLight4Orbit, gLight5Orbit, gLight2OrbitSpeed, gLight3OrbitSpeed,
    gLight4OrbitSpeed, gLight5OrbitSpeed, gPortalRotateMultipler, gWiggleMultipler,
    gRotateModifer, Model.SetPosition, Model.SetRotation, Model.SetScale, Model.Position,
    Model.FaceTarget, Camera.SetPosition, Camera.FaceTarget, Int.cast_ofNat]

/-! ### C4 -/

theorem specOscillator_zero_snd (rate lo hi : K) (d : valueChange) (v : K) :
    (specOscillator rate lo hi 0 d v).2 = v := by
  cases d <;> simp [specOscillator]

theorem UpdateScene_gLight2_position (E : Env K M) (dt : K) (s : Scene K M) :
    (UpdateScene E dt s).gLight2.position
      = s.gTeapot.position.add ⟨E.cos s.rotate * 20, 10, E.sin s.rotate * 20⟩ := by
  rw [UpdateScene_eq]
  rfl

theorem UpdateScene_rotate (E : Env K M) (dt : K) (s : Scene K M) :
    (UpdateScene E dt s).rotate = s.rotate - 7 / 10 * dt := by
  rw [UpdateScene_eq]

theorem UpdateScene_gTeapot (E : Env K M) (dt : K) (s : Scene K M) :
    (UpdateScene E dt s).gTeapot = s.gTeapot := by
  rw [UpdateScene_eq]

theorem real_sin_seven_tenths_ne_zero : Real.sin (7 / 10) ≠ 0 :=
  ne_of_gt (Real.sin_pos_of_pos_of_lt_pi (by norm_num)
    (lt_trans (by norm_num) Real.pi_gt_three))

/-- C4 fails as stated. Straight after `InitScene`, `UpdateScene(0)` changes a light
colour: light 2 goes from (1, 1, 1) to (0.1, 0.5, 1). And in the state reached from
`InitScene` by `UpdateScene(1)`, `UpdateScene(0)` moves light 2 (read on the real numbers
with the real cosine and sine), because a position is computed from the angle of the
call before. -/
theorem C4_update_zero_changes_state :
    lightColours (UpdateScene ratEnv 0 (InitScene ratEnv)) ≠ lightColours (InitScene ratEnv)
    ∧ (UpdateScene (sampleEnv Real.cos Real.sin) 0
          (UpdateScene (sampleEnv Real.cos Real.sin) 1
            (InitScene (sampleEnv Real.cos Real.sin)))).gLight2.position
        ≠ (UpdateScene (sampleEnv Real.cos Real.sin) 1
            (InitScene (sampleEnv Real.cos Real.sin))).gLight2.position := by
  constructor
  · intro h
    have h2 : (UpdateScene ratEnv 0 (InitScene ratEnv)).gLight2Colour
        = (InitScene ratEnv).gLight2Colour := by
      simp only [lightColours, List.cons.injEq] at h
      exact h.2.1
    rw [UpdateScene_eq] at h2
    have h3 := congrArg CVector3.y h2
    simp only [InitScene] at h3
    norm_num at h3
  · intro h
    rw [UpdateScene_gLight2_position, UpdateScene_gLight2_position, UpdateScene_rotate,
      UpdateScene_gTeapot] at h
    have h3 := congrArg CVector3.z h
    simp only [CVector3.add, InitScene, sampleEnv, Model.SetPosition] at h3
    norm_num at h3
    exact real_sin_seven_tenths_ne_zero h3

/-- C4 as amended. In every state produced by an `UpdateScene` call (so in every state
reached from `InitScene` by at least one call), a following `UpdateScene(0)` leaves
every model's scale, every light's colour and the position of every model other than
lights 2 to 5 and the portal unchanged; and `UpdateScene(0)` after `UpdateScene(0)`
leaves the positions of lights 2 to 5 and the portal unchanged as well. -/
theorem C4_update_zero_after_update (E : Env K M) (dt : K) (s : Scene K M) :
    modelScales (UpdateScene E 0 (UpdateScene E dt s)) = modelScales (UpdateScene E dt s)
    ∧ lightColours (UpdateScene E 0 (UpdateScene E dt s)) = lightColours (UpdateScene E dt s)
    ∧ fixedModelPositions (UpdateScene E 0 (UpdateScene E dt s))
        = fixedModelPositions (UpdateScene E dt s)
    ∧ orbitingPositions (UpdateScene E 0 (UpdateScene E 0 s))
        = orbitingPositions (UpdateScene E 0 s) := by
  refine ⟨?_, ?_, ?_, ?_⟩
  · rw [UpdateScene_eq E 0, UpdateScene_eq E dt]
    simp only [modelScales, specOscillator_zero_snd, Model.SetScale, Model.SetPosition,
      Model.SetRotation, Model.FaceTarget, Model.Position]
  · rw [UpdateScene_eq E 0, UpdateScene_eq E dt]
    simp only [lightColours, specOscillator_zero_snd]
  · rw [UpdateScene_eq E 0, UpdateScene_eq E dt]
    simp only [fixedModelPositions, Model.SetScale, Model.SetPosition, Model.SetRotation,
      Model.FaceTarget, Model.Position]
  · rw [UpdateScene_eq E 0, UpdateScene_eq E 0]
    simp only [orbitingPositions, Model.SetScale, Model.SetPosition, Model.SetRotation,
      Model.FaceTarget, Model.Position, mul_zero, sub_zero]

/-! ### C5 -/

/-- The colour `UpdateScene` composes for light 2, for every state and frame time: red
from the red oscillator, then the literals 0.5 and 1. -/
theorem UpdateScene_gLight2Colour (E : Env K M) (dt : K) (s : Scene K M) :
    (UpdateScene E dt s).gLight2Colour = ⟨(UpdateScene E dt s).gLight2Red, 1 / 2, 1⟩ := by
  rw [UpdateScene_eq]

/-- C5, the code at the failing input. After `UpdateScene(1)` from the state after
`InitScene` the green oscillator's value is 1/5, while the colour of light 2 is
(3/10, 1/2, 1): red follows the red oscillator, green is the literal 0.5 and not the
green oscillator's value. -/
theorem C5_green_channel_is_literal :
    (UpdateScene ratEnv 1 (InitScene ratEnv)).gLight2Red = 3 / 10
    ∧ (UpdateScene ratEnv 1 (InitScene ratEnv)).gLight2Green = 1 / 5
    ∧ (UpdateScene ratEnv 1 (InitScene ratEnv)).gLight2Colour = ⟨3 / 10, 1 / 2, 1⟩
    ∧ (UpdateScene ratEnv 1 (InitScene ratEnv)).gLight2Colour.y
        ≠ (UpdateScene ratEnv 1 (InitScene ratEnv)).gLight2Green := by
  rw [UpdateScene_eq]
  simp only [InitScene, specOscillator]
  norm_num

/-! ### C6 -/

/-- C6 fails as stated. From the state after `InitScene` (angle 0), `UpdateScene(1)`
decrements the angle of light 2 to `0 - 0.7 * 1`, but the position it writes is not the
teapot's position plus `(20 cos a', 10, 20 sin a')` for that decremented angle `a'`
(real numbers, real cosine and sine). -/
theorem C6_position_not_from_decremented_angle :
    (UpdateScene (sampleEnv Real.cos Real.sin) 1
        (InitScene (sampleEnv Real.cos Real.sin))).gLight2.position
      ≠ (UpdateScene (sampleEnv Real.cos Real.sin) 1
          (InitScene (sampleEnv Real.cos Real.sin))).gTeapot.position.add
        ⟨20 * Real.cos ((InitScene (sampleEnv Real.cos Real.sin)).rotate - 7 / 10 * 1), 10,
          20 * Real.sin ((InitScene (sampleEnv Real.cos Real.sin)).rotate - 7 / 10 * 1)⟩ := by
  intro h
  rw [UpdateScene_gLight2_position, UpdateScene_gTeapot] at h
  have h3 := congrArg CVector3.z h
  simp only [CVector3.add, InitScene, sampleEnv, Model.SetPosition] at h3
  norm_num at h3
  exact real_sin_seven_tenths_ne_zero h3

/-- Where `UpdateScene` puts the five orbiting entities, and what it leaves in the five
angle accumulators. -/
theorem UpdateScene_orbits (E : Env K M) (dt : K) (s : Scene K M) :
    ((UpdateScene E dt s).gLight2.position
        = (UpdateScene E dt s).gTeapot.position.add
            ⟨E.cos s.rotate * 20, 10, E.sin s.rotate * 20⟩
      ∧ (UpdateScene E dt s).rotate = s.rotate - 7 / 10 * dt)
    ∧ ((UpdateScene E dt s).gLight3.position
        = (UpdateScene E dt s).gMultiBlendcube.position.add
            ⟨E.cos s.rotate2 * 40, 5, E.sin s.rotate2 * 40⟩
      ∧ (UpdateScene E dt s).rotate2 = s.rotate2 - 1 * dt)
    ∧ ((UpdateScene E dt s).gLight4.position
        = (UpdateScene E dt s).gNormalMapCube.position.add
            ⟨E.cos s.rotate3 * 20, 0, E.sin s.rotate3 * 20⟩
      ∧ (UpdateScene E dt s).rotate3 = s.rotate3 - 1 * dt)
    ∧ ((UpdateScene E dt s).gLight5.position
        = (UpdateScene E dt s).gTroll.position.add
            ⟨E.cos s.rotate4 * 30, 5, E.sin s.rotate4 * 30⟩
      ∧ (UpdateScene E dt s).rotate4 = s.rotate4 - 1 * dt)
    ∧ ((UpdateScene E dt s).gPortal.position
        = (UpdateScene E dt s).gTwoTextureCube.position.add
            ⟨E.cos s.rotate5 * 80, 40, E.sin s.rotate5 * 80⟩
      ∧ (UpdateScene E dt s).rotate5 = s.rotate5 - 1 / 2 * dt) := by
  rw [UpdateScene_eq]
  exact ⟨⟨rfl, rfl⟩, ⟨rfl, rfl⟩, ⟨rfl, rfl⟩, ⟨rfl, rfl⟩, ⟨rfl, rfl⟩⟩

/-- C6 as amended. For every frame time, the position `UpdateScene(dt)` writes for an
orbiting entity is computed from the angle accumulator as it stood before this call's
decrement: light 2 is at the teapot's position plus `(20 cos a, 10, 20 sin a)`, and the
accumulator is `a - 0.7 * dt` afterwards; likewise light 3 (multiplicative-blend cube,
radius 40, height 5, speed 1), light 4 (normal-mapped cube, 20, 0, 1), light 5 (troll,
30, 5, 1) and the portal (two-texture cube, 80, 40, 0.5). -/
theorem C6_position_from_angle_before_decrement (E : Env K M) (dt : K) (s : Scene K M) :
    ((UpdateScene E dt s).gLight2.position
        = (UpdateScene E dt s).gTeapot.position.add
            ⟨E.cos s.rotate * 20, 10, E.sin s.rotate * 20⟩
      ∧ (UpdateScene E dt s).rotate = s.rotate - 7 / 10 * dt)
    ∧ ((UpdateScene E dt s).gLight3.position
        = (UpdateScene E dt s).gMultiBlendcube.position.add
            ⟨E.cos s.rotate2 * 40, 5, E.sin s.rotate2 * 40⟩
      ∧ (UpdateScene E dt s).rotate2 = s.rotate2 - 1 * dt)
    ∧ ((UpdateScene E dt s).gLight4.position
        = (UpdateScene E dt s).gNormalMapCube.position.add
            ⟨E.cos s.rotate3 * 20, 0, E.sin s.rotate3 * 20⟩
      ∧ (UpdateScene E dt s).rotate3 = s.rotate3 - 1 * dt)
    ∧ ((UpdateScene E dt s).gLight5.position
        = (UpdateScene E dt s).gTroll.position.add
            ⟨E.cos s.rotate4 * 30, 5, E.sin s.rotate4 * 30⟩
      ∧ (UpdateScene E dt s).rotate4 = s.rotate4 - 1 * dt)
    ∧ ((UpdateScene E dt s).gPortal.position
        = (UpdateScene E dt s).gTwoTextureCube.position.add
            ⟨E.cos s.rotate5 * 80, 40, E.sin s.rotate5 * 80⟩
      ∧ (UpdateScene E dt s).rotate5 = s.rotate5 - 1 / 2 * dt) :=
  UpdateScene_orbits E dt s

/-! ### C17 -/

/-- C17. After every `UpdateScene(dt)` the portal model is at the two-texture cube's
current position plus the orbit offset of radius 80 and height 40, the portal camera is
at that same position, and both have been re-aimed at the two-texture cube's current
position; each re-aim is computed on the model, respectively the camera, that already
has the new position, so the position is written before either re-aim. -/
theorem C17_portal_camera_follows_portal_model (E : Env K M) (dt : K) (s : Scene K M) :
    (UpdateScene E dt s).gPortal.position
        = (UpdateScene E dt s).gTwoTextureCube.position.add
            ⟨E.cos s.rotate5 * 80, 40, E.sin s.rotate5 * 80⟩
    ∧ (UpdateScene E dt s).gPortalCamera.position = (UpdateScene E dt s).gPortal.position
    ∧ (UpdateScene E dt s).gPortal.rotation
        = E.modelFacing
            (s.gPortal.SetPosition
              (s.gTwoTextureCube.position.add ⟨E.cos s.rotate5 * 80, 40, E.sin s.rotate5 * 80⟩))
            (UpdateScene E dt s).gTwoTextureCube.position
    ∧ (UpdateScene E dt s).gPortalCamera.rotation
        = E.cameraFacing
            (s.gPortalCamera.SetPosition
              (s.gTwoTextureCube.position.add ⟨E.cos s.rotate5 * 80, 40, E.sin s.rotate5 * 80⟩))
            (UpdateScene E dt s).gTwoTextureCube.position
    ∧ (UpdateScene E dt s).gTwoTextureCube = s.gTwoTextureCube := by
  rw [UpdateScene_eq]
  exact ⟨rfl, rfl, rfl, rfl, rfl⟩

end Proofs

/-! ### Rounding to binary32 -/

theorem log2Floor_eq (fuel n : Nat) (h : n ≤ fuel) : log2Floor fuel n = Nat.log 2 n := by
  induction fuel generalizing n with
  | zero =>
    have h0 : n = 0 := Nat.le_zero.mp h
    subst h0
    simp [log2Floor]
  | succ f ih =>
    unfold log2Floor
    split_ifs with h2
    · exact (Nat.log_of_lt h2).symm
    · rw [Nat.log_of_one_lt_of_le (by norm_num) (Nat.le_of_not_lt h2), ih (n / 2) (by omega)]

theorem log2Ceil_eq (fuel n : Nat) (h : n ≤ fuel) : log2Ceil fuel n = Nat.clog 2 n := by
  induction fuel generalizing n with
  | zero =>
    have h0 : n = 0 := Nat.le_zero.mp h
    subst h0
    simp [log2Ceil]
  | succ f ih =>
    unfold log2Ceil
    split_ifs with h2
    · exact (Nat.clog_of_right_le_one (by omega) 2).symm
    · rw [Nat.clog_of_two_le (by norm_num) (Nat.le_of_not_lt h2), ih ((n + 1) / 2) (by omega)]
      rfl

theorem binade_eq_log (q : ℚ) : binade q = Int.log 2 |q| := by
  unfold binade Int.log
  split_ifs
  · rw [log2Floor_eq _ _ le_rfl]
  · rw [log2Ceil_eq _ _ le_rfl]

theorem pow_binade_le (q : ℚ) (hq : q ≠ 0) : (2 : ℚ) ^ binade q ≤ |q| := by
  rw [binade_eq_log]
  exact_mod_cast Int.zpow_log_le_self (b := 2) (by norm_num) (abs_pos.mpr hq)

theorem lt_pow_binade (q : ℚ) : |q| < (2 : ℚ) ^ (binade q + 1) := by
  rw [binade_eq_log]
  exact_mod_cast Int.lt_zpow_succ_log_self (b := 2) (by norm_num) |q|

theorem binade_eq_of (q : ℚ) (k : ℤ) (h1 : (2 : ℚ) ^ k ≤ |q|) (h2 : |q| < (2 : ℚ) ^ (k + 1)) :
    binade q = k := by
  have hpos : 0 < |q| := lt_of_lt_of_le (by positivity) h1
  rw [binade_eq_log]
  have a : k ≤ Int.log 2 |q| :=
    (Int.zpow_le_iff_le_log (b := 2) (by norm_num) hpos).mp (by exact_mod_cast h1)
  have b : Int.log 2 |q| < k + 1 :=
    (Int.lt_zpow_iff_log_lt (b := 2) (by norm_num) hpos).mp (by exact_mod_cast h2)
  omega

theorem binade_neg (q : ℚ) : binade (-q) = binade q := by
  unfold binade
  rw [abs_neg]

theorem quantum_neg (q : ℚ) : quantum (-q) = quantum q := by
  unfold quantum
  rw [binade_neg]

theorem quantum_pos (q : ℚ) : 0 < quantum q := by
  unfold quantum
  positivity

theorem roundHalfEven_spec (x : ℚ) :
    |x - roundHalfEven x| ≤ 1 / 2
    ∧ (|x - roundHalfEven x| = 1 / 2 → roundHalfEven x % 2 = 0) := by
  have h1 := Int.floor_le x
  have h2 := Int.lt_floor_add_one x
  unfold roundHalfEven
  split_ifs with a b c
  · rw [abs_of_nonneg (by linarith)]
    exact ⟨by linarith, fun h => by linarith⟩
  · push_cast
    rw [abs_of_nonpos (by linarith)]
    exact ⟨by linarith, fun h => by linarith⟩
  · rw [abs_of_nonneg (by linarith)]
    exact ⟨by linarith, fun _ => c⟩
  · push_cast
    rw [abs_of_nonpos (by linarith)]
    exact ⟨by linarith, fun _ => by omega⟩

theorem roundHalfEven_unique (x : ℚ) (m : ℤ) (h1 : |x - m| ≤ 1 / 2)
    (h2 : |x - m| = 1 / 2 → m % 2 = 0) : roundHalfEven x = m := by
  obtain ⟨s1, s2⟩ := roundHalfEven_spec x
  generalize roundHalfEven x = r at s1 s2
  have a1 := abs_le.mp h1
  have a2 := abs_le.mp s1
  have d1 : ((r - m : ℤ) : ℚ) ≤ 1 := by push_cast; linarith [a1.1, a1.2, a2.1, a2.2]
  have d2 : (-1 : ℚ) ≤ ((r - m : ℤ) : ℚ) := by push_cast; linarith [a1.1, a1.2, a2.1, a2.2]
  have e1 : r - m ≤ 1 := by exact_mod_cast d1
  have e2 : -1 ≤ r - m := by exact_mod_cast d2
  have e3 : r = m ∨ r = m + 1 ∨ r = m - 1 := by omega
  rcases e3 with e | e | e
  · exact e
  · exfalso
    have hx : x = m + 1 / 2 := by
      have : (r : ℚ) = m + 1 := by rw [e]; push_cast; ring
      linarith [a1.1, a1.2, a2.1, a2.2]
    have t1 : m % 2 = 0 := h2 (by rw [hx]; norm_num)
    have t2 : r % 2 = 0 := s2 (by rw [hx, e]; push_cast; norm_num)
    omega
  · exfalso
    have hx : x = m - 1 / 2 := by
      have : (r : ℚ) = m - 1 := by rw [e]; push_cast; ring
      linarith [a1.1, a1.2, a2.1, a2.2]
    have t1 : m % 2 = 0 := h2 (by rw [hx]; norm_num)
    have t2 : r % 2 = 0 := s2 (by rw [hx, e]; push_cast; norm_num)
    omega

theorem roundHalfEven_intCast (n : ℤ) : roundHalfEven (n : ℚ) = n :=
  roundHalfEven_unique _ n (by norm_num) (fun h => by norm_num at h)

theorem roundHalfEven_neg (x : ℚ) : roundHalfEven (-x) = -roundHalfEven x := by
  obtain ⟨s1, s2⟩ := roundHalfEven_spec x
  have e : |(-x) - ((-roundHalfEven x : ℤ) : ℚ)| = |x - roundHalfEven x| := by
    rw [← abs_neg]
    congr 1
    push_cast
    ring
  refine roundHalfEven_unique _ _ (by rw [e]; exact s1) (fun h => ?_)
  have := s2 (by rw [← e]; exact h)
  omega

theorem roundHalfEven_mono (x y : ℚ) (h : x ≤ y) : roundHalfEven x ≤ roundHalfEven y := by
  obtain ⟨s1, s2⟩ := roundHalfEven_spec x
  obtain ⟨t1, t2⟩ := roundHalfEven_spec y
  by_contra hc
  have hc' : roundHalfEven y + 1 ≤ roundHalfEven x := by omega
  have hq : ((roundHalfEven y : ℤ) : ℚ) + 1 ≤ roundHalfEven x := by exact_mod_cast hc'
  have a1 := abs_le.mp s1
  have a2 := abs_le.mp t1
  have ex : x = roundHalfEven x - 1 / 2 := by linarith [a1.1, a1.2, a2.1, a2.2]
  have ey : y = roundHalfEven y + 1 / 2 := by linarith [a1.1, a1.2, a2.1, a2.2]
  have eq1 : ((roundHalfEven x : ℤ) : ℚ) = roundHalfEven y + 1 := by
    linarith [a1.1, a1.2, a2.1, a2.2]
  have eq2 : roundHalfEven x = roundHalfEven y + 1 := by exact_mod_cast eq1
  have u1 : roundHalfEven x % 2 = 0 := s2 (by
    have : x - roundHalfEven x = -(1 / 2) := by linarith
    rw [this]; norm_num)
  have u2 : roundHalfEven y % 2 = 0 := t2 (by
    have : y - roundHalfEven y = 1 / 2 := by linarith
    rw [this]; norm_num)
  omega

theorem nearest_zero : nearest 0 = 0 := by
  unfold nearest
  rw [zero_div]
  have := roundHalfEven_intCast 0
  simp only [Int.cast_zero] at this
  rw [this]
  simp

theorem nearest_neg (q : ℚ) : nearest (-q) = -nearest q := by
  unfold nearest
  rw [quantum_neg, neg_div, roundHalfEven_neg]
  push_cast
  ring

theorem nearest_mono_of_quantum_eq (p q : ℚ) (h : p ≤ q) (hq : quantum p = quantum q) :
    nearest p ≤ nearest q := by
  unfold nearest
  rw [hq]
  have hu := quantum_pos q
  have h1 : p / quantum q ≤ q / quantum q := div_le_div_of_nonneg_right h hu.le
  have h2 := roundHalfEven_mono _ _ h1
  have h3 : ((roundHalfEven (p / quantum q) : ℤ) : ℚ) ≤ roundHalfEven (q / quantum q) := by
    exact_mod_cast h2
  exact mul_le_mul_of_nonneg_right h3 hu.le

/-! ### Rounding is monotone and idempotent -/

theorem binade_mono (p q : ℚ) (hp : 0 < p) (h : p ≤ q) : binade p ≤ binade q := by
  rw [binade_eq_log, binade_eq_log, abs_of_pos hp, abs_of_pos (lt_of_lt_of_le hp h)]
  exact Int.log_mono_right hp h

/-- The spacing around `q`, and the two powers of two that bracket a binade, as
multiples of the spacing. -/
theorem quantum_facts (k : ℤ) :
    (2 : ℚ) ^ (k + 1) = ((16777216 : ℤ) : ℚ) * (2 : ℚ) ^ (k - 23)
    ∧ (2 : ℚ) ^ k = ((8388608 : ℤ) : ℚ) * (2 : ℚ) ^ (k - 23) := by
  constructor
  · have h : k + 1 = 24 + (k - 23) := by ring
    rw [h, zpow_add₀ (by norm_num)]
    norm_num
  · have h : k = 23 + (k - 23) := by ring
    nth_rewrite 1 [h]
    rw [zpow_add₀ (by norm_num)]
    norm_num

theorem nearest_le_pow (q : ℚ) (hq : 0 < q) :
    nearest q ≤ (2 : ℚ) ^ (max (binade q) (-126) + 1) := by
  have hu := quantum_pos q
  have h1 : q < (2 : ℚ) ^ (max (binade q) (-126) + 1) := by
    have := lt_pow_binade q
    rw [abs_of_pos hq] at this
    exact lt_of_lt_of_le this (zpow_le_zpow_right₀ (by norm_num) (by omega))
  rw [(quantum_facts _).1] at h1 ⊢
  unfold nearest
  have hu' : quantum q = (2 : ℚ) ^ (max (binade q) (-126) - 23) := rfl
  rw [← hu'] at h1 ⊢
  have h2 : q / quantum q ≤ ((16777216 : ℤ) : ℚ) := by
    rw [div_le_iff₀ hu]
    exact h1.le
  have h3 := roundHalfEven_mono _ _ h2
  rw [roundHalfEven_intCast] at h3
  have h4 : ((roundHalfEven (q / quantum q) : ℤ) : ℚ) ≤ ((16777216 : ℤ) : ℚ) := by
    exact_mod_cast h3
  exact mul_le_mul_of_nonneg_right h4 hu.le

theorem pow_le_nearest (q : ℚ) (hq : 0 < q) (hk : -126 ≤ binade q) :
    (2 : ℚ) ^ binade q ≤ nearest q := by
  have hu := quantum_pos q
  have h1 : (2 : ℚ) ^ binade q ≤ q := by
    have := pow_binade_le q hq.ne'
    rwa [abs_of_pos hq] at this
  have hu' : quantum q = (2 : ℚ) ^ (binade q - 23) := by
    unfold quantum
    rw [max_eq_left hk]
  rw [(quantum_facts _).2, ← hu'] at h1 ⊢
  unfold nearest
  have h2 : ((8388608 : ℤ) : ℚ) ≤ q / quantum q := by
    rw [le_div_iff₀ hu]
    exact h1
  have h3 := roundHalfEven_mono _ _ h2
  rw [roundHalfEven_intCast] at h3
  have h4 : ((8388608 : ℤ) : ℚ) ≤ ((roundHalfEven (q / quantum q) : ℤ) : ℚ) := by
    exact_mod_cast h3
  exact mul_le_mul_of_nonneg_right h4 hu.le

theorem nearest_nonneg (q : ℚ) (hq : 0 ≤ q) : 0 ≤ nearest q := by
  have hu := quantum_pos q
  unfold nearest
  have h2 : ((0 : ℤ) : ℚ) ≤ q / quantum q := by
    rw [Int.cast_zero]
    exact div_nonneg hq hu.le
  have h3 := roundHalfEven_mono _ _ h2
  rw [roundHalfEven_intCast] at h3
  have h4 : (0 : ℚ) ≤ ((roundHalfEven (q / quantum q) : ℤ) : ℚ) := by exact_mod_cast h3
  exact mul_nonneg h4 hu.le

theorem nearest_mono_pos (p q : ℚ) (hp : 0 < p) (h : p ≤ q) : nearest p ≤ nearest q := by
  have hq : 0 < q := lt_of_lt_of_le hp h
  have hb := binade_mono p q hp h
  by_cases e : max (binade p) (-126) = max (binade q) (-126)
  · exact nearest_mono_of_quantum_eq p q h (by unfold quantum; rw [e])
  · have hlt : max (binade p) (-126) < max (binade q) (-126) :=
      lt_of_le_of_ne (max_le_max hb le_rfl) e
    have hk : -126 ≤ binade q := by
      by_contra hc
      rw [max_eq_right (by omega : binade q ≤ -126)] at hlt
      have := le_max_right (binade p) (-126)
      omega
    have hq2 : max (binade q) (-126) = binade q := max_eq_left hk
    calc nearest p ≤ (2 : ℚ) ^ (max (binade p) (-126) + 1) := nearest_le_pow p hp
      _ ≤ (2 : ℚ) ^ binade q := zpow_le_zpow_right₀ (by norm_num) (by omega)
      _ ≤ nearest q := pow_le_nearest q hq hk

theorem nearest_mono (p q : ℚ) (h : p ≤ q) : nearest p ≤ nearest q := by
  rcases lt_or_le 0 p with hp | hp
  · exact nearest_mono_pos p q hp h
  · have hnp : nearest p ≤ 0 := by
      have := nearest_nonneg (-p) (by linarith)
      rw [nearest_neg] at this
      linarith
    rcases le_or_lt 0 q with hq | hq
    · exact le_trans hnp (nearest_nonneg q hq)
    · have := nearest_mono_pos (-q) (-p) (by linarith) (by linarith)
      rw [nearest_neg, nearest_neg] at this
      linarith

theorem nearest_idem_pos (q : ℚ) (hq : 0 < q) : nearest (nearest q) = nearest q := by
  have hu := quantum_pos q
  have h0 := nearest_nonneg q hq.le
  rcases eq_or_lt_of_le h0 with h0 | hpos
  · rw [← h0, nearest_zero]
  have hle := nearest_le_pow q hq
  have hkk : -126 ≤ max (binade q) (-126) := le_max_right _ _
  -- the spacing around the rounded value, as a multiple of the spacing around `q`
  have key : ∃ n : ℤ, nearest q / quantum (nearest q) = n := by
    rcases eq_or_lt_of_le hle with he | hlt
    · -- the rounded value is the next power of two
      have hb : binade (nearest q) = max (binade q) (-126) + 1 := by
        apply binade_eq_of
        · rw [abs_of_pos hpos, he]
        · rw [abs_of_pos hpos, he]
          exact zpow_lt_zpow_right₀ (by norm_num) (by omega)
      refine ⟨8388608, ?_⟩
      unfold quantum
      rw [hb, max_eq_left (by omega), he, (quantum_facts (max (binade q) (-126) + 1)).2]
      have : (2 : ℚ) ^ (max (binade q) (-126) + 1 - 23) ≠ 0 := by positivity
      field_simp
    · -- the rounded value stays in the binade of `q`
      have hb : max (binade (nearest q)) (-126) = max (binade q) (-126) := by
        by_cases hk : -126 ≤ binade q
        · have h1 := pow_le_nearest q hq hk
          rw [max_eq_left hk] at hlt ⊢
          have : binade (nearest q) = binade q := by
            apply binade_eq_of
            · rwa [abs_of_pos hpos]
            · rwa [abs_of_pos hpos]
          rw [this, max_eq_left hk]
        · rw [max_eq_right (by omega : binade q ≤ -126)] at hlt ⊢
          have h1 := pow_binade_le (nearest q) hpos.ne'
          rw [abs_of_pos hpos] at h1
          have h2 := lt_of_le_of_lt h1 hlt
          have h3 : binade (nearest q) < -126 + 1 :=
            (zpow_lt_zpow_iff_right₀ (by norm_num : (1 : ℚ) < 2)).mp h2
          exact max_eq_right (by omega)
      refine ⟨roundHalfEven (q / quantum q), ?_⟩
      have hq2 : quantum (nearest q) = quantum q := by
        unfold quantum
        rw [hb]
      rw [hq2]
      unfold nearest
      field_simp
  obtain ⟨n, hn⟩ := key
  have hu2 := quantum_pos (nearest q)
  have hd : nearest (nearest q)
      = roundHalfEven (nearest q / quantum (nearest q)) * quantum (nearest q) := rfl
  rw [hd, hn, roundHalfEven_intCast, ← hn]
  field_simp

theorem nearest_idem (q : ℚ) : nearest (nearest q) = nearest q := by
  rcases lt_trichotomy q 0 with h | h | h
  · have := nearest_idem_pos (-q) (by linarith)
    rw [nearest_neg, nearest_neg] at this
    linarith
  · rw [h, nearest_zero, nearest_zero]
  · exact nearest_idem_pos q h

/-! ### binary32 values and their order -/

namespace Binary32

theorem isBinary32_iff (q : ℚ) :
    isBinary32 q = true ↔ nearest q = q ∧ |q| < 2 ^ 128 := by
  simp [isBinary32]

theorem isBinary32_nearest (q : ℚ) (h : |nearest q| < 2 ^ 128) :
    isBinary32 (nearest q) = true :=
  (isBinary32_iff _).mpr ⟨nearest_idem q, h⟩

theorem isBinary32_neg (a : ℚ) (h : isBinary32 a = true) : isBinary32 (-a) = true := by
  rw [isBinary32_iff] at h ⊢
  rw [nearest_neg, h.1, abs_neg]
  exact ⟨rfl, h.2⟩

theorem finite_congr (a b : ℚ) (ha : isBinary32 a = true) (hb : isBinary32 b = true)
    (h : a = b) : finite a ha = finite b hb := by
  subst h
  rfl

theorem round_of_lt (q : ℚ) (h : |nearest q| < 2 ^ 128) :
    round q = finite (nearest q) (isBinary32_nearest q h) := by
  unfold round
  rw [dif_pos (isBinary32_nearest q h)]

theorem round_of_ge (q : ℚ) (h : 2 ^ 128 ≤ |nearest q|) :
    round q = infinity (decide (q < 0)) := by
  unfold round
  rw [dif_neg]
  intro hc
  exact absurd ((isBinary32_iff _).mp hc).2 (not_lt.mpr h)

/-- Rounding leaves a binary32 number as it is. -/
theorem round_value (a : ℚ) (h : isBinary32 a = true) : round a = finite a h := by
  have h' := (isBinary32_iff a).mp h
  rw [round_of_lt a (by rw [h'.1]; exact h'.2)]
  exact finite_congr _ _ _ _ h'.1

theorem neg_finite (a : ℚ) (h : isBinary32 a = true) :
    -(finite a h) = finite (-a) (isBinary32_neg a h) :=
  round_value (-a) (isBinary32_neg a h)

theorem add_finite (a b : ℚ) (ha : isBinary32 a = true) (hb : isBinary32 b = true) :
    finite a ha + finite b hb = round (a + b) := rfl

theorem sub_finite (a b : ℚ) (ha : isBinary32 a = true) (hb : isBinary32 b = true) :
    finite a ha - finite b hb = round (a - b) := by
  show add (finite a ha) (-(finite b hb)) = round (a - b)
  rw [neg_finite]
  show round (a + -b) = round (a - b)
  rw [sub_eq_add_neg]

theorem mul_finite (a b : ℚ) (ha : isBinary32 a = true) (hb : isBinary32 b = true) :
    finite a ha * finite b hb = round (a * b) := rfl

theorem div_finite (a b : ℚ) (ha : isBinary32 a = true) (hb : isBinary32 b = true)
    (h : b ≠ 0) : finite a ha / finite b hb = round (a / b) := by
  show (if b = 0 then (if a = 0 then NaN else infinity (decide (a < 0))) else round (a / b))
    = round (a / b)
  rw [if_neg h]

theorem le_finite_iff (a b : ℚ) (ha : isBinary32 a = true) (hb : isBinary32 b = true) :
    finite a ha ≤ finite b hb ↔ a ≤ b := by
  show le (finite a ha) (finite b hb) = true ↔ a ≤ b
  simp [le]

theorem lt_finite_iff (a b : ℚ) (ha : isBinary32 a = true) (hb : isBinary32 b = true) :
    finite a ha < finite b hb ↔ a < b := by
  show lt (finite a ha) (finite b hb) = true ↔ a < b
  simp [lt]

/-- A value between two finite values is finite. -/
theorem finite_of_between (x : Binary32) (a b : ℚ) (ha : isBinary32 a = true)
    (hb : isBinary32 b = true) (h1 : finite a ha ≤ x) (h2 : x ≤ finite b hb) :
    ∃ c hc, x = finite c hc ∧ a ≤ c ∧ c ≤ b := by
  cases x with
  | finite c hc =>
    exact ⟨c, hc, rfl, (le_finite_iff _ _ _ _).mp h1, (le_finite_iff _ _ _ _).mp h2⟩
  | infinity s =>
    cases s
    · exact absurd h2 (by simp [LE.le, le])
    · exact absurd h1 (by simp [LE.le, le])
  | NaN => exact absurd h1 (by simp [LE.le, le])

/-- Rounding a rational that lies between two binary32 numbers gives a binary32 number
between them. -/
theorem round_between (q lo hi : ℚ) (hlo : isBinary32 lo = true) (hhi : isBinary32 hi = true)
    (h1 : lo ≤ q) (h2 : q ≤ hi) :
    ∃ h, round q = finite (nearest q) h ∧ lo ≤ nearest q ∧ nearest q ≤ hi := by
  have a1 := nearest_mono lo q h1
  have a2 := nearest_mono q hi h2
  rw [((isBinary32_iff lo).mp hlo).1] at a1
  rw [((isBinary32_iff hi).mp hhi).1] at a2
  have b1 := abs_lt.mp ((isBinary32_iff lo).mp hlo).2
  have b2 := abs_lt.mp ((isBinary32_iff hi).mp hhi).2
  have hlt : |nearest q| < 2 ^ 128 := abs_lt.mpr ⟨by linarith, by linarith⟩
  exact ⟨isBinary32_nearest q hlt, round_of_lt q hlt, a1, a2⟩

theorem round_isFinite (q : ℚ) (h : (round q).isFinite = true) :
    ∃ hq, round q = finite (nearest q) hq := by
  by_cases hc : |nearest q| < 2 ^ 128
  · exact ⟨_, round_of_lt q hc⟩
  · rw [round_of_ge q (not_lt.mp hc)] at h
    exact absurd h (by simp [isFinite])

theorem zero_def : (0 : Binary32) = finite 0 (by decide!) := by decide!

theorem one_def : (1 : Binary32) = finite 1 (by decide!) := by decide!

end Binary32

/-! ### `UpdateScene` with the operations as the code applies them -/

theorem pulsateLightOne_oscillate {K M : Type} [One K] [NatCast K] [IntCast K] [Add K]
    [Sub K] [Mul K] [Div K] [LT K] [DecidableRel ((· < ·) : K → K → Prop)] (dt : K)
    (s : Scene K M) :
    pulsateLightOne dt s =
      { s with
        gLight1Strength := (oscillate (dt * 10) 1 30 s.light1Pulse s.gLight1Strength).2
        gLight1 := s.gLight1.SetScale
          ((oscillate (dt * 10) 1 30 s.light1Pulse s.gLight1Strength).2
            / ((2 : ℤ) : K))
        light1Pulse := (oscillate (dt * 10) 1 30 s.light1Pulse s.gLight1Strength).1 } := by
  cases s with
  | mk p =>
    cases p <;>
      simp only [pulsateLightOne, oscillate, gLight1Multiplier, gMaxLightStrength,
        gMinLightStrength, gLightStrengthModifer] <;>
      split_ifs <;> simp_all

theorem changeLight2Red_oscillate {K M : Type} [NatCast K] [IntCast K] [Add K] [Sub K]
    [Div K] [LT K] [DecidableRel ((· < ·) : K → K → Prop)] (dt : K)
    (s : Scene K M) :
    changeLight2Red dt s =
      { s with
        gLight2Red :=
          (oscillate (dt / ((5 : ℤ) : K)) (2 / 10) (99 / 100) s.redColour
            s.gLight2Red).2
        redColour :=
          (oscillate (dt / ((5 : ℤ) : K)) (2 / 10) (99 / 100) s.redColour
            s.gLight2Red).1 } := by
  cases s with
  | mk p q =>
    cases q <;>
      simp only [changeLight2Red, oscillate, gMaxLightColour, gMinLightColour,
        gLightColorModifier] <;>
      split_ifs <;> simp_all

theorem changeLight2Green_oscillate {K M : Type} [NatCast K] [IntCast K] [Add K] [Sub K]
    [Div K] [LT K] [DecidableRel ((· < ·) : K → K → Prop)] (dt : K)
    (s : Scene K M) :
    changeLight2Green dt s =
      { s with
        gLight2Green :=
          (oscillate (dt / ((5 : ℤ) : K)) (2 / 10) (99 / 100) s.greenColour
            s.gLight2Green).2
        greenColour :=
          (oscillate (dt / ((5 : ℤ) : K)) (2 / 10) (99 / 100) s.greenColour
            s.gLight2Green).1 } := by
  cases s with
  | mk p q r =>
    cases r <;>
      simp only [changeLight2Green, oscillate, gMaxLightColour, gMinLightColour,
        gLightColorModifier] <;>
      split_ifs <;> simp_all

theorem lerpEffectStep_oscillate {K M : Type} [Zero K] [One K] [Add K] [Sub K] [LT K]
    [DecidableRel ((· < ·) : K → K → Prop)] (dt : K)
    (s : Scene K M) :
    lerpEffectStep dt s =
      { s with
        gPerModelConstants := { s.gPerModelConstants with
          lerp := (oscillate dt 0 1 s.lerpEffect s.gPerModelConstants.lerp).2 }
        lerpEffect := (oscillate dt 0 1 s.lerpEffect s.gPerModelConstants.lerp).1 } := by
  cases s with
  | mk p q r l =>
    cases l <;>
      simp only [lerpEffectStep, oscillate, gLerpMaxValue, gLerpMinValue] <;>
      split_ifs <;> simp_all

theorem frameTimeAccounting_code {K M : Type} [Zero K] [One K] [NatCast K] [Add K] [Div K]
    [LT K] [DecidableRel ((· < ·) : K → K → Prop)] (dt : K) (s : Scene K M) :
    frameTimeAccounting dt s =
      { s with
        totalFrameTime := if s.totalFrameTime + dt > 1 / 2 then 0 else s.totalFrameTime + dt
        frameCount := if s.totalFrameTime + dt > 1 / 2 then 0 else s.frameCount + 1 } := by
  simp only [frameTimeAccounting, fpsUpdateTime]
  split_ifs <;> rfl

/-- One `UpdateScene` call as a single record update, with the arithmetic operations
exactly as the code applies them (no law of arithmetic is used). -/
theorem UpdateScene_code {K M : Type} [Zero K] [One K] [NatCast K] [IntCast K] [Add K] [Sub K]
    [Mul K] [Div K] [LT K] [DecidableRel ((· < ·) : K → K → Prop)]
    (E : Env K M) (dt : K) (s : Scene K M) :
    UpdateScene E dt s =
      { s with
        light1Pulse := (oscillate (dt * 10) 1 30 s.light1Pulse s.gLight1Strength).1
        gLight1Strength := (oscillate (dt * 10) 1 30 s.light1Pulse s.gLight1Strength).2
        gLight1 := s.gLight1.SetScale
          ((oscillate (dt * 10) 1 30 s.light1Pulse s.gLight1Strength).2 / ((2 : ℤ) : K))
        redColour :=
          (oscillate (dt / ((5 : ℤ) : K)) (2 / 10) (99 / 100) s.redColour s.gLight2Red).1
        gLight2Red :=
          (oscillate (dt / ((5 : ℤ) : K)) (2 / 10) (99 / 100) s.redColour s.gLight2Red).2
        greenColour :=
          (oscillate (dt / ((5 : ℤ) : K)) (2 / 10) (99 / 100) s.greenColour s.gLight2Green).1
        gLight2Green :=
          (oscillate (dt / ((5 : ℤ) : K)) (2 / 10) (99 / 100) s.greenColour s.gLight2Green).2
        gLight2Colour :=
          ⟨(oscillate (dt / ((5 : ℤ) : K)) (2 / 10) (99 / 100) s.redColour s.gLight2Red).2,
            1 / 2, 1⟩
        gLight2 := s.gLight2.SetPosition
          (s.gTeapot.Position.add ⟨E.cos s.rotate * 20, 10, E.sin s.rotate * 20⟩)
        rotate := s.rotate - 7 / 10 * dt
        gPerModelConstants :=
          { s.gPerModelConstants with
            wiggle := s.gPerModelConstants.wiggle + ((6 : ℤ) : K) * dt
            rotation := s.gPerModelConstants.rotation + dt
            lerp := (oscillate dt 0 1 s.lerpEffect s.gPerModelConstants.lerp).2 }
        lerpEffect := (oscillate dt 0 1 s.lerpEffect s.gPerModelConstants.lerp).1
        rotateX := s.rotateX + dt / ((2 : ℤ) : K)
        rotateY := s.rotateY + dt / ((2 : ℤ) : K)
        rotateZ := s.rotateZ + dt / ((2 : ℤ) : K)
        gAddBlendcube :=
          s.gAddBlendcube.SetRotation
            ⟨0, s.rotateY + dt / ((2 : ℤ) : K), s.rotateZ + dt / ((2 : ℤ) : K)⟩
        gMultiBlendcube :=
          s.gMultiBlendcube.SetRotation
            ⟨s.rotateX + dt / ((2 : ℤ) : K), 0, s.rotateZ + dt / ((2 : ℤ) : K)⟩
        gAlphaBlendCube :=
          s.gAlphaBlendCube.SetRotation
            ⟨s.rotateX + dt / ((2 : ℤ) : K), s.rotateY + dt / ((2 : ℤ) : K), 0⟩
        gLight3 := s.gLight3.SetPosition
          (s.gMultiBlendcube.Position.add ⟨E.cos s.rotate2 * 40, 5, E.sin s.rotate2 * 40⟩)
        rotate2 := s.rotate2 - 1 * dt
        gLight4 := s.gLight4.SetPosition
          (s.gNormalMapCube.Position.add ⟨E.cos s.rotate3 * 20, 0, E.sin s.rotate3 * 20⟩)
        rotate3 := s.rotate3 - 1 * dt
        gLight5 := s.gLight5.SetPosition
          (s.gTroll.Position.add ⟨E.cos s.rotate4 * 30, 5, E.sin s.rotate4 * 30⟩)
        rotate4 := s.rotate4 - 1 * dt
        gPortal :=
          (s.gPortal.SetPosition
            (s.gTwoTextureCube.Position.add
              ⟨E.cos s.rotate5 * 80, 40, E.sin s.rotate5 * 80⟩)).FaceTarget E
            s.gTwoTextureCube.Position
        gPortalCamera :=
          (s.gPortalCamera.SetPosition
            (s.gTwoTextureCube.Position.add
              ⟨E.cos s.rotate5 * 80, 40, E.sin s.rotate5 * 80⟩)).FaceTarget E
            s.gTwoTextureCube.Position
        rotate5 := s.rotate5 - 1 / 2 * dt
        gCamera := E.Control dt s.gCamera
        totalFrameTime := if s.totalFrameTime + dt > 1 / 2 then 0 else s.totalFrameTime + dt
        frameCount := if s.totalFrameTime + dt > 1 / 2 then 0 else s.frameCount + 1 } := by
  simp only [UpdateScene, pulsateLightOne_oscillate, changeLight2Red_oscillate,
    changeLight2Green_oscillate, lerpEffectStep_oscillate, frameTimeAccounting_code,
    composeLight2Colour, orbitLight2, wiggleEffect,
    rotateBlendingCubes, orbitLight3, orbitLight4, orbitLight5, movePortal, controlCamera,
    gLight2Orbit, gLight3Orbit, gLight4Orbit, gLight5Orbit, gLight2OrbitSpeed, gLight3OrbitSpeed,
    gLight4OrbitSpeed, gLight5OrbitSpeed, gPortalRotateMultipler, gWiggleMultipler,
    gRotateModifer, Model.SetPosition, Model.SetRotation, Model.SetScale, Model.Position,
    Model.FaceTarget, Camera.SetPosition, Camera.FaceTarget]

/-! ### The oscillator fields in binary32 -/

theorem UpdateScene_light1 {M : Type} (E : Env Binary32 M) (dt : Binary32)
    (s : Scene Binary32 M) :
    (UpdateScene E dt s).light1Pulse
        = (oscillate (dt * 10) 1 30 s.light1Pulse s.gLight1Strength).1
    ∧ (UpdateScene E dt s).gLight1Strength
        = (oscillate (dt * 10) 1 30 s.light1Pulse s.gLight1Strength).2
    ∧ (UpdateScene E dt s).gLight1.scale
        = ⟨(oscillate (dt * 10) 1 30 s.light1Pulse s.gLight1Strength).2 / ((2 : ℤ) : Binary32),
            (oscillate (dt * 10) 1 30 s.light1Pulse s.gLight1Strength).2 / ((2 : ℤ) : Binary32),
            (oscillate (dt * 10) 1 30 s.light1Pulse s.gLight1Strength).2
              / ((2 : ℤ) : Binary32)⟩ := by
  rw [UpdateScene_code]
  exact ⟨rfl, rfl, rfl⟩

theorem UpdateScene_red {M : Type} (E : Env Binary32 M) (dt : Binary32)
    (s : Scene Binary32 M) :
    (UpdateScene E dt s).redColour
        = (oscillate (dt / ((5 : ℤ) : Binary32)) (2 / 10) (99 / 100) s.redColour
            s.gLight2Red).1
    ∧ (UpdateScene E dt s).gLight2Red
        = (oscillate (dt / ((5 : ℤ) : Binary32)) (2 / 10) (99 / 100) s.redColour
            s.gLight2Red).2 := by
  rw [UpdateScene_code]
  exact ⟨rfl, rfl⟩

theorem UpdateScene_green_lerp {M : Type} (E : Env Binary32 M) (dt : Binary32)
    (s : Scene Binary32 M) :
    (UpdateScene E dt s).greenColour
        = (oscillate (dt / ((5 : ℤ) : Binary32)) (2 / 10) (99 / 100) s.greenColour
            s.gLight2Green).1
    ∧ (UpdateScene E dt s).gLight2Green
        = (oscillate (dt / ((5 : ℤ) : Binary32)) (2 / 10) (99 / 100) s.greenColour
            s.gLight2Green).2
    ∧ (UpdateScene E dt s).lerpEffect
        = (oscillate dt 0 1 s.lerpEffect s.gPerModelConstants.lerp).1
    ∧ (UpdateScene E dt s).gPerModelConstants.lerp
        = (oscillate dt 0 1 s.lerpEffect s.gPerModelConstants.lerp).2 := by
  rw [UpdateScene_code]
  exact ⟨rfl, rfl, rfl, rfl⟩

namespace Binary32

theorem ten_def : (10 : Binary32) = finite 10 (by decide!) := by decide!

theorem five_def : ((5 : ℤ) : Binary32) = finite 5 (by decide!) := by decide!

theorem two_def : ((2 : ℤ) : Binary32) = 2 := by decide!

/-- The code's `frameTime * gLight1Multiplier` is the binary32 nearest to `10 * dt`. -/
theorem mul_ten (dt : Binary32) : dt * 10 = scale 10 dt := by
  rw [ten_def]
  cases dt with
  | finite a h =>
    rw [mul_finite]
    show round (a * 10) = round (10 * a)
    rw [mul_comm]
  | infinity s => rfl
  | NaN => rfl

/-- The code's `frameTime / gLightColorModifier` is the binary32 nearest to `dt / 5`. -/
theorem div_five (dt : Binary32) : dt / ((5 : ℤ) : Binary32) = scale (1 / 5) dt := by
  rw [five_def]
  cases dt with
  | finite a h =>
    rw [div_finite _ _ _ _ (by norm_num)]
    show round (a / 5) = round (1 / 5 * a)
    congr 1
    ring
  | infinity s => cases s <;> decide!
  | NaN => rfl

theorem scale_one (dt : Binary32) : scale 1 dt = dt := by
  cases dt with
  | finite a h =>
    show round (1 * a) = finite a h
    rw [one_mul]
    exact round_value a h
  | infinity s => cases s <;> decide!
  | NaN => rfl

end Binary32

/-- The light-1 direction and strength after a run, as a fold of oscillator steps. -/
theorem runUpdates_light1 {M : Type} (E : Env Binary32 M) (dts : List Binary32)
    (s : Scene Binary32 M) :
    ((runUpdates E dts s).light1Pulse, (runUpdates E dts s).gLight1Strength)
      = dts.foldl (fun p dt => floatOscillator 10 1 30 dt p.1 p.2)
          (s.light1Pulse, s.gLight1Strength) := by
  induction dts generalizing s with
  | nil => rfl
  | cons dt rest ih =>
    have h : runUpdates E (dt :: rest) s = runUpdates E rest (UpdateScene E dt s) := rfl
    rw [h, ih, (UpdateScene_light1 E dt s).1, (UpdateScene_light1 E dt s).2.1,
      Binary32.mul_ten]
    rfl

/-- The light-2 red direction and value after a run, as a fold of oscillator steps. -/
theorem runUpdates_red {M : Type} (E : Env Binary32 M) (dts : List Binary32)
    (s : Scene Binary32 M) :
    ((runUpdates E dts s).redColour, (runUpdates E dts s).gLight2Red)
      = dts.foldl (fun p dt => floatOscillator (1 / 5) (2 / 10) (99 / 100) dt p.1 p.2)
          (s.redColour, s.gLight2Red) := by
  induction dts generalizing s with
  | nil => rfl
  | cons dt rest ih =>
    have h : runUpdates E (dt :: rest) s = runUpdates E rest (UpdateScene E dt s) := rfl
    rw [h, ih, (UpdateScene_red E dt s).1, (UpdateScene_red E dt s).2, Binary32.div_five]
    rfl

/-! ### C1 -/

/-- C1 fails as stated. From the state after `InitScene` and `UpdateScene(1)` (strength
20, going up), `UpdateScene(1 + 2^-23)` stores the strength 30 and leaves the direction
UP, while `value + rate * dt` is `30 + 10 * 2^-23`, above 30: the product and the sum
are each rounded to binary32, and the direction is decided on the stored value. -/
theorem C1_stored_strength_is_rounded :
    (UpdateScene floatEnv 1 (InitScene floatEnv)).gLight1Strength.toRat = 20
    ∧ (UpdateScene floatEnv 1 (InitScene floatEnv)).light1Pulse = .UP
    ∧ (1 + 1 / 8388608 : Binary32).toRat = 1 + 1 / 8388608
    ∧ (UpdateScene floatEnv (1 + 1 / 8388608)
        (UpdateScene floatEnv 1 (InitScene floatEnv))).gLight1Strength.toRat = 30
    ∧ (UpdateScene floatEnv (1 + 1 / 8388608)
        (UpdateScene floatEnv 1 (InitScene floatEnv))).light1Pulse = .UP
    ∧ (20 : ℚ) + 10 * (1 + 1 / 8388608) ≠ 30
    ∧ (30 : ℚ) < 20 + 10 * (1 + 1 / 8388608) := by
  have h := runUpdates_light1 floatEnv [1, 1 + 1 / 8388608] (InitScene floatEnv)
  have h1 := runUpdates_light1 floatEnv [1] (InitScene floatEnv)
  have e : (List.foldl (fun p dt => floatOscillator 10 1 30 dt p.1 p.2)
      ((InitScene floatEnv).light1Pulse, (InitScene floatEnv).gLight1Strength)
      [1, 1 + 1 / 8388608] : valueChange × Binary32) = (.UP, 30) := by decide!
  have e1 : (List.foldl (fun p dt => floatOscillator 10 1 30 dt p.1 p.2)
      ((InitScene floatEnv).light1Pulse, (InitScene floatEnv).gLight1Strength)
      [1] : valueChange × Binary32) = (.UP, 20) := by decide!
  rw [e] at h
  rw [e1] at h1
  have a := congrArg Prod.fst h
  have b := congrArg Prod.snd h
  have a1 := congrArg Prod.fst h1
  have b1 := congrArg Prod.snd h1
  simp only at a b a1 b1
  refine ⟨?_, a1, by decide!, ?_, a, by norm_num, by norm_num⟩
  · show (runUpdates floatEnv [1] (InitScene floatEnv)).gLight1Strength.toRat = 20
    rw [b1]
    decide!
  · show (runUpdates floatEnv [1, 1 + 1 / 8388608]
      (InitScene floatEnv)).gLight1Strength.toRat = 30
    rw [b]
    decide!

/-- C1 as amended. One `UpdateScene(dt)` call advances each of the four oscillators as
the specification's oscillator does in binary32 arithmetic: the step is the binary32
nearest to `rate * dt` (rate 10 for the light-1 strength, 1/5 for light-2 red and green,
1 for the lerp factor), the new value is the binary32 sum, going up, or difference,
going down, of the old value and the step, the direction flips when the stored new
value is above the upper bound, going up, or below the lower bound, going down (bounds
1 and 30, the binary32 numbers 0.2f and 0.99f, 0 and 1), the value is not clamped, and
the light-1 model scale written in the same call is the new strength divided by 2. -/
theorem C1_oscillators_round_each_operation {M : Type} (E : Env Binary32 M) (dt : Binary32)
    (s : Scene Binary32 M) :
    ((UpdateScene E dt s).light1Pulse, (UpdateScene E dt s).gLight1Strength)
        = floatOscillator 10 1 30 dt s.light1Pulse s.gLight1Strength
    ∧ (UpdateScene E dt s).gLight1.scale
        = ⟨(UpdateScene E dt s).gLight1Strength / 2, (UpdateScene E dt s).gLight1Strength / 2,
            (UpdateScene E dt s).gLight1Strength / 2⟩
    ∧ ((UpdateScene E dt s).redColour, (UpdateScene E dt s).gLight2Red)
        = floatOscillator (1 / 5) (2 / 10) (99 / 100) dt s.redColour s.gLight2Red
    ∧ ((UpdateScene E dt s).greenColour, (UpdateScene E dt s).gLight2Green)
        = floatOscillator (1 / 5) (2 / 10) (99 / 100) dt s.greenColour s.gLight2Green
    ∧ ((UpdateScene E dt s).lerpEffect, (UpdateScene E dt s).gPerModelConstants.lerp)
        = floatOscillator 1 0 1 dt s.lerpEffect s.gPerModelConstants.lerp := by
  obtain ⟨a1, a2, a3⟩ := UpdateScene_light1 E dt s
  obtain ⟨b1, b2⟩ := UpdateScene_red E dt s
  obtain ⟨c1, c2, c3, c4⟩ := UpdateScene_green_lerp E dt s
  rw [a1, a2, a3, b1, b2, c1, c2, c3, c4, Binary32.two_def]
  refine ⟨?_, rfl, ?_, ?_, ?_⟩ <;>
    simp only [floatOscillator, Binary32.mul_ten, Binary32.div_five, Binary32.scale_one]

/-! ### Bounds of an oscillator in binary32 -/

namespace Binary32

theorem round_of_bounds (q L H : ℚ) (hL : isBinary32 L = true) (hH : isBinary32 H = true)
    (h1 : L ≤ nearest q) (h2 : nearest q ≤ H) : ∃ h, round q = finite (nearest q) h := by
  have b1 := abs_lt.mp ((isBinary32_iff L).mp hL).2
  have b2 := abs_lt.mp ((isBinary32_iff H).mp hH).2
  have hlt : |nearest q| < 2 ^ 128 := abs_lt.mpr ⟨by linarith, by linarith⟩
  exact ⟨isBinary32_nearest q hlt, round_of_lt q hlt⟩

theorem nearest_value (a : ℚ) (h : isBinary32 a = true) : nearest a = a :=
  ((isBinary32_iff a).mp h).1

end Binary32

open Binary32 in
/-- One oscillator step keeps the invariant, for a step in `[0, ρ]` and outer bounds `L`,
`H` that cover one step beyond `lo` and `hi`. -/
theorem oscillate_inv (L lo hi H ρ r : ℚ) (hlo : isBinary32 lo = true)
    (hhi : isBinary32 hi = true) (hL : isBinary32 L = true) (hH : isBinary32 H = true)
    (hr : isBinary32 r = true) (hlh : lo ≤ hi) (hLρ : L ≤ nearest (lo - ρ))
    (hHρ : nearest (hi + ρ) ≤ H) (h0 : 0 ≤ r) (hrρ : r ≤ ρ) (d : valueChange) (v : Binary32)
    (hinv : oscillatorInv L lo hi H d v) :
    oscillatorInv L lo hi H
      (oscillate (finite r hr) (finite lo hlo) (finite hi hhi) d v).1
      (oscillate (finite r hr) (finite lo hlo) (finite hi hhi) d v).2 := by
  obtain ⟨x, hx, rfl, hu, hd⟩ := hinv
  have hnx := nearest_value x hx
  have hLlo : L ≤ lo := by
    have := nearest_mono (lo - ρ) lo (by linarith)
    rw [nearest_value lo hlo] at this
    linarith
  have hhiH : hi ≤ H := by
    have := nearest_mono hi (hi + ρ) (by linarith)
    rw [nearest_value hi hhi] at this
    linarith
  cases d with
  | UP =>
    obtain ⟨h1, h2⟩ := hu rfl
    have a1 : L ≤ nearest (x + r) := by
      have := nearest_mono x (x + r) (by linarith)
      rw [hnx] at this
      linarith
    have a2 : nearest (x + r) ≤ H :=
      le_trans (nearest_mono (x + r) (hi + ρ) (by linarith)) hHρ
    obtain ⟨hy, hv⟩ := round_of_bounds (x + r) L H hL hH a1 a2
    have hv' : finite x hx + finite r hr = finite (nearest (x + r)) hy := hv
    by_cases hc : hi < nearest (x + r)
    · have hc' : finite (nearest (x + r)) hy > finite hi hhi := (lt_finite_iff _ _ _ _).mpr hc
      simp only [oscillate, hv', hc', and_self, if_true]
      exact ⟨_, hy, rfl, (fun h => nomatch h), fun _ => ⟨by linarith, a2⟩⟩
    · have hc' : ¬ (finite (nearest (x + r)) hy > finite hi hhi) :=
        fun h => hc ((lt_finite_iff _ _ _ _).mp h)
      simp only [oscillate, hv', hc', and_false, if_false, reduceCtorEq, false_and]
      exact ⟨_, hy, rfl, fun _ => ⟨a1, not_lt.mp hc⟩, fun h => nomatch h⟩
  | DOWN =>
    obtain ⟨h1, h2⟩ := hd rfl
    have a1 : L ≤ nearest (x - r) :=
      le_trans hLρ (nearest_mono (lo - ρ) (x - r) (by linarith))
    have a2 : nearest (x - r) ≤ H := by
      have := nearest_mono (x - r) x (by linarith)
      rw [hnx] at this
      linarith
    obtain ⟨hy, hv⟩ := round_of_bounds (x - r) L H hL hH a1 a2
    have hv' : finite x hx - finite r hr = finite (nearest (x - r)) hy := by
      rw [sub_finite]
      exact hv
    by_cases hc : nearest (x - r) < lo
    · have hc' : finite (nearest (x - r)) hy < finite lo hlo := (lt_finite_iff _ _ _ _).mpr hc
      simp only [oscillate, hv', hc', and_self, if_true, reduceCtorEq, false_and, if_false]
      exact ⟨_, hy, rfl, fun _ => ⟨a1, by linarith⟩, fun h => nomatch h⟩
    · have hc' : ¬ (finite (nearest (x - r)) hy < finite lo hlo) :=
        fun h => hc ((lt_finite_iff _ _ _ _).mp h)
      simp only [oscillate, hv', hc', and_false, if_false, reduceCtorEq, false_and]
      exact ⟨_, hy, rfl, (fun h => nomatch h), fun _ => ⟨not_lt.mp hc, a2⟩⟩

/-! ### Runs of an oscillator in binary32 -/

namespace Binary32

theorem thirty_def : (30 : Binary32) = finite 30 (by decide!) := by decide!

/-- If a binary32 sum is finite, so are both terms. -/
theorem finite_of_add_isFinite (a b : Binary32) (h : (a + b).isFinite = true) :
    (∃ x hx, a = finite x hx) ∧ ∃ y hy, b = finite y hy := by
  cases a with
  | finite x hx =>
    cases b with
    | finite y hy => exact ⟨⟨x, hx, rfl⟩, ⟨y, hy, rfl⟩⟩
    | infinity t => exact absurd h Bool.false_ne_true
    | NaN => exact absurd h Bool.false_ne_true
  | infinity s =>
    cases b with
    | finite y hy => exact absurd h Bool.false_ne_true
    | infinity t => cases s <;> cases t <;> exact absurd h Bool.false_ne_true
    | NaN => exact absurd h Bool.false_ne_true
  | NaN => cases b <;> exact absurd h Bool.false_ne_true

/-- If the step of the largest frame time is finite, then so is that frame time, unless
the rate is zero. -/
theorem finite_of_scale_finite (rate : ℚ) (x : Binary32) (ρ : ℚ) (hρ : isBinary32 ρ = true)
    (h : scale rate x = finite ρ hρ) :
    ∃ a ha, x = finite a ha ∧ ρ = nearest (rate * a) := by
  cases x with
  | finite a ha =>
    refine ⟨a, ha, rfl, ?_⟩
    have h' : round (rate * a) = finite ρ hρ := h
    obtain ⟨hq, e⟩ := round_isFinite (rate * a) (by rw [h']; rfl)
    rw [e] at h'
    injection h' with h'
    exact h'.symm
  | infinity s =>
    exfalso
    simp only [scale] at h
    split at h <;> exact nomatch h
  | NaN => exact nomatch h

/-- The step of a frame time in `[0, dtMax]` is finite and lies between zero and the
step of `dtMax`. -/
theorem scale_bounds (rate : ℚ) (hrate : 0 ≤ rate) (amax : ℚ) (hmax : isBinary32 amax = true)
    (ρ : ℚ) (hρ : isBinary32 ρ = true) (hR : ρ = nearest (rate * amax)) (dt : Binary32)
    (h0 : 0 ≤ dt) (h1 : dt ≤ finite amax hmax) :
    ∃ r hr, scale rate dt = finite r hr ∧ 0 ≤ r ∧ r ≤ ρ := by
  rw [zero_def] at h0
  obtain ⟨a, ha, rfl, a0, a1⟩ := finite_of_between dt 0 amax _ hmax h0 h1
  have b0 : 0 ≤ nearest (rate * a) := nearest_nonneg _ (mul_nonneg hrate a0)
  have b1 : nearest (rate * a) ≤ ρ := by
    rw [hR]
    exact nearest_mono _ _ (mul_le_mul_of_nonneg_left a1 hrate)
  obtain ⟨hy, hv⟩ := round_of_bounds (rate * a) 0 ρ (by decide!) hρ b0 b1
  exact ⟨_, hy, hv, b0, b1⟩

end Binary32

open Binary32 in
/-- A run of oscillator steps with frame times in `[0, dtMax]` keeps the invariant. -/
theorem floatOscillator_run_inv (rate : ℚ) (hrate : 0 ≤ rate) (L lo hi H ρ amax : ℚ)
    (hlo : isBinary32 lo = true) (hhi : isBinary32 hi = true) (hL : isBinary32 L = true)
    (hH : isBinary32 H = true) (hmax : isBinary32 amax = true) (hρ : isBinary32 ρ = true)
    (hR : ρ = nearest (rate * amax)) (hlh : lo ≤ hi) (hLρ : L ≤ nearest (lo - ρ))
    (hHρ : nearest (hi + ρ) ≤ H) (dts : List Binary32)
    (hdts : ∀ dt ∈ dts, 0 ≤ dt ∧ dt ≤ finite amax hmax)
    (p : valueChange × Binary32) (hinv : oscillatorInv L lo hi H p.1 p.2) :
    oscillatorInv L lo hi H
      (dts.foldl (fun p dt => floatOscillator rate (finite lo hlo) (finite hi hhi) dt p.1 p.2)
        p).1
      (dts.foldl (fun p dt => floatOscillator rate (finite lo hlo) (finite hi hhi) dt p.1 p.2)
        p).2 := by
  induction dts generalizing p with
  | nil => exact hinv
  | cons dt rest ih =>
    obtain ⟨d0, d1⟩ := hdts dt (List.mem_cons_self dt rest)
    obtain ⟨r, hr, hs, h0, h1⟩ := scale_bounds rate hrate amax hmax ρ hρ hR dt d0 d1
    rw [List.foldl_cons]
    refine ih (fun x hx => hdts x (List.mem_cons_of_mem _ hx)) _ ?_
    simp only [floatOscillator, hs]
    exact oscillate_inv L lo hi H ρ r hlo hhi hL hH hr hlh hLρ hHρ h0 h1 p.1 p.2 hinv

/-! ### C2 -/

/-- C2 fails as stated. (a) With `dt_max = 0.9f`, eight calls `UpdateScene(0.9f)` from the
state after `InitScene` leave the strength at -8, below `1 - 10 * dt_max`: the step
`0.9f * 10` is rounded to 9. (b) With `dt_max = 1 + 5 * 2^-23`, the calls 1, 1,
`1 + 5 * 2^-23` leave it at `40 + 2^-17`, above `30 + 10 * dt_max`. -/
theorem C2_strength_leaves_claimed_interval :
    ((0 : Binary32) ≤ 9 / 10
      ∧ (runUpdates floatEnv [9 / 10, 9 / 10, 9 / 10, 9 / 10, 9 / 10, 9 / 10, 9 / 10, 9 / 10]
          (InitScene floatEnv)).gLight1Strength.toRat = -8
      ∧ (-8 : ℚ) < 1 - 10 * (9 / 10 : Binary32).toRat)
    ∧ ((0 : Binary32) ≤ 1 ∧ (1 : Binary32) ≤ 1 + 5 / 8388608
      ∧ (1 + 5 / 8388608 : Binary32).toRat = 1 + 5 / 8388608
      ∧ (runUpdates floatEnv [1, 1, 1 + 5 / 8388608]
          (InitScene floatEnv)).gLight1Strength.toRat = 40 + 1 / 131072
      ∧ 30 + 10 * (1 + 5 / 8388608 : Binary32).toRat < (40 + 1 / 131072 : ℚ)) := by
  have h := runUpdates_light1 floatEnv
    [9 / 10, 9 / 10, 9 / 10, 9 / 10, 9 / 10, 9 / 10, 9 / 10, 9 / 10] (InitScene floatEnv)
  have e : (List.foldl (fun p dt => floatOscillator 10 1 30 dt p.1 p.2)
      ((InitScene floatEnv).light1Pulse, (InitScene floatEnv).gLight1Strength)
      [9 / 10, 9 / 10, 9 / 10, 9 / 10, 9 / 10, 9 / 10, 9 / 10, 9 / 10]
        : valueChange × Binary32) = (.UP, -8) := by decide!
  rw [e] at h
  have b := congrArg Prod.snd h
  have h2 := runUpdates_light1 floatEnv [1, 1, 1 + 5 / 8388608] (InitScene floatEnv)
  have e2 : ((List.foldl (fun p dt => floatOscillator 10 1 30 dt p.1 p.2)
      ((InitScene floatEnv).light1Pulse, (InitScene floatEnv).gLight1Strength)
      [1, 1, 1 + 5 / 8388608] : valueChange × Binary32)).2.toRat = 40 + 1 / 131072 := by
    decide!
  have b2 := congrArg (fun p => p.2.toRat) h2
  simp only at b b2
  rw [e2] at b2
  refine ⟨⟨by decide!, ?_, by decide!⟩, by decide!, by decide!, by decide!, b2, by decide!⟩
  rw [b]
  decide!

/-- C2 as amended. For every `dtMax ≥ 0` for which `30 + dtMax * 10`, computed in
binary32, is finite, and every sequence of `UpdateScene` calls from the state after
`InitScene` whose frame times all lie in `[0, dtMax]`, the light-1 strength after each
call (after the first `n` calls, for every `n`) is a finite number between
`1 - dtMax * 10` and `30 + dtMax * 10`, the bounds being computed in binary32 as the
code computes its step: the product rounded, then the difference or sum rounded. -/
theorem C2_light1_strength_bounded {M : Type} (E : Env Binary32 M) (dtMax : Binary32)
    (dts : List Binary32) (n : Nat) (h0 : 0 ≤ dtMax)
    (hfin : (30 + dtMax * 10).isFinite = true)
    (h : ∀ dt ∈ dts, 0 ≤ dt ∧ dt ≤ dtMax) :
    1 - dtMax * 10 ≤ (runUpdates E (dts.take n) (InitScene E)).gLight1Strength
    ∧ (runUpdates E (dts.take n) (InitScene E)).gLight1Strength ≤ 30 + dtMax * 10
    ∧ (runUpdates E (dts.take n) (InitScene E)).gLight1Strength.isFinite = true := by
  rw [Binary32.mul_ten] at hfin ⊢
  obtain ⟨-, ρ, hρ, hs⟩ := Binary32.finite_of_add_isFinite _ _ hfin
  obtain ⟨amax, hmax, rfl, hR⟩ := Binary32.finite_of_scale_finite 10 dtMax ρ hρ hs
  rw [hs, Binary32.thirty_def, Binary32.add_finite] at hfin
  obtain ⟨hH, eH⟩ := Binary32.round_isFinite _ hfin
  have a0 : 0 ≤ amax := by
    rw [Binary32.zero_def] at h0
    exact (Binary32.le_finite_iff _ _ _ _).mp h0
  have ρ0 : 0 ≤ ρ := by
    rw [hR]
    exact nearest_nonneg _ (by linarith)
  have hnρ : isBinary32 (-ρ) = true := Binary32.isBinary32_neg ρ hρ
  obtain ⟨hL, eL, -, L1⟩ :=
    Binary32.round_between (1 - ρ) (-ρ) 1 hnρ (by decide!) (by linarith) (by linarith)
  have hinv := floatOscillator_run_inv 10 (by norm_num) (nearest (1 - ρ)) 1 30
    (nearest (30 + ρ)) ρ amax (by decide!) (by decide!) hL hH hmax hρ hR (by norm_num) le_rfl
    le_rfl (dts.take n) (fun d hd => h d (List.mem_of_mem_take hd))
    ((InitScene E).light1Pulse, (InitScene E).gLight1Strength)
    ⟨10, _, Binary32.ten_def, fun _ => ⟨by linarith, by norm_num⟩, fun hc => nomatch hc⟩
  have hrun := runUpdates_light1 E (dts.take n) (InitScene E)
  rw [Binary32.one_def, Binary32.thirty_def] at hrun
  rw [← hrun] at hinv
  obtain ⟨x, hx, ex, hu, hd⟩ := hinv
  simp only at ex hu hd
  have hhiH : (30 : ℚ) ≤ nearest (30 + ρ) := by
    have := nearest_mono 30 (30 + ρ) (by linarith)
    rwa [Binary32.nearest_value 30 (by decide!)] at this
  rw [hs, Binary32.thirty_def, Binary32.add_finite, eH, Binary32.one_def, Binary32.sub_finite,
    eL, ex, Binary32.le_finite_iff, Binary32.le_finite_iff]
  refine ⟨?_, ?_, rfl⟩
  · cases hp : (runUpdates E (List.take n dts) (InitScene E)).light1Pulse with
    | UP => exact (hu hp).1
    | DOWN => linarith [(hd hp).1]
  · cases hp : (runUpdates E (List.take n dts) (InitScene E)).light1Pulse with
    | UP => linarith [(hu hp).2]
    | DOWN => exact (hd hp).2

/-- C2 as amended, at a concrete run: frame times 0.9f, 0.9f, 0.5 with `dtMax = 0.9f`. -/
theorem C2_light1_strength_bounded_witness :
    ((0 : Binary32) ≤ 9 / 10 ∧ ((30 : Binary32) + 9 / 10 * 10).isFinite = true
      ∧ ∀ dt ∈ [(9 / 10 : Binary32), 9 / 10, 1 / 2], 0 ≤ dt ∧ dt ≤ 9 / 10)
    ∧ 1 - 9 / 10 * 10
        ≤ (runUpdates floatEnv ([9 / 10, 9 / 10, 1 / 2].take 3)
            (InitScene floatEnv)).gLight1Strength
    ∧ (runUpdates floatEnv ([9 / 10, 9 / 10, 1 / 2].take 3)
          (InitScene floatEnv)).gLight1Strength ≤ 30 + 9 / 10 * 10
    ∧ (runUpdates floatEnv ([9 / 10, 9 / 10, 1 / 2].take 3)
          (InitScene floatEnv)).gLight1Strength.isFinite = true :=
  ⟨⟨by decide!, by decide!, by decide!⟩,
    C2_light1_strength_bounded floatEnv (9 / 10) [9 / 10, 9 / 10, 1 / 2] 3 (by decide!)
      (by decide!) (by decide!)⟩

/-! ### C3 -/

namespace Binary32

theorem fifty_def : (50 : Binary32) = finite 50 (by decide!) := by decide!

theorem forty_def : (40 : Binary32) = finite 40 (by decide!) := by decide!

/-- Taking the step of a positive frame time from a finite value gives minus infinity or
the binary32 nearest to the exact difference of the value and the rounded step. -/
theorem sub_scale_cases (v : ℚ) (hv : isBinary32 v = true) (rate : ℚ) (hrate : 0 < rate)
    (dt : Binary32) (h : 0 < dt) :
    finite v hv - scale rate dt = infinity true
    ∨ ∃ a ha hr, dt = finite a ha ∧ 0 < a
        ∧ finite v hv - scale rate dt = finite (nearest (v - nearest (rate * a))) hr := by
  have hinf : finite v hv - infinity false = infinity true := rfl
  have hv' := (isBinary32_iff v).mp hv
  rw [zero_def] at h
  cases dt with
  | finite a ha =>
    have a0 : 0 < a := (lt_finite_iff _ _ _ _).mp h
    have n0 : 0 ≤ nearest (rate * a) := nearest_nonneg _ (le_of_lt (mul_pos hrate a0))
    have e : scale rate (finite a ha) = round (rate * a) := rfl
    rw [e]
    by_cases hc : |nearest (rate * a)| < 2 ^ 128
    · rw [round_of_lt _ hc, sub_finite]
      have hle : nearest (v - nearest (rate * a)) ≤ v := by
        have := nearest_mono (v - nearest (rate * a)) v (by linarith)
        rwa [hv'.1] at this
      by_cases hd : |nearest (v - nearest (rate * a))| < 2 ^ 128
      · exact Or.inr ⟨a, ha, isBinary32_nearest _ hd, rfl, a0, round_of_lt _ hd⟩
      · left
        rw [round_of_ge _ (not_lt.mp hd)]
        have hneg : v - nearest (rate * a) < 0 := by
          by_contra hge
          have p0 := nearest_nonneg _ (not_lt.mp hge)
          have := (abs_lt.mp hv'.2).2
          exact hd (abs_lt.mpr ⟨by linarith, by linarith⟩)
        rw [decide_eq_true hneg]
    · left
      rw [round_of_ge _ (not_lt.mp hc), decide_eq_false (not_lt.mpr (le_of_lt (mul_pos hrate a0)))]
      exact hinf
  | infinity s =>
    cases s
    · left
      have e : scale rate (infinity false) = infinity false := by
        simp only [scale, if_neg (ne_of_gt hrate), decide_eq_false (not_lt.mpr (le_of_lt hrate))]
        rfl
      rw [e]
      exact hinf
    · exact absurd h (by simp [LT.lt, lt])
  | NaN => exact absurd h (by simp [LT.lt, lt])

/-- Going down, a positive frame time never raises the stored value. -/
theorem sub_scale_le (v : ℚ) (hv : isBinary32 v = true) (rate : ℚ) (hrate : 0 < rate)
    (dt : Binary32) (h : 0 < dt) : finite v hv - scale rate dt ≤ finite v hv := by
  rcases sub_scale_cases v hv rate hrate dt h with e | ⟨a, ha, hr, -, a0, e⟩
  · rw [e]
    rfl
  · rw [e, le_finite_iff]
    have := nearest_mono (v - nearest (rate * a)) v
      (by linarith [nearest_nonneg (rate * a) (le_of_lt (mul_pos hrate a0))])
    rwa [nearest_value v hv] at this

/-- Going down, a frame time of at least `t` lowers the stored value when `t` does. -/
theorem sub_scale_lt (v : ℚ) (hv : isBinary32 v = true) (rate : ℚ) (hrate : 0 < rate)
    (t : ℚ) (ht : isBinary32 t = true) (h0 : 0 < t) (hstep : nearest (v - nearest (rate * t)) < v)
    (dt : Binary32) (h : finite t ht ≤ dt) : finite v hv - scale rate dt < finite v hv := by
  have hpos : 0 < dt := by
    rw [zero_def]
    cases dt with
    | finite a ha =>
      exact (lt_finite_iff _ _ _ _).mpr (lt_of_lt_of_le h0 ((le_finite_iff _ _ _ _).mp h))
    | infinity s =>
      cases s
      · rfl
      · exact absurd h (by simp [LE.le, le])
    | NaN => exact absurd h (by simp [LE.le, le])
  rcases sub_scale_cases v hv rate hrate dt hpos with e | ⟨a, ha, hr, rfl, -, e⟩
  · rw [e]
    rfl
  · rw [e, lt_finite_iff]
    have hta : t ≤ a := (le_finite_iff _ _ _ _).mp h
    have h1 := nearest_mono (rate * t) (rate * a) (mul_le_mul_of_nonneg_left hta (le_of_lt hrate))
    have h2 := nearest_mono (v - nearest (rate * a)) (v - nearest (rate * t)) (by linarith)
    linarith

end Binary32

/-- The light-1 strength after one more call, for a state going down. -/
theorem UpdateScene_light1_down {M : Type} (E : Env Binary32 M) (dt : Binary32)
    (s : Scene Binary32 M) (hd : s.light1Pulse = .DOWN) :
    (UpdateScene E dt s).gLight1Strength = s.gLight1Strength - Binary32.scale 10 dt := by
  rw [(UpdateScene_light1 E dt s).2.1, Binary32.mul_ten, hd]
  rfl

/-- C3 fails as stated. With the three further seconds delivered as one call of 3 the
strength is 50 and the direction DOWN; delivered as three calls of 1 it is 30 and DOWN.
The next call with `dt = 2^-27 > 0` in either state leaves the strength where it is,
not strictly smaller: the step `10 * 2^-27` is below half the spacing of the binary32
numbers just under 50 and 30, so the difference rounds back to the old value. -/
theorem C3_tiny_frame_time_keeps_strength :
    (0 : Binary32) < 1 / 134217728
    ∧ (1 / 134217728 : Binary32).toRat = 1 / 134217728
    ∧ (runUpdates floatEnv [1, 3] (InitScene floatEnv)).light1Pulse = .DOWN
    ∧ (runUpdates floatEnv [1, 3] (InitScene floatEnv)).gLight1Strength.toRat = 50
    ∧ (UpdateScene floatEnv (1 / 134217728)
        (runUpdates floatEnv [1, 3] (InitScene floatEnv))).gLight1Strength.toRat = 50
    ∧ ¬ (UpdateScene floatEnv (1 / 134217728)
          (runUpdates floatEnv [1, 3] (InitScene floatEnv))).gLight1Strength
        < (runUpdates floatEnv [1, 3] (InitScene floatEnv)).gLight1Strength
    ∧ (runUpdates floatEnv [1, 1, 1, 1] (InitScene floatEnv)).light1Pulse = .DOWN
    ∧ (runUpdates floatEnv [1, 1, 1, 1] (InitScene floatEnv)).gLight1Strength.toRat = 30
    ∧ (UpdateScene floatEnv (1 / 134217728)
        (runUpdates floatEnv [1, 1, 1, 1] (InitScene floatEnv))).gLight1Strength.toRat = 30
    ∧ ¬ (UpdateScene floatEnv (1 / 134217728)
          (runUpdates floatEnv [1, 1, 1, 1] (InitScene floatEnv))).gLight1Strength
        < (runUpdates floatEnv [1, 1, 1, 1] (InitScene floatEnv)).gLight1Strength := by
  have h := runUpdates_light1 floatEnv [1, 3] (InitScene floatEnv)
  have e : (List.foldl (fun p dt => floatOscillator 10 1 30 dt p.1 p.2)
      ((InitScene floatEnv).light1Pulse, (InitScene floatEnv).gLight1Strength)
      [1, 3] : valueChange × Binary32) = (.DOWN, 50) := by decide!
  rw [e] at h
  have a := congrArg Prod.fst h
  have b := congrArg Prod.snd h
  have h' := runUpdates_light1 floatEnv [1, 1, 1, 1] (InitScene floatEnv)
  have e' : (List.foldl (fun p dt => floatOscillator 10 1 30 dt p.1 p.2)
      ((InitScene floatEnv).light1Pulse, (InitScene floatEnv).gLight1Strength)
      [1, 1, 1, 1] : valueChange × Binary32) = (.DOWN, 30) := by decide!
  rw [e'] at h'
  have a' := congrArg Prod.fst h'
  have b' := congrArg Prod.snd h'
  simp only at a b a' b'
  rw [UpdateScene_light1_down _ _ _ a, UpdateScene_light1_down _ _ _ a', b, b']
  exact ⟨by decide!, by decide!, a, by decide!, by decide!, by decide!, a', by decide!,
    by decide!, by decide!⟩

/-- C3 as amended. From the state after `InitScene` (light-1 strength 10, going up, rate
10, divisor 2), `UpdateScene(1)` leaves the strength at 20 and the light-1 model scale
at 10. Three more seconds delivered as one call of 3 give strength 50, above 30 and not
clamped, with the direction turned to DOWN in that call. Delivered as three calls of 1
they give 30 (still UP), then 40 (above 30, direction turned to DOWN in this call, the
first in which the strength is above 30), then 30. In each state from the turn on (50
after the call of 3; 40 and then 30 with calls of 1) the next call with a frame time
`dt > 0` gives a strength that is not larger, and a strictly smaller one when `dt` is at
least `2^-22`. -/
theorem C3_light1_end_to_end_binary32 {M : Type} (E : Env Binary32 M) :
    (UpdateScene E 1 (InitScene E)).gLight1Strength = 20
    ∧ (UpdateScene E 1 (InitScene E)).gLight1.scale = ⟨10, 10, 10⟩
    ∧ (UpdateScene E 1 (InitScene E)).light1Pulse = .UP
    ∧ (runUpdates E [1, 3] (InitScene E)).gLight1Strength = 50
    ∧ (30 : Binary32) < (runUpdates E [1, 3] (InitScene E)).gLight1Strength
    ∧ (runUpdates E [1, 3] (InitScene E)).light1Pulse = .DOWN
    ∧ (∀ dt : Binary32, 0 < dt →
        (UpdateScene E dt (runUpdates E [1, 3] (InitScene E))).gLight1Strength
          ≤ (runUpdates E [1, 3] (InitScene E)).gLight1Strength)
    ∧ (∀ dt : Binary32, 1 / 4194304 ≤ dt →
        (UpdateScene E dt (runUpdates E [1, 3] (InitScene E))).gLight1Strength
          < (runUpdates E [1, 3] (InitScene E)).gLight1Strength)
    ∧ (runUpdates E [1, 1] (InitScene E)).gLight1Strength = 30
    ∧ (runUpdates E [1, 1] (InitScene E)).light1Pulse = .UP
    ∧ (runUpdates E [1, 1, 1] (InitScene E)).gLight1Strength = 40
    ∧ (30 : Binary32) < (runUpdates E [1, 1, 1] (InitScene E)).gLight1Strength
    ∧ (runUpdates E [1, 1, 1] (InitScene E)).light1Pulse = .DOWN
    ∧ (∀ dt : Binary32, 0 < dt →
        (UpdateScene E dt (runUpdates E [1, 1, 1] (InitScene E))).gLight1Strength
          ≤ (runUpdates E [1, 1, 1] (InitScene E)).gLight1Strength)
    ∧ (∀ dt : Binary32, 1 / 4194304 ≤ dt →
        (UpdateScene E dt (runUpdates E [1, 1, 1] (InitScene E))).gLight1Strength
          < (runUpdates E [1, 1, 1] (InitScene E)).gLight1Strength)
    ∧ (runUpdates E [1, 1, 1, 1] (InitScene E)).gLight1Strength = 30
    ∧ (runUpdates E [1, 1, 1, 1] (InitScene E)).light1Pulse = .DOWN
    ∧ (∀ dt : Binary32, 0 < dt →
        (UpdateScene E dt (runUpdates E [1, 1, 1, 1] (InitScene E))).gLight1Strength
          ≤ (runUpdates E [1, 1, 1, 1] (InitScene E)).gLight1Strength)
    ∧ (∀ dt : Binary32, 1 / 4194304 ≤ dt →
        (UpdateScene E dt (runUpdates E [1, 1, 1, 1] (InitScene E))).gLight1Strength
          < (runUpdates E [1, 1, 1, 1] (InitScene E)).gLight1Strength) := by
  have i1 : (InitScene E).light1Pulse = .UP := rfl
  have i2 : (InitScene E).gLight1Strength = 10 := rfl
  have run : ∀ dts : List Binary32,
      ((runUpdates E dts (InitScene E)).light1Pulse,
        (runUpdates E dts (InitScene E)).gLight1Strength)
        = dts.foldl (fun p dt => floatOscillator 10 1 30 dt p.1 p.2) (.UP, 10) := by
    intro dts
    rw [runUpdates_light1, i1, i2]
  have e1 : (List.foldl (fun p dt => floatOscillator 10 1 30 dt p.1 p.2) (.UP, 10) [1]
      : valueChange × Binary32) = (.UP, 20) := by decide!
  have e2 : (List.foldl (fun p dt => floatOscillator 10 1 30 dt p.1 p.2) (.UP, 10) [1, 3]
      : valueChange × Binary32) = (.DOWN, 50) := by decide!
  have e3 : (List.foldl (fun p dt => floatOscillator 10 1 30 dt p.1 p.2) (.UP, 10) [1, 1]
      : valueChange × Binary32) = (.UP, 30) := by decide!
  have e4 : (List.foldl (fun p dt => floatOscillator 10 1 30 dt p.1 p.2) (.UP, 10) [1, 1, 1]
      : valueChange × Binary32) = (.DOWN, 40) := by decide!
  have e5 : (List.foldl (fun p dt => floatOscillator 10 1 30 dt p.1 p.2) (.UP, 10)
      [1, 1, 1, 1] : valueChange × Binary32) = (.DOWN, 30) := by decide!
  have r1 := run [1]
  have r2 := run [1, 3]
  have r3 := run [1, 1]
  have r4 := run [1, 1, 1]
  have r5 := run [1, 1, 1, 1]
  rw [e1] at r1
  rw [e2] at r2
  rw [e3] at r3
  rw [e4] at r4
  rw [e5] at r5
  have r1' : runUpdates E [1] (InitScene E) = UpdateScene E 1 (InitScene E) := rfl
  rw [r1'] at r1
  have p1 := congrArg Prod.fst r1
  have v1 := congrArg Prod.snd r1
  have p2 := congrArg Prod.fst r2
  have v2 := congrArg Prod.snd r2
  have p3 := congrArg Prod.fst r3
  have v3 := congrArg Prod.snd r3
  have p4 := congrArg Prod.fst r4
  have v4 := congrArg Prod.snd r4
  have p5 := congrArg Prod.fst r5
  have v5 := congrArg Prod.snd r5
  simp only at p1 v1 p2 v2 p3 v3 p4 v4 p5 v5
  have hscale : (UpdateScene E 1 (InitScene E)).gLight1.scale = ⟨10, 10, 10⟩ := by
    have h3 := (UpdateScene_light1 E 1 (InitScene E)).2.2
    rw [← (UpdateScene_light1 E 1 (InitScene E)).2.1, v1] at h3
    rw [h3]
    decide!
  have q : (1 / 4194304 : Binary32) = Binary32.finite (1 / 4194304) (by decide!) := by
    decide!
  refine ⟨v1, hscale, p1, v2, ?_, p2, ?_, ?_, v3, p3, v4, ?_, p4, ?_, ?_, v5, p5, ?_, ?_⟩
  · rw [v2]
    decide!
  · intro dt hdt
    rw [UpdateScene_light1_down E dt _ p2, v2, Binary32.fifty_def]
    exact Binary32.sub_scale_le 50 _ 10 (by norm_num) dt hdt
  · intro dt hdt
    rw [UpdateScene_light1_down E dt _ p2, v2, Binary32.fifty_def]
    rw [q] at hdt
    exact Binary32.sub_scale_lt 50 _ 10 (by norm_num) (1 / 4194304) _ (by norm_num)
      (by decide!) dt hdt
  · rw [v4]
    decide!
  · intro dt hdt
    rw [UpdateScene_light1_down E dt _ p4, v4, Binary32.forty_def]
    exact Binary32.sub_scale_le 40 _ 10 (by norm_num) dt hdt
  · intro dt hdt
    rw [UpdateScene_light1_down E dt _ p4, v4, Binary32.forty_def]
    rw [q] at hdt
    exact Binary32.sub_scale_lt 40 _ 10 (by norm_num) (1 / 4194304) _ (by norm_num)
      (by decide!) dt hdt
  · intro dt hdt
    rw [UpdateScene_light1_down E dt _ p5, v5, Binary32.thirty_def]
    exact Binary32.sub_scale_le 30 _ 10 (by norm_num) dt hdt
  · intro dt hdt
    rw [UpdateScene_light1_down E dt _ p5, v5, Binary32.thirty_def]
    rw [q] at hdt
    exact Binary32.sub_scale_lt 30 _ 10 (by norm_num) (1 / 4194304) _ (by norm_num)
      (by decide!) dt hdt

/-! ### Rounding error of the orbit positions -/

namespace Binary32

end Binary32

namespace Binary32

end Binary32

namespace Binary32

theorem five_nat : (5 : Binary32) = ((5 : ℤ) : Binary32) := by decide!

theorem tenth_def : (1 / 10 : Binary32) = finite (13421773 / 134217728) (by decide!) := by
  decide!

theorem fifth_def : (2 / 10 : Binary32) = finite (13421773 / 67108864) (by decide!) := by
  decide!

theorem ninetyNine_def : (99 / 100 : Binary32) = finite (4152361 / 4194304) (by decide!) := by
  decide!

end Binary32

/-- C18 fails as stated. (a) With `dt_max = 0.1f`, one call `UpdateScene(0.1f)` from the
state after `InitScene` leaves the red channel at about 0.12, below `0.2 - dt_max / 5`:
the channel starts at 0.1, under the lower bound, and climbs by `dt / 5` per call.
(b) With `dt_max = 4.45f`, two calls `UpdateScene(4.45f)` leave it at `15770583 / 2^23`,
above `0.99 + dt_max / 5`: the first call stores exactly 0.99f, which is not above the
bound, and each step and each sum is rounded. -/
theorem C18_red_channel_leaves_claimed_interval :
    ((0 : Binary32) ≤ 1 / 10
      ∧ (runUpdates floatEnv [1 / 10] (InitScene floatEnv)).gLight2Red.toRat
          = 1006633 / 8388608
      ∧ (1006633 / 8388608 : ℚ) < 2 / 10 - (1 / 10 : Binary32).toRat / 5)
    ∧ ((0 : Binary32) ≤ 445 / 100
      ∧ (runUpdates floatEnv [445 / 100, 445 / 100] (InitScene floatEnv)).gLight2Red.toRat
          = 15770583 / 8388608
      ∧ 99 / 100 + (445 / 100 : Binary32).toRat / 5 < (15770583 / 8388608 : ℚ)) := by
  have h1 := congrArg (fun p => p.2.toRat) (runUpdates_red floatEnv [1 / 10] (InitScene floatEnv))
  have e1 : ((List.foldl (fun p dt => floatOscillator (1 / 5) (2 / 10) (99 / 100) dt p.1 p.2)
      ((InitScene floatEnv).redColour, (InitScene floatEnv).gLight2Red)
      [1 / 10] : valueChange × Binary32)).2.toRat = 1006633 / 8388608 := by decide!
  have h2 := congrArg (fun p => p.2.toRat)
    (runUpdates_red floatEnv [445 / 100, 445 / 100] (InitScene floatEnv))
  have e2 : ((List.foldl (fun p dt => floatOscillator (1 / 5) (2 / 10) (99 / 100) dt p.1 p.2)
      ((InitScene floatEnv).redColour, (InitScene floatEnv).gLight2Red)
      [445 / 100, 445 / 100] : valueChange × Binary32)).2.toRat = 15770583 / 8388608 := by
    decide!
  simp only at h1 h2
  rw [e1] at h1
  rw [e2] at h2
  exact ⟨⟨by decide!, h1, by decide!⟩, by decide!, h2, by decide!⟩

/-- C18 as amended. For every `dtMax ≥ 0` for which `0.99f + dtMax / 5`, computed in
binary32, is finite, and every sequence of `UpdateScene` calls from the state after
`InitScene` whose frame times all lie in `[0, dtMax]`, the light-2 red channel after
each call (after the first `n` calls, for every `n`) is a finite number that is at
least the start value 0.1f or at least `0.2f - dtMax / 5`, and at most
`0.99f + dtMax / 5`, the bounds being computed in binary32 as the code computes its
step: the quotient rounded, then the difference or sum rounded. -/
theorem C18_red_channel_bounded_from_start {M : Type} (E : Env Binary32 M)
    (dtMax : Binary32) (dts : List Binary32) (n : Nat) (h0 : 0 ≤ dtMax)
    (hfin : (99 / 100 + dtMax / 5).isFinite = true)
    (h : ∀ dt ∈ dts, 0 ≤ dt ∧ dt ≤ dtMax) :
    (1 / 10 ≤ (runUpdates E (dts.take n) (InitScene E)).gLight2Red
      ∨ 2 / 10 - dtMax / 5 ≤ (runUpdates E (dts.take n) (InitScene E)).gLight2Red)
    ∧ (runUpdates E (dts.take n) (InitScene E)).gLight2Red ≤ 99 / 100 + dtMax / 5
    ∧ (runUpdates E (dts.take n) (InitScene E)).gLight2Red.isFinite = true := by
  rw [Binary32.five_nat, Binary32.div_five] at hfin ⊢
  obtain ⟨-, ρ, hρ, hs⟩ := Binary32.finite_of_add_isFinite _ _ hfin
  obtain ⟨amax, hmax, rfl, hR⟩ := Binary32.finite_of_scale_finite (1 / 5) dtMax ρ hρ hs
  rw [hs, Binary32.ninetyNine_def, Binary32.add_finite] at hfin
  obtain ⟨hH, eH⟩ := Binary32.round_isFinite _ hfin
  have a0 : 0 ≤ amax := by
    rw [Binary32.zero_def] at h0
    exact (Binary32.le_finite_iff _ _ _ _).mp h0
  have ρ0 : 0 ≤ ρ := by
    rw [hR]
    exact nearest_nonneg _ (by linarith)
  have hnρ : isBinary32 (-ρ) = true := Binary32.isBinary32_neg ρ hρ
  obtain ⟨hLo, eLo, -, Lo1⟩ :=
    Binary32.round_between (13421773 / 67108864 - ρ) (-ρ) (13421773 / 67108864) hnρ
      (by decide!) (by linarith) (by linarith)
  have hL : isBinary32 (min (13421773 / 134217728) (nearest (13421773 / 67108864 - ρ))) = true := by
    rcases min_choice (13421773 / 134217728 : ℚ) (nearest (13421773 / 67108864 - ρ)) with e | e
    · rw [e]; decide!
    · rw [e]; exact hLo
  have hinv := floatOscillator_run_inv (1 / 5) (by norm_num)
    (min (13421773 / 134217728) (nearest (13421773 / 67108864 - ρ))) (13421773 / 67108864)
    (4152361 / 4194304) (nearest (4152361 / 4194304 + ρ)) ρ amax (by decide!) (by decide!) hL hH
    hmax hρ hR (by norm_num) (min_le_right _ _) le_rfl (dts.take n)
    (fun d hd => h d (List.mem_of_mem_take hd))
    ((InitScene E).redColour, (InitScene E).gLight2Red)
    ⟨13421773 / 134217728, _, Binary32.tenth_def,
      fun _ => ⟨min_le_left _ _, by norm_num⟩, fun hc => nomatch hc⟩
  have hrun := runUpdates_red E (dts.take n) (InitScene E)
  rw [Binary32.fifth_def, Binary32.ninetyNine_def] at hrun
  rw [← hrun] at hinv
  obtain ⟨x, hx, ex, hu, hd⟩ := hinv
  simp only at ex hu hd
  have hhiH : (4152361 / 4194304 : ℚ) ≤ nearest (4152361 / 4194304 + ρ) := by
    have := nearest_mono (4152361 / 4194304) (4152361 / 4194304 + ρ) (by linarith)
    rwa [Binary32.nearest_value (4152361 / 4194304) (by decide!)] at this
  rw [hs, Binary32.ninetyNine_def, Binary32.add_finite, eH, Binary32.fifth_def,
    Binary32.sub_finite, eLo, Binary32.tenth_def, ex, Binary32.le_finite_iff,
    Binary32.le_finite_iff, Binary32.le_finite_iff]
  refine ⟨?_, ?_, rfl⟩
  · cases hp : (runUpdates E (List.take n dts) (InitScene E)).redColour with
    | UP => exact min_le_iff.mp (hu hp).1
    | DOWN => exact Or.inr (by linarith [(hd hp).1])
  · cases hp : (runUpdates E (List.take n dts) (InitScene E)).redColour with
    | UP => linarith [(hu hp).2]
    | DOWN => exact (hd hp).2

/-- C18 as amended, at a concrete run: frame times 0.1f, 4.45f, 4.45f with
`dtMax = 4.45f`. -/
theorem C18_red_channel_bounded_from_start_witness :
    ((0 : Binary32) ≤ 445 / 100 ∧ ((99 / 100 : Binary32) + 445 / 100 / 5).isFinite = true
      ∧ ∀ dt ∈ [(1 / 10 : Binary32), 445 / 100, 445 / 100], 0 ≤ dt ∧ dt ≤ 445 / 100)
    ∧ (1 / 10
          ≤ (runUpdates floatEnv ([1 / 10, 445 / 100, 445 / 100].take 3)
              (InitScene floatEnv)).gLight2Red
        ∨ 2 / 10 - 445 / 100 / 5
          ≤ (runUpdates floatEnv ([1 / 10, 445 / 100, 445 / 100].take 3)
              (InitScene floatEnv)).gLight2Red)
    ∧ (runUpdates floatEnv ([1 / 10, 445 / 100, 445 / 100].take 3)
          (InitScene floatEnv)).gLight2Red ≤ 99 / 100 + 445 / 100 / 5
    ∧ (runUpdates floatEnv ([1 / 10, 445 / 100, 445 / 100].take 3)
          (InitScene floatEnv)).gLight2Red.isFinite = true :=
  ⟨⟨by decide!, by decide!, by decide!⟩,
    C18_red_channel_bounded_from_start floatEnv (445 / 100) [1 / 10, 445 / 100, 445 / 100] 3
      (by decide!) (by decide!) (by decide!)⟩

section RenderProofs

variable {K M : Type}

/-! ### The render code in normal form -/

/-- A view of a loaded texture is bound as it is: only the portal texture is ever the
render target. -/
theorem boundView_of_ne (target : Option RenderTargetView) (view : ShaderResourceView)
    (h : view ≠ .gPortalTextureSRV) : boundView target view = some view := by
  cases target with
  | none => rfl
  | some t => cases t <;> cases view <;> first | rfl | exact absurd rfl h

theorem boundView_portal :
    boundView (some .gPortalRenderTarget) .gPortalTextureSRV = none
    ∧ boundView (some .gBackBufferRenderTarget) .gPortalTextureSRV
        = some .gPortalTextureSRV :=
  ⟨rfl, rfl⟩

set_option maxRecDepth 100000 in
/-- One pass as a single record: what `RenderSceneFromCamera` leaves in the constant
records, the context and the buffers, and the commands it appends. -/
theorem RenderSceneFromCamera_eq (E : Env K M) (s : Scene K M) (camera : Camera K)
    (r : Render K M) :
    RenderSceneFromCamera E s camera r =
      { gPerFrameConstants := passPerFrame E s camera r.gPerFrameConstants
        gPerModelConstants := perModelFor E r.gPerModelConstants s.gRobot E.defaultColour
        context :=
          drawContext r.context .gPixelLightingVertexShader .gPixelLightingPixelShader
            .gNoBlendingState .gUseDepthBufferState .gCullBackState
            (boundView r.context.renderTarget .gPortalTextureSRV)
            (some .gTwoTextureCubeDiffuseSpecularMap2SRV) .gAnisotropic4xSampler
            (some .gPointSampler)
        perFrameBuffer := some (passPerFrame E s camera r.gPerFrameConstants)
        perModelBuffer := some (perModelFor E r.gPerModelConstants s.gRobot E.defaultColour)
        issued := r.issued ++
          passCommandList E s camera r.context r.gPerFrameConstants r.gPerModelConstants } := by
  simp only [RenderSceneFromCamera, UpdatePerFrameConstantBuffer, UpdatePerModelConstantBuffer,
    VSSetConstantBuffers, PSSetConstantBuffers, VSSetShader, PSSetShader, OMSetBlendState,
    OMSetDepthStencilState, RSSetState, PSSetShaderResources, PSSetSamplers, Draw, Model.Render,
    List.append_assoc, List.cons_append, List.nil_append, ↓reduceIte, one_ne_zero,
    passCommandList, passPerFrame, perModelFor, drawContext, boundView_of_ne, ne_eq,
    reduceCtorEq, not_false_eq_true]

/-- The per-frame constants as `RenderScene` has them after its common settings. -/
theorem beforePortalPass_fields [LinearOrderedField K] (s : Scene K M) (d : Device K M) :
    (beforePortalPass s d).gPerFrameConstants
        = (commonSettings s (Render.start s d)).gPerFrameConstants
    ∧ (beforePortalPass s d).gPerModelConstants = s.gPerModelConstants
    ∧ (beforePortalPass s d).context.renderTarget = some .gPortalRenderTarget
    ∧ (beforePortalPass s d).context.depthStencilView = some .gPortalDepthStencilView
    ∧ (beforePortalPass s d).context.viewport = some (s.gPortalWidth, s.gPortalHeight) :=
  ⟨rfl, rfl, rfl, rfl, rfl⟩

theorem beforeMainPass_fields [LinearOrderedField K] (E : Env K M) (s : Scene K M)
    (d : Device K M) :
    (beforeMainPass E s d).gPerFrameConstants
        = passPerFrame E s s.gPortalCamera (commonSettings s (Render.start s d)).gPerFrameConstants
    ∧ (beforeMainPass E s d).gPerModelConstants
        = perModelFor E s.gPerModelConstants s.gRobot E.defaultColour
    ∧ (beforeMainPass E s d).context.renderTarget = some .gBackBufferRenderTarget
    ∧ (beforeMainPass E s d).context.depthStencilView = some .gDepthStencil
    ∧ (beforeMainPass E s d).context.viewport = some (E.gViewportWidth, E.gViewportHeight) := by
  refine ⟨?_, ?_, ?_, ?_, ?_⟩ <;>
    simp only [beforeMainPass, beforePortalPass, portalTargetSetup, RenderSceneFromCamera_eq,
      mainTargetSetup, OMSetRenderTargets, ClearRenderTargetView, ClearDepthStencilView,
      RSSetViewports, commonSettings, Render.start]

theorem portalPassCommands_eq [LinearOrderedField K] (E : Env K M) (s : Scene K M)
    (d : Device K M) :
    portalPassCommands E s d
      = passCommandList E s s.gPortalCamera (beforePortalPass s d).context
          (beforePortalPass s d).gPerFrameConstants (beforePortalPass s d).gPerModelConstants := by
  simp only [portalPassCommands, issuedBy, RenderSceneFromCamera_eq, List.nil_append]

theorem mainPassCommands_eq [LinearOrderedField K] (E : Env K M) (s : Scene K M)
    (d : Device K M) :
    mainPassCommands E s d
      = passCommandList E s s.gCamera (beforeMainPass E s d).context
          (beforeMainPass E s d).gPerFrameConstants (beforeMainPass E s d).gPerModelConstants := by
  simp only [mainPassCommands, issuedBy, RenderSceneFromCamera_eq, List.nil_append]

/-- The commands of one `RenderScene` call: portal target set-up, portal pass, back
buffer set-up, main pass, `Present`. -/
theorem frameCommands_split [LinearOrderedField K] (E : Env K M) (s : Scene K M)
    (d : Device K M) :
    frameCommands E s d
      = ([Command.OMSetRenderTargets .gPortalRenderTarget .gPortalDepthStencilView,
            Command.ClearRenderTargetView .gPortalRenderTarget s.gBackgroundColor,
            Command.ClearDepthStencilView .gPortalDepthStencilView 1,
            Command.RSSetViewports s.gPortalWidth s.gPortalHeight]
          ++ portalPassCommands E s d)
        ++ (([Command.OMSetRenderTargets .gBackBufferRenderTarget .gDepthStencil,
            Command.ClearRenderTargetView .gBackBufferRenderTarget s.gBackgroundColor,
            Command.ClearDepthStencilView .gDepthStencil 1,
            Command.RSSetViewports E.gViewportWidth E.gViewportHeight]
          ++ mainPassCommands E s d)
        ++ [Command.Present]) := by
  simp only [frameCommands, RenderScene, RenderScene.run, portalPassCommands, mainPassCommands,
    issuedBy, beforeMainPass, beforePortalPass, RenderSceneFromCamera_eq, mainTargetSetup,
    portalTargetSetup, commonSettings, Render.start, OMSetRenderTargets, ClearRenderTargetView,
    ClearDepthStencilView, RSSetViewports, Present, List.append_assoc, List.cons_append,
    List.nil_append]

/-! ### Facts about the commands of a pass -/

theorem passCommandList_draws_length (E : Env K M) (s : Scene K M) (camera : Camera K)
    (c : Context) (pf : PerFrameConstants K M) (pm : PerModelConstants K M) :
    (draws (passCommandList E s camera c pf pm)).length = 17 := by
  simp [passCommandList, draws]

theorem passCommandList_draw_targets (E : Env K M) (s : Scene K M) (camera : Camera K)
    (c : Context) (pf : PerFrameConstants K M) (pm : PerModelConstants K M) :
    ∀ call ∈ draws (passCommandList E s camera c pf pm),
      call.context.renderTarget = c.renderTarget := by
  simp [passCommandList, draws, drawContext]

theorem passCommandList_not_bindsBackBuffer (E : Env K M) (s : Scene K M) (camera : Camera K)
    (c : Context) (pf : PerFrameConstants K M) (pm : PerModelConstants K M) :
    ∀ cmd ∈ passCommandList E s camera c pf pm, bindsBackBuffer cmd = false := by
  simp [passCommandList, bindsBackBuffer]

theorem passCommandList_not_writesPortalTarget (E : Env K M) (s : Scene K M)
    (camera : Camera K) (c : Context) (pf : PerFrameConstants K M)
    (pm : PerModelConstants K M) (h : c.renderTarget = some .gBackBufferRenderTarget) :
    ∀ cmd ∈ passCommandList E s camera c pf pm, writesPortalTarget cmd = false := by
  simp [passCommandList, writesPortalTarget, drawContext, h]

theorem passCommandList_portal_draw (E : Env K M) (s : Scene K M) (camera : Camera K)
    (c : Context) (pf : PerFrameConstants K M) (pm : PerModelConstants K M) :
    ∃ call, Command.Draw call ∈ passCommandList E s camera c pf pm
      ∧ call.model = .gPortal
      ∧ call.context.psResource0 = boundView c.renderTarget .gPortalTextureSRV
      ∧ call.context.renderTarget = c.renderTarget :=
  ⟨⟨.gPortal, s.gPortal.mesh,
      drawContext c .gPixelLightingVertexShader .gPixelLightingPixelShader .gNoBlendingState
        .gUseDepthBufferState .gCullBackState (boundView c.renderTarget .gPortalTextureSRV)
        (some .gTwoTextureCubeDiffuseSpecularMap2SRV) .gAnisotropic4xSampler
        (some .gPointSampler),
      some (passPerFrame E s camera pf), some (perModelFor E pm s.gPortal E.defaultColour)⟩,
    by simp [passCommandList], rfl, rfl, rfl⟩

theorem passCommandList_uploads (E : Env K M) (s : Scene K M) (camera : Camera K)
    (c : Context) (pf : PerFrameConstants K M) (pm : PerModelConstants K M) :
    uploadedPerFrame (passCommandList E s camera c pf pm) = [passPerFrame E s camera pf]
    ∧ (passCommandList E s camera c pf pm).head?
        = some (Command.UpdatePerFrameConstants (passPerFrame E s camera pf)) := by
  simp [passCommandList, uploadedPerFrame]

theorem passCommandList_head_tail (E : Env K M) (s : Scene K M) (camera : Camera K)
    (c : Context) (pf : PerFrameConstants K M) (pm : PerModelConstants K M) :
    passCommandList E s camera c pf pm
      = Command.UpdatePerFrameConstants (passPerFrame E s camera pf)
          :: (passCommandList E s camera c pf pm).tail := by
  simp [passCommandList]

theorem passCommandList_tail (E : Env K M) (s : Scene K M) (camera : Camera K)
    (c : Context) (pf : PerFrameConstants K M) (pm : PerModelConstants K M) :
    (∀ cmd ∈ (passCommandList E s camera c pf pm).tail, isPerFrameUpload cmd = false)
    ∧ (draws (passCommandList E s camera c pf pm).tail).length = 17 := by
  simp [passCommandList, isPerFrameUpload, draws]

/-! ### C8 -/

/-- C8. The commands of one `RenderScene` call are, in order: the binding of the portal
colour and depth targets, their two clears and the portal viewport; the commands of
`RenderSceneFromCamera(gPortalCamera)`, whose 17 draws all go to the portal target; the
binding of the back buffer, its clears and the window viewport; the commands of
`RenderSceneFromCamera(gCamera)`; and `Present`, the last command. The back buffer is
not bound anywhere in the first two groups; no command from the back-buffer binding
onwards writes the portal target; and the main pass contains the draw of the portal
model, issued with the portal colour texture in pixel-shader slot 0 and the back buffer
as target, so that draw comes after every command that writes the portal target. -/
theorem C8_portal_pass_completes_before_main_pass [LinearOrderedField K] (E : Env K M)
    (s : Scene K M) (d : Device K M) :
    frameCommands E s d
      = ([Command.OMSetRenderTargets .gPortalRenderTarget .gPortalDepthStencilView,
            Command.ClearRenderTargetView .gPortalRenderTarget s.gBackgroundColor,
            Command.ClearDepthStencilView .gPortalDepthStencilView 1,
            Command.RSSetViewports s.gPortalWidth s.gPortalHeight]
          ++ portalPassCommands E s d)
        ++ (([Command.OMSetRenderTargets .gBackBufferRenderTarget .gDepthStencil,
            Command.ClearRenderTargetView .gBackBufferRenderTarget s.gBackgroundColor,
            Command.ClearDepthStencilView .gDepthStencil 1,
            Command.RSSetViewports E.gViewportWidth E.gViewportHeight]
          ++ mainPassCommands E s d)
        ++ [Command.Present])
    ∧ (draws (portalPassCommands E s d)).length = 17
    ∧ (∀ call ∈ draws (portalPassCommands E s d),
        call.context.renderTarget = some .gPortalRenderTarget)
    ∧ (∀ cmd ∈ [Command.OMSetRenderTargets .gPortalRenderTarget .gPortalDepthStencilView,
            Command.ClearRenderTargetView .gPortalRenderTarget s.gBackgroundColor,
            Command.ClearDepthStencilView .gPortalDepthStencilView 1,
            Command.RSSetViewports s.gPortalWidth s.gPortalHeight]
          ++ portalPassCommands E s d, bindsBackBuffer cmd = false)
    ∧ (∀ cmd ∈ ([Command.OMSetRenderTargets .gBackBufferRenderTarget .gDepthStencil,
            Command.ClearRenderTargetView .gBackBufferRenderTarget s.gBackgroundColor,
            Command.ClearDepthStencilView .gDepthStencil 1,
            Command.RSSetViewports E.gViewportWidth E.gViewportHeight]
          ++ mainPassCommands E s d) ++ [Command.Present], writesPortalTarget cmd = false)
    ∧ (∃ call, Command.Draw call ∈ mainPassCommands E s d
        ∧ call.model = .gPortal
        ∧ call.context.psResource0 = some .gPortalTextureSRV
        ∧ call.context.renderTarget = some .gBackBufferRenderTarget)
    ∧ (frameCommands E s d).getLast? = some Command.Present := by
  refine ⟨frameCommands_split E s d, ?_, ?_, ?_, ?_, ?_, ?_⟩
  · rw [portalPassCommands_eq]
    exact passCommandList_draws_length _ _ _ _ _ _
  · rw [portalPassCommands_eq]
    intro call h
    rw [passCommandList_draw_targets _ _ _ _ _ _ call h]
    exact (beforePortalPass_fields s d).2.2.1
  · intro cmd h
    rcases List.mem_append.mp h with h | h
    · simp only [List.mem_cons, List.mem_singleton, List.not_mem_nil, or_false] at h
      rcases h with rfl | rfl | rfl | rfl <;> rfl
    · rw [portalPassCommands_eq] at h
      exact passCommandList_not_bindsBackBuffer _ _ _ _ _ _ cmd h
  · intro cmd h
    rcases List.mem_append.mp h with h | h
    · rcases List.mem_append.mp h with h | h
      · simp only [List.mem_cons, List.mem_singleton, List.not_mem_nil, or_false] at h
        rcases h with rfl | rfl | rfl | rfl <;> rfl
      · rw [mainPassCommands_eq] at h
        exact passCommandList_not_writesPortalTarget _ _ _ _ _ _
          (beforeMainPass_fields E s d).2.2.1 cmd h
    · simp only [List.mem_singleton] at h
      rw [h]
      rfl
  · rw [mainPassCommands_eq]
    obtain ⟨call, h1, h2, h3, h4⟩ :=
      passCommandList_portal_draw E s s.gCamera (beforeMainPass E s d).context
        (beforeMainPass E s d).gPerFrameConstants (beforeMainPass E s d).gPerModelConstants
    rw [(beforeMainPass_fields E s d).2.2.1, boundView_portal.2] at h3
    exact ⟨call, h1, h2, h3, h4.trans (beforeMainPass_fields E s d).2.2.1⟩
  · rw [frameCommands_split, ← List.append_assoc]
    exact List.getLast?_concat _

/-! ### C9 -/

/-- C9. In one `RenderScene` call each pass consists of its target binding, two clears
and viewport setting, then a single upload of the per-frame constants, then the rest of
the pass, which contains all 17 draws and no further per-frame upload. The light colours
(colour times strength), light positions, ambient colour and specular power uploaded in
the portal pass are those of the scene, and the main pass uploads the same values. -/
theorem C9_per_frame_constants_once_per_pass [LinearOrderedField K] (E : Env K M)
    (s : Scene K M) (d : Device K M) :
    ∃ pfPortal pfMain : PerFrameConstants K M,
      frameCommands E s d
        = ([Command.OMSetRenderTargets .gPortalRenderTarget .gPortalDepthStencilView,
              Command.ClearRenderTargetView .gPortalRenderTarget s.gBackgroundColor,
              Command.ClearDepthStencilView .gPortalDepthStencilView 1,
              Command.RSSetViewports s.gPortalWidth s.gPortalHeight]
            ++ Command.UpdatePerFrameConstants pfPortal :: (portalPassCommands E s d).tail)
          ++ (([Command.OMSetRenderTargets .gBackBufferRenderTarget .gDepthStencil,
              Command.ClearRenderTargetView .gBackBufferRenderTarget s.gBackgroundColor,
              Command.ClearDepthStencilView .gDepthStencil 1,
              Command.RSSetViewports E.gViewportWidth E.gViewportHeight]
            ++ Command.UpdatePerFrameConstants pfMain :: (mainPassCommands E s d).tail)
          ++ [Command.Present])
      ∧ (∀ cmd ∈ (portalPassCommands E s d).tail, isPerFrameUpload cmd = false)
      ∧ (draws (portalPassCommands E s d).tail).length = 17
      ∧ (∀ cmd ∈ (mainPassCommands E s d).tail, isPerFrameUpload cmd = false)
      ∧ (draws (mainPassCommands E s d).tail).length = 17
      ∧ (pfPortal.light1Colour = s.gLight1Colour.smul s.gLight1Strength
        ∧ pfPortal.light2Colour = s.gLight2Colour.smul s.gLight2Strength
        ∧ pfPortal.light3Colour = s.gLight3Colour.smul s.gLight3Strength
        ∧ pfPortal.light4Colour = s.gLight4Colour.smul s.gLight4Strength
        ∧ pfPortal.light5Colour = s.gLight5Colour.smul s.gLight5Strength
        ∧ pfPortal.light1Position = s.gLight1.position
        ∧ pfPortal.light2Position = s.gLight2.position
        ∧ pfPortal.light3Position = s.gLight3.position
        ∧ pfPortal.light4Position = s.gLight4.position
        ∧ pfPortal.light5Position = s.gLight5.position
        ∧ pfPortal.ambientColour = s.gAmbientColour
        ∧ pfPortal.specularPower = s.gSpecularPower)
      ∧ (pfMain.light1Colour = pfPortal.light1Colour
        ∧ pfMain.light2Colour = pfPortal.light2Colour
        ∧ pfMain.light3Colour = pfPortal.light3Colour
        ∧ pfMain.light4Colour = pfPortal.light4Colour
        ∧ pfMain.light5Colour = pfPortal.light5Colour
        ∧ pfMain.light1Position = pfPortal.light1Position
        ∧ pfMain.light2Position = pfPortal.light2Position
        ∧ pfMain.light3Position = pfPortal.light3Position
        ∧ pfMain.light4Position = pfPortal.light4Position
        ∧ pfMain.light5Position = pfPortal.light5Position
        ∧ pfMain.ambientColour = pfPortal.ambientColour
        ∧ pfMain.specularPower = pfPortal.specularPower) := by
  refine ⟨passPerFrame E s s.gPortalCamera (commonSettings s (Render.start s d)).gPerFrameConstants,
    passPerFrame E s s.gCamera
      (passPerFrame E s s.gPortalCamera (commonSettings s (Render.start s d)).gPerFrameConstants),
    ?_, ?_, ?_, ?_, ?_, ?_, ?_⟩
  · have hp := passCommandList_head_tail E s s.gPortalCamera (beforePortalPass s d).context
      (beforePortalPass s d).gPerFrameConstants (beforePortalPass s d).gPerModelConstants
    have hm := passCommandList_head_tail E s s.gCamera (beforeMainPass E s d).context
      (beforeMainPass E s d).gPerFrameConstants (beforeMainPass E s d).gPerModelConstants
    rw [← portalPassCommands_eq, (beforePortalPass_fields s d).1] at hp
    rw [← mainPassCommands_eq, (beforeMainPass_fields E s d).1] at hm
    rw [← hp, ← hm]
    exact frameCommands_split E s d
  · rw [portalPassCommands_eq]
    exact (passCommandList_tail _ _ _ _ _ _).1
  · rw [portalPassCommands_eq]
    exact (passCommandList_tail _ _ _ _ _ _).2
  · rw [mainPassCommands_eq]
    exact (passCommandList_tail _ _ _ _ _ _).1
  · rw [mainPassCommands_eq]
    exact (passCommandList_tail _ _ _ _ _ _).2
  · exact ⟨rfl, rfl, rfl, rfl, rfl, rfl, rfl, rfl, rfl, rfl, rfl, rfl⟩
  · exact ⟨rfl, rfl, rfl, rfl, rfl, rfl, rfl, rfl, rfl, rfl, rfl, rfl⟩

/-! ### C10 -/

/-- The per-frame constants each pass uploads. -/
theorem uploads_of_passes [LinearOrderedField K] (E : Env K M) (s : Scene K M)
    (d : Device K M) :
    uploadedPerFrame (portalPassCommands E s d)
        = [passPerFrame E s s.gPortalCamera (commonSettings s (Render.start s d)).gPerFrameConstants]
    ∧ uploadedPerFrame (mainPassCommands E s d)
        = [passPerFrame E s s.gCamera
            (passPerFrame E s s.gPortalCamera
              (commonSettings s (Render.start s d)).gPerFrameConstants)] := by
  rw [portalPassCommands_eq, mainPassCommands_eq, (passCommandList_uploads _ _ _ _ _ _).1,
    (passCommandList_uploads _ _ _ _ _ _).1, (beforePortalPass_fields s d).1,
    (beforeMainPass_fields E s d).1]
  exact ⟨rfl, rfl⟩

/-- C10 fails as stated. In the state after `InitScene`, on a fresh device, the camera
position uploaded in the portal pass is (15, 45, -75), the position of the main camera,
while the portal camera is at (45, 45, 85). -/
theorem C10_portal_pass_uploads_main_camera_position :
    (uploadedPerFrame
        (portalPassCommands ratEnv (InitScene ratEnv)
          (Device.fresh : Device ℚ (MatrixExpr ℚ)))).map PerFrameConstants.cameraPosition
      = [⟨15, 45, -75⟩]
    ∧ (InitScene ratEnv).gPortalCamera.position = ⟨45, 45, 85⟩
    ∧ (uploadedPerFrame
        (portalPassCommands ratEnv (InitScene ratEnv)
          (Device.fresh : Device ℚ (MatrixExpr ℚ)))).map PerFrameConstants.cameraPosition
      ≠ [(InitScene ratEnv).gPortalCamera.position] := by
  rw [(uploads_of_passes ratEnv (InitScene ratEnv) Device.fresh).1]
  refine ⟨rfl, rfl, ?_⟩
  intro h
  have h2 := congrArg (fun l => l.map CVector3.x) h
  simp [passPerFrame, commonSettings, Render.start, InitScene, Camera.Position,
    Camera.SetPosition, Camera.SetRotation, Camera.SetNearClip, Camera.SetFarClip] at h2

/-- C10 as amended. Each pass uploads the per-frame constants once; the view,
projection and view-projection matrices in that upload are those of the pass's own
camera (the portal camera in the portal pass, the main camera in the main pass), and the
camera world position in both uploads is the position of the main camera. -/
theorem C10_pass_uploads_own_camera_matrices [LinearOrderedField K] (E : Env K M)
    (s : Scene K M) (d : Device K M) :
    ∃ pfPortal pfMain : PerFrameConstants K M,
      uploadedPerFrame (portalPassCommands E s d) = [pfPortal]
      ∧ uploadedPerFrame (mainPassCommands E s d) = [pfMain]
      ∧ pfPortal.viewMatrix = E.ViewMatrix s.gPortalCamera
      ∧ pfPortal.projectionMatrix = E.ProjectionMatrix s.gPortalCamera
      ∧ pfPortal.viewProjectionMatrix = E.ViewProjectionMatrix s.gPortalCamera
      ∧ pfMain.viewMatrix = E.ViewMatrix s.gCamera
      ∧ pfMain.projectionMatrix = E.ProjectionMatrix s.gCamera
      ∧ pfMain.viewProjectionMatrix = E.ViewProjectionMatrix s.gCamera
      ∧ pfMain.cameraPosition = s.gCamera.position
      ∧ pfPortal.cameraPosition = s.gCamera.position :=
  ⟨_, _, (uploads_of_passes E s d).1, (uploads_of_passes E s d).2, rfl, rfl, rfl, rfl, rfl,
    rfl, rfl, rfl⟩

/-! ### C12 -/

theorem issuedBy_RenderSceneFromCamera (E : Env K M) (s : Scene K M) (camera : Camera K)
    (r : Render K M) :
    issuedBy (RenderSceneFromCamera E s camera) r
      = passCommandList E s camera r.context r.gPerFrameConstants r.gPerModelConstants := by
  simp only [issuedBy, RenderSceneFromCamera_eq, List.nil_append]

theorem passCommandList_drawnModels (E : Env K M) (s : Scene K M) (camera : Camera K)
    (c : Context) (pf : PerFrameConstants K M) (pm : PerModelConstants K M) :
    drawnModels (passCommandList E s camera c pf pm)
      = [(.gFloor, some .gPixelLightingVertexShader),
          (.gTeapot, some .gPixelLightingVertexShader),
          (.gAddBlendcube, some .gPixelLightingVertexShader),
          (.gMultiBlendcube, some .gPixelLightingVertexShader),
          (.gAlphaBlendCube, some .gAlphaVertexShader),
          (.gNormalMapCube, some .gNormalMappingVertexShader),
          (.gTroll, some .gCellShadingOutlineVertexShader),
          (.gTroll, some .gCellShadingVertexShader),
          (.gSphere, some .gWiggleModelVertexShader),
          (.gTwoTextureCube, some .gFadeTwoTexturesVertexShader),
          (.gLight1, some .gLightModelVertexShader),
          (.gLight2, some .gLightModelVertexShader),
          (.gLight3, some .gLightModelVertexShader),
          (.gLight4, some .gLightModelVertexShader),
          (.gLight5, some .gLightModelVertexShader),
          (.gPortal, some .gPixelLightingVertexShader),
          (.gRobot, some .gPixelLightingVertexShader)] := by
  simp [passCommandList, draws, drawnModels, drawContext]

/-- C12. For every camera (and every state the pass starts in) `RenderSceneFromCamera`
issues exactly 17 draws, in this order: floor, teapot, additive-blend cube,
multiplicative-blend cube, alpha-blend cube, normal-mapped cube, troll with the outline
shader, troll with the main cell shader, sphere, two-texture cube, lights 1 to 5, portal
model, robot; the portal pass and the main pass of `RenderScene` issue this same list. -/
theorem C12_seventeen_draws_in_fixed_order [LinearOrderedField K] (E : Env K M)
    (s : Scene K M) (d : Device K M) (camera : Camera K) (r : Render K M) :
    drawnModels (issuedBy (RenderSceneFromCamera E s camera) r)
      = [(.gFloor, some .gPixelLightingVertexShader),
          (.gTeapot, some .gPixelLightingVertexShader),
          (.gAddBlendcube, some .gPixelLightingVertexShader),
          (.gMultiBlendcube, some .gPixelLightingVertexShader),
          (.gAlphaBlendCube, some .gAlphaVertexShader),
          (.gNormalMapCube, some .gNormalMappingVertexShader),
          (.gTroll, some .gCellShadingOutlineVertexShader),
          (.gTroll, some .gCellShadingVertexShader),
          (.gSphere, some .gWiggleModelVertexShader),
          (.gTwoTextureCube, some .gFadeTwoTexturesVertexShader),
          (.gLight1, some .gLightModelVertexShader),
          (.gLight2, some .gLightModelVertexShader),
          (.gLight3, some .gLightModelVertexShader),
          (.gLight4, some .gLightModelVertexShader),
          (.gLight5, some .gLightModelVertexShader),
          (.gPortal, some .gPixelLightingVertexShader),
          (.gRobot, some .gPixelLightingVertexShader)]
    ∧ (draws (issuedBy (RenderSceneFromCamera E s camera) r)).length = 17
    ∧ drawnModels (portalPassCommands E s d)
        = drawnModels (issuedBy (RenderSceneFromCamera E s camera) r)
    ∧ drawnModels (mainPassCommands E s d)
        = drawnModels (issuedBy (RenderSceneFromCamera E s camera) r) := by
  rw [issuedBy_RenderSceneFromCamera, portalPassCommands_eq, mainPassCommands_eq,
    passCommandList_drawnModels, passCommandList_drawnModels, passCommandList_drawnModels]
  exact ⟨rfl, passCommandList_draws_length _ _ _ _ _ _, rfl, rfl⟩

/-! ### Draw observations of a pass -/

theorem passCommandList_sticky (E : Env K M) (s : Scene K M) (camera : Camera K)
    (c : Context) (pf : PerFrameConstants K M) (pm : PerModelConstants K M) :
    (draws (passCommandList E s camera c pf pm)).map DrawCall.sticky
      = [((some .gPixelLightingVertexShader, some .gPixelLightingPixelShader,
            some .gNoBlendingState, some .gUseDepthBufferState, some .gCullBackState),
            some .gFloorDiffuseSpecularMapSRV, some .gAnisotropic4xSampler),
          ((some .gPixelLightingVertexShader, some .gPixelLightingPixelShader,
            some .gNoBlendingState, some .gUseDepthBufferState, some .gCullBackState),
            some .gTeapotDiffuseSpecularMapSRV, some .gAnisotropic4xSampler),
          ((some .gPixelLightingVertexShader, some .gPixelLightingPixelShader,
            some .gAdditiveBlendingState, some .gUseDepthBufferState, some .gCullNoneState),
            some .gAddBlendCubeDiffuseSpecularMapSRV, some .gAnisotropic4xSampler),
          ((some .gPixelLightingVertexShader, some .gPixelLightingPixelShader,
            some .gMultiplicativeBlendingState, some .gUseDepthBufferState,
            some .gCullNoneState),
            some .gMultiBlendCubeDiffuseSpecularMapSRV, some .gAnisotropic4xSampler),
          ((some .gAlphaVertexShader, some .gAlphaPixelShader,
            some .gAlphaBlendingState, some .gUseDepthBufferState, some .gCullNoneState),
            some .gAlphaBlendCubeDiffuseSpecularMapSRV, some .gAnisotropic4xSampler),
          ((some .gNormalMappingVertexShader, some .gNormalMappingPixelShader,
            some .gAlphaBlendingState, some .gUseDepthBufferState, some .gCullNoneState),
            some .gNormalMapCubeDiffuseSpecularMapSRV, some .gAnisotropic4xSampler),
          ((some .gCellShadingOutlineVertexShader, some .gCellShadingOutlinePixelShader,
            some .gNoBlendingState, some .gUseDepthBufferState, some .gCullFrontState),
            some .gNormalMapCubeDiffuseSpecularMapSRV, some .gAnisotropic4xSampler),
          ((some .gCellShadingVertexShader, some .gCellShadingPixelShader,
            some .gNoBlendingState, some .gUseDepthBufferState, some .gCullBackState),
            some .gTrollDiffuseMapSRV, some .gAnisotropic4xSampler),
          ((some .gWiggleModelVertexShader, some .gWiggleModelPixelShader,
            some .gNoBlendingState, some .gUseDepthBufferState, some .gCullBackState),
            some .gSphereDiffuseSpecularMapSRV, some .gAnisotropic4xSampler),
          ((some .gFadeTwoTexturesVertexShader, some .gFadeTwoTexturesPixelShader,
            some .gNoBlendingState, some .gUseDepthBufferState, some .gCullBackState),
            some .gTwoTextureCubeDiffuseSpecularMap1SRV, some .gAnisotropic4xSampler),
          ((some .gLightModelVertexShader, some .gLightModelPixelShader,
            some .gAdditiveBlendingState, some .gDepthReadOnlyState, some .gCullNoneState),
            some .gLightDiffuseMapSRV, some .gAnisotropic4xSampler),
          ((some .gLightModelVertexShader, some .gLightModelPixelShader,
            some .gAdditiveBlendingState, some .gDepthReadOnlyState, some .gCullNoneState),
            some .gLightDiffuseMapSRV, some .gAnisotropic4xSampler),
          ((some .gLightModelVertexShader, some .gLightModelPixelShader,
            some .gAdditiveBlendingState, some .gDepthReadOnlyState, some .gCullNoneState),
            some .gLightDiffuseMapSRV, some .gAnisotropic4xSampler),
          ((some .gLightModelVertexShader, some .gLightModelPixelShader,
            some .gAdditiveBlendingState, some .gDepthReadOnlyState, some .gCullNoneState),
            some .gLightDiffuseMapSRV, some .gAnisotropic4xSampler),
          ((some .gLightModelVertexShader, some .gLightModelPixelShader,
            some .gAdditiveBlendingState, some .gDepthReadOnlyState, some .gCullNoneState),
            some .gLightDiffuseMapSRV, some .gAnisotropic4xSampler),
          ((some .gPixelLightingVertexShader, some .gPixelLightingPixelShader,
            some .gNoBlendingState, some .gUseDepthBufferState, some .gCullBackState),
            boundView c.renderTarget .gPortalTextureSRV, some .gAnisotropic4xSampler),
          ((some .gPixelLightingVertexShader, some .gPixelLightingPixelShader,
            some .gNoBlendingState, some .gUseDepthBufferState, some .gCullBackState),
            boundView c.renderTarget .gPortalTextureSRV, some .gAnisotropic4xSampler)] := by
  simp [passCommandList, draws, drawContext, DrawCall.sticky, DrawCall.pipeline]

theorem passCommandList_drawColours (E : Env K M) (s : Scene K M) (camera : Camera K)
    (c : Context) (pf : PerFrameConstants K M) (pm : PerModelConstants K M) :
    drawColours (passCommandList E s camera c pf pm)
      = [(.gFloor, some pm.objectColour), (.gTeapot, some E.defaultColour),
         (.gAddBlendcube, some E.defaultColour), (.gMultiBlendcube, some E.defaultColour),
         (.gAlphaBlendCube, some E.defaultColour),
         (.gNormalMapCube, some E.defaultColour), (.gTroll, some E.defaultColour),
         (.gTroll, some E.defaultColour), (.gSphere, some E.defaultColour),
         (.gTwoTextureCube, some E.defaultColour), (.gLight1, some s.gLight1Colour),
         (.gLight2, some s.gLight2Colour), (.gLight3, some s.gLight3Colour),
         (.gLight4, some s.gLight4Colour), (.gLight5, some s.gLight5Colour),
         (.gPortal, some E.defaultColour), (.gRobot, some E.defaultColour)] := by
  simp [passCommandList, draws, drawColours, perModelFor]

/-! ### C11 -/

/-- C11. With `Model::Render` as the specification describes it (the object colour
returns to the default colour after every draw), every draw that sets no colour override
and follows another draw finds the default colour in the per-model constants: in both
passes of `RenderScene` the portal model and the robot, drawn after light 5, and in the
main pass every non-light model, drawn after the portal pass; so do the non-light models
of the portal pass from the teapot on. Each light's draw finds that light's colour. The
first draw of the portal pass, the floor, finds what the record held when `RenderScene`
was called, and `RenderScene` leaves the default colour there. -/
theorem C11_draws_without_override_find_default_colour [LinearOrderedField K]
    (E : Env K M) (s : Scene K M) (d : Device K M) :
    drawColours (portalPassCommands E s d)
      = [(.gFloor, some s.gPerModelConstants.objectColour),
         (.gTeapot, some E.defaultColour), (.gAddBlendcube, some E.defaultColour),
         (.gMultiBlendcube, some E.defaultColour),
         (.gAlphaBlendCube, some E.defaultColour),
         (.gNormalMapCube, some E.defaultColour), (.gTroll, some E.defaultColour),
         (.gTroll, some E.defaultColour), (.gSphere, some E.defaultColour),
         (.gTwoTextureCube, some E.defaultColour), (.gLight1, some s.gLight1Colour),
         (.gLight2, some s.gLight2Colour), (.gLight3, some s.gLight3Colour),
         (.gLight4, some s.gLight4Colour), (.gLight5, some s.gLight5Colour),
         (.gPortal, some E.defaultColour), (.gRobot, some E.defaultColour)]
    ∧ drawColours (mainPassCommands E s d)
      = [(.gFloor, some E.defaultColour), (.gTeapot, some E.defaultColour),
         (.gAddBlendcube, some E.defaultColour), (.gMultiBlendcube, some E.defaultColour),
         (.gAlphaBlendCube, some E.defaultColour),
         (.gNormalMapCube, some E.defaultColour), (.gTroll, some E.defaultColour),
         (.gTroll, some E.defaultColour), (.gSphere, some E.defaultColour),
         (.gTwoTextureCube, some E.defaultColour), (.gLight1, some s.gLight1Colour),
         (.gLight2, some s.gLight2Colour), (.gLight3, some s.gLight3Colour),
         (.gLight4, some s.gLight4Colour), (.gLight5, some s.gLight5Colour),
         (.gPortal, some E.defaultColour), (.gRobot, some E.defaultColour)]
    ∧ (RenderScene E s d).1.gPerModelConstants.objectColour = E.defaultColour := by
  rw [portalPassCommands_eq, mainPassCommands_eq, passCommandList_drawColours,
    passCommandList_drawColours, (beforePortalPass_fields s d).2.1,
    (beforeMainPass_fields E s d).2.1]
  refine ⟨rfl, rfl, ?_⟩
  simp only [RenderScene, RenderScene.run, RenderSceneFromCamera_eq, Present, perModelFor]

/-! ### C13 -/

theorem passCommandList_portal_draws (E : Env K M) (s : Scene K M) (camera : Camera K)
    (c : Context) (pf : PerFrameConstants K M) (pm : PerModelConstants K M) :
    (∀ call ∈ draws (passCommandList E s camera c pf pm), call.model = .gPortal →
      call.context.psResource0 = boundView c.renderTarget .gPortalTextureSRV
      ∧ call.context.renderTarget = c.renderTarget)
    ∧ (∃ call ∈ draws (passCommandList E s camera c pf pm), call.model = .gPortal)
    ∧ Command.PSSetShaderResources 0 .gPortalTextureSRV
        ∈ passCommandList E s camera c pf pm := by
  simp [passCommandList, draws, drawContext]

theorem readsOwnTarget_of_none (call : DrawCall K M) (h0 : call.context.psResource0 = none) :
    call.readsOwnTarget = false := by
  simp [DrawCall.readsOwnTarget, h0]

theorem readsOwnTarget_backBuffer (call : DrawCall K M)
    (h0 : call.context.psResource0 = some .gPortalTextureSRV)
    (h1 : call.context.renderTarget = some .gBackBufferRenderTarget) :
    call.readsOwnTarget = false := by
  simp [DrawCall.readsOwnTarget, h0, h1, ShaderResourceView.resource,
    RenderTargetView.resource]

/-- The portal model's draw in each pass of `RenderScene`: texture and target. -/
theorem portal_draws_of_passes [LinearOrderedField K] (E : Env K M) (s : Scene K M)
    (d : Device K M) :
    (∀ call ∈ draws (portalPassCommands E s d), call.model = .gPortal →
      call.context.psResource0 = none
      ∧ call.context.renderTarget = some .gPortalRenderTarget
      ∧ call.readsOwnTarget = false)
    ∧ (∀ call ∈ draws (mainPassCommands E s d), call.model = .gPortal →
      call.context.psResource0 = some .gPortalTextureSRV
      ∧ call.context.renderTarget = some .gBackBufferRenderTarget
      ∧ call.readsOwnTarget = false)
    ∧ (∃ call ∈ draws (portalPassCommands E s d), call.model = .gPortal)
    ∧ (∃ call ∈ draws (mainPassCommands E s d), call.model = .gPortal)
    ∧ Command.PSSetShaderResources 0 .gPortalTextureSRV ∈ portalPassCommands E s d
    ∧ Command.PSSetShaderResources 0 .gPortalTextureSRV ∈ mainPassCommands E s d := by
  rw [portalPassCommands_eq, mainPassCommands_eq]
  refine ⟨?_, ?_, (passCommandList_portal_draws _ _ _ _ _ _).2.1,
    (passCommandList_portal_draws _ _ _ _ _ _).2.1,
    (passCommandList_portal_draws _ _ _ _ _ _).2.2,
    (passCommandList_portal_draws _ _ _ _ _ _).2.2⟩
  · intro call hc hm
    obtain ⟨h0, h1⟩ := (passCommandList_portal_draws _ _ _ _ _ _).1 call hc hm
    have h2 := h1.trans (beforePortalPass_fields s d).2.2.1
    rw [(beforePortalPass_fields s d).2.2.1, boundView_portal.1] at h0
    exact ⟨h0, h2, readsOwnTarget_of_none call h0⟩
  · intro call hc hm
    obtain ⟨h0, h1⟩ := (passCommandList_portal_draws _ _ _ _ _ _).1 call hc hm
    have h2 := h1.trans (beforeMainPass_fields E s d).2.2.1
    rw [(beforeMainPass_fields E s d).2.2.1, boundView_portal.2] at h0
    exact ⟨h0, h2, readsOwnTarget_backBuffer call h0 h2⟩

/-- C13 fails as stated. In the portal pass of the first `RenderScene` call after
`InitScene`, the portal model is drawn with `gPortalRenderTarget` as render target and
no texture in pixel-shader slot 0: the program asks for `gPortalTextureSRV`, a view of
the texture the pass is rendering into, and the slot is set to NULL instead. The slot
does not hold the colour texture rendered by the other pass. -/
theorem C13_portal_pass_draws_portal_without_texture :
    ∃ call ∈ draws (portalPassCommands ratEnv (InitScene ratEnv)
        (Device.fresh : Device ℚ (MatrixExpr ℚ))),
      call.model = .gPortal
      ∧ call.context.renderTarget = some .gPortalRenderTarget
      ∧ ShaderResourceView.resource .gPortalTextureSRV
          = some (RenderTargetView.resource .gPortalRenderTarget)
      ∧ call.context.psResource0 = none
      ∧ call.context.psResource0 ≠ some .gPortalTextureSRV := by
  obtain ⟨call, hc, hm⟩ :=
    (portal_draws_of_passes ratEnv (InitScene ratEnv) Device.fresh).2.2.1
  obtain ⟨h0, h1, _⟩ :=
    (portal_draws_of_passes ratEnv (InitScene ratEnv) Device.fresh).1 call hc hm
  refine ⟨call, hc, hm, h1, rfl, h0, ?_⟩
  rw [h0]
  exact fun h => nomatch h

/-- C13 as amended. In the main pass the portal model is drawn with the portal colour
texture (`gPortalTextureSRV`), rendered by the portal pass, in pixel-shader slot 0 and
the back buffer as render target. In the portal pass the program issues the same
binding, but the render target is `gPortalRenderTarget`, a view of that same texture,
and slot 0 is NULL at the draw. In neither pass is the texture in slot 0 the colour
target the pass is rendering into. -/
theorem C13_portal_model_texture_in_each_pass [LinearOrderedField K] (E : Env K M)
    (s : Scene K M) (d : Device K M) :
    (∀ call ∈ draws (portalPassCommands E s d), call.model = .gPortal →
      call.context.psResource0 = none
      ∧ call.context.renderTarget = some .gPortalRenderTarget
      ∧ call.readsOwnTarget = false)
    ∧ (∀ call ∈ draws (mainPassCommands E s d), call.model = .gPortal →
      call.context.psResource0 = some .gPortalTextureSRV
      ∧ call.context.renderTarget = some .gBackBufferRenderTarget
      ∧ call.readsOwnTarget = false)
    ∧ (∃ call ∈ draws (portalPassCommands E s d), call.model = .gPortal)
    ∧ (∃ call ∈ draws (mainPassCommands E s d), call.model = .gPortal)
    ∧ Command.PSSetShaderResources 0 .gPortalTextureSRV ∈ portalPassCommands E s d
    ∧ Command.PSSetShaderResources 0 .gPortalTextureSRV ∈ mainPassCommands E s d :=
  portal_draws_of_passes E s d

/-! ### C16 -/

/-- C16. In every pass (any camera, any state the pass starts in) draws 11 to 15 are
the five light models, each with the light-model shader pair, additive blending, the
read-only depth state and no culling, and each finds its own light's colour in the
per-model constants; draw 16, the portal model, has the pixel-lighting pair with no
blending, the read-write depth state and back-face culling. -/
theorem C16_lights_then_portal_state (E : Env K M) (s : Scene K M) (camera : Camera K)
    (r : Render K M) :
    (((draws (issuedBy (RenderSceneFromCamera E s camera) r)).drop 10).take 6).map
        (fun call => (call.model, call.pipeline))
      = [(.gLight1, (some .gLightModelVertexShader, some .gLightModelPixelShader,
            some .gAdditiveBlendingState, some .gDepthReadOnlyState, some .gCullNoneState)),
          (.gLight2, (some .gLightModelVertexShader, some .gLightModelPixelShader,
            some .gAdditiveBlendingState, some .gDepthReadOnlyState, some .gCullNoneState)),
          (.gLight3, (some .gLightModelVertexShader, some .gLightModelPixelShader,
            some .gAdditiveBlendingState, some .gDepthReadOnlyState, some .gCullNoneState)),
          (.gLight4, (some .gLightModelVertexShader, some .gLightModelPixelShader,
            some .gAdditiveBlendingState, some .gDepthReadOnlyState, some .gCullNoneState)),
          (.gLight5, (some .gLightModelVertexShader, some .gLightModelPixelShader,
            some .gAdditiveBlendingState, some .gDepthReadOnlyState, some .gCullNoneState)),
          (.gPortal, (some .gPixelLightingVertexShader, some .gPixelLightingPixelShader,
            some .gNoBlendingState, some .gUseDepthBufferState, some .gCullBackState))]
    ∧ ((drawColours (issuedBy (RenderSceneFromCamera E s camera) r)).drop 10).take 5
      = [(.gLight1, some s.gLight1Colour), (.gLight2, some s.gLight2Colour),
          (.gLight3, some s.gLight3Colour), (.gLight4, some s.gLight4Colour),
          (.gLight5, some s.gLight5Colour)] := by
  rw [issuedBy_RenderSceneFromCamera, passCommandList_drawColours]
  refine ⟨?_, rfl⟩
  simp [passCommandList, draws, drawContext, DrawCall.pipeline]

/-! ### C19 -/

theorem passCommandList_pipeline_sampler (E : Env K M) (s : Scene K M) (camera : Camera K)
    (c c2 : Context) (pf pf2 : PerFrameConstants K M) (pm pm2 : PerModelConstants K M)
    (E2 : Env K M) (s2 : Scene K M) (camera2 : Camera K) :
    (draws (passCommandList E s camera c pf pm)).map
        (fun call => (call.pipeline, call.context.psSampler0))
      = (draws (passCommandList E2 s2 camera2 c2 pf2 pm2)).map
        (fun call => (call.pipeline, call.context.psSampler0)) := by
  simp [passCommandList, draws, drawContext, DrawCall.pipeline]

theorem passCommandList_last_two (E : Env K M) (s : Scene K M) (camera : Camera K)
    (c : Context) (pf : PerFrameConstants K M) (pm : PerModelConstants K M) :
    ((draws (passCommandList E s camera c pf pm)).drop 15).map
        (fun call => (call.model, call.context.psResource0))
      = [(.gPortal, boundView c.renderTarget .gPortalTextureSRV),
          (.gRobot, boundView c.renderTarget .gPortalTextureSRV)] := by
  simp [passCommandList, draws, drawContext]

/-- C19 fails as stated. Started with the same scene and camera in the two binding
states `RenderScene` starts its passes in, `RenderSceneFromCamera` draws the portal model
and the robot with NULL in pixel-shader slot 0 when the portal target is bound and with
the portal colour texture when the back buffer is bound. -/
theorem C19_slot0_depends_on_bound_target :
    ((draws (issuedBy (RenderSceneFromCamera ratEnv (InitScene ratEnv)
          (InitScene ratEnv).gCamera)
        (beforePortalPass (InitScene ratEnv) (Device.fresh : Device ℚ (MatrixExpr ℚ))))).drop
        15).map (fun call => (call.model, call.context.psResource0))
      = [(.gPortal, none), (.gRobot, none)]
    ∧ ((draws (issuedBy (RenderSceneFromCamera ratEnv (InitScene ratEnv)
          (InitScene ratEnv).gCamera)
        (beforeMainPass ratEnv (InitScene ratEnv)
          (Device.fresh : Device ℚ (MatrixExpr ℚ))))).drop 15).map
        (fun call => (call.model, call.context.psResource0))
      = [(.gPortal, some .gPortalTextureSRV), (.gRobot, some .gPortalTextureSRV)]
    ∧ (draws (issuedBy (RenderSceneFromCamera ratEnv (InitScene ratEnv)
          (InitScene ratEnv).gCamera)
        (beforePortalPass (InitScene ratEnv)
          (Device.fresh : Device ℚ (MatrixExpr ℚ))))).map DrawCall.sticky
      ≠ (draws (issuedBy (RenderSceneFromCamera ratEnv (InitScene ratEnv)
          (InitScene ratEnv).gCamera)
        (beforeMainPass ratEnv (InitScene ratEnv)
          (Device.fresh : Device ℚ (MatrixExpr ℚ))))).map DrawCall.sticky := by
  rw [issuedBy_RenderSceneFromCamera, issuedBy_RenderSceneFromCamera, passCommandList_last_two,
    passCommandList_last_two, passCommandList_sticky, passCommandList_sticky,
    (beforePortalPass_fields (InitScene ratEnv) Device.fresh).2.2.1,
    (beforeMainPass_fields ratEnv (InitScene ratEnv) Device.fresh).2.2.1, boundView_portal.1,
    boundView_portal.2]
  refine ⟨rfl, rfl, ?_⟩
  intro h
  have h2 := congrArg (fun l => (l.drop 15).map (fun p => p.2.1)) h
  simp at h2

/-- C19 as amended. For any two runs of `RenderSceneFromCamera` (any two binding states
at the start, any cameras and scenes) the shader pair, blend state, depth-stencil state,
cull state and slot-0 sampler in force at each of the 17 draws are the same, and so is
the slot-0 texture at the first 15 draws. At the last two draws, the portal model and
the robot, slot 0 holds what binding `gPortalTextureSRV` gives under the render target in
force at the start of the run: NULL when that target is `gPortalRenderTarget`, the
portal colour texture when it is the back buffer or when no target is bound. Two runs
that start with the same render target have the same state at every draw. -/
theorem C19_pass_sticky_state_but_portal_texture (E E2 : Env K M) (s s2 : Scene K M)
    (camera camera2 : Camera K) (r r2 : Render K M) :
    (draws (issuedBy (RenderSceneFromCamera E s camera) r)).map
        (fun call => (call.pipeline, call.context.psSampler0))
      = (draws (issuedBy (RenderSceneFromCamera E2 s2 camera2) r2)).map
        (fun call => (call.pipeline, call.context.psSampler0))
    ∧ ((draws (issuedBy (RenderSceneFromCamera E s camera) r)).map DrawCall.sticky).take 15
      = ((draws (issuedBy (RenderSceneFromCamera E2 s2 camera2) r2)).map
          DrawCall.sticky).take 15
    ∧ ((draws (issuedBy (RenderSceneFromCamera E s camera) r)).drop 15).map
        (fun call => (call.model, call.context.psResource0))
      = [(.gPortal, boundView r.context.renderTarget .gPortalTextureSRV),
          (.gRobot, boundView r.context.renderTarget .gPortalTextureSRV)]
    ∧ boundView (some .gPortalRenderTarget) .gPortalTextureSRV = none
    ∧ boundView (some .gBackBufferRenderTarget) .gPortalTextureSRV
        = some .gPortalTextureSRV
    ∧ boundView none .gPortalTextureSRV = some .gPortalTextureSRV
    ∧ (r.context.renderTarget = r2.context.renderTarget →
        (draws (issuedBy (RenderSceneFromCamera E s camera) r)).map DrawCall.sticky
          = (draws (issuedBy (RenderSceneFromCamera E2 s2 camera2) r2)).map DrawCall.sticky)
    ∧ (draws (issuedBy (RenderSceneFromCamera E s camera) r)).length = 17
    ∧ (draws (issuedBy (RenderSceneFromCamera E2 s2 camera2) r2)).length = 17 := by
  rw [issuedBy_RenderSceneFromCamera, issuedBy_RenderSceneFromCamera, passCommandList_sticky,
    passCommandList_sticky, passCommandList_last_two]
  refine ⟨passCommandList_pipeline_sampler _ _ _ _ _ _ _ _ _ _ _ _, rfl, rfl, rfl, rfl, rfl,
    ?_, passCommandList_draws_length _ _ _ _ _ _, passCommandList_draws_length _ _ _ _ _ _⟩
  intro h
  rw [h]

/-! ### C20 -/

theorem passCommandList_last_draw (E : Env K M) (s : Scene K M) (camera : Camera K)
    (c : Context) (pf : PerFrameConstants K M) (pm : PerModelConstants K M) :
    (draws (passCommandList E s camera c pf pm)).getLast?.map
        (fun call => (call.model, call.context.psResource0))
      = some (.gRobot, boundView c.renderTarget .gPortalTextureSRV) := by
  simp [passCommandList, draws, drawContext]

theorem passCommandList_from_portal_binding (E : Env K M) (s : Scene K M)
    (camera : Camera K) (c : Context) (pf : PerFrameConstants K M)
    (pm : PerModelConstants K M) :
    ((passCommandList E s camera c pf pm).drop 84).head?
        = some (Command.PSSetShaderResources 0 .gPortalTextureSRV)
    ∧ ((passCommandList E s camera c pf pm).drop 84).map isTextureBinding
        = [true, false, false, false, false, false, false, false, false, false]
    ∧ (draws ((passCommandList E s camera c pf pm).drop 84)).map
        (fun call => (call.model, call.context.psResource0))
      = [(.gPortal, boundView c.renderTarget .gPortalTextureSRV),
          (.gRobot, boundView c.renderTarget .gPortalTextureSRV)] := by
  simp [passCommandList, draws, isTextureBinding, drawContext]

theorem passCommandList_not_bindsView_robot (E : Env K M) (s : Scene K M)
    (camera : Camera K) (c : Context) (pf : PerFrameConstants K M)
    (pm : PerModelConstants K M) :
    ∀ cmd ∈ passCommandList E s camera c pf pm,
      bindsView .gRobotDiffuseSpecularMapSRV cmd = false := by
  simp [passCommandList, bindsView]

theorem boundView_ne_robot (target : Option RenderTargetView) (view : ShaderResourceView)
    (h : view ≠ .gRobotDiffuseSpecularMapSRV) :
    boundView target view ≠ some .gRobotDiffuseSpecularMapSRV := by
  cases target with
  | none => exact fun h2 => h (Option.some.inj h2)
  | some t =>
    simp only [boundView]
    split
    · exact fun h2 => nomatch h2
    · exact fun h2 => h (Option.some.inj h2)

theorem keptView_ne_robot (target : RenderTargetView) (slot : Option ShaderResourceView)
    (h : slot ≠ some .gRobotDiffuseSpecularMapSRV) :
    keptView target slot ≠ some .gRobotDiffuseSpecularMapSRV := by
  cases slot with
  | none => exact fun h2 => nomatch h2
  | some view =>
    simp only [keptView]
    split
    · exact fun h2 => nomatch h2
    · exact h

theorem passCommandList_draw_textures (E : Env K M) (s : Scene K M) (camera : Camera K)
    (c : Context) (pf : PerFrameConstants K M) (pm : PerModelConstants K M)
    (h : c.psResource1 ≠ some .gRobotDiffuseSpecularMapSRV) :
    ∀ call ∈ draws (passCommandList E s camera c pf pm),
      call.context.psResource0 ≠ some .gRobotDiffuseSpecularMapSRV
      ∧ call.context.psResource1 ≠ some .gRobotDiffuseSpecularMapSRV := by
  have hb := boundView_ne_robot c.renderTarget .gPortalTextureSRV (by decide)
  simp [passCommandList, draws, drawContext, h, hb]

theorem passCommandList_draw_texture0 (E : Env K M) (s : Scene K M) (camera : Camera K)
    (c : Context) (pf : PerFrameConstants K M) (pm : PerModelConstants K M) :
    ∀ call ∈ draws (passCommandList E s camera c pf pm),
      call.context.psResource0 ≠ some .gRobotDiffuseSpecularMapSRV := by
  have hb := boundView_ne_robot c.renderTarget .gPortalTextureSRV (by decide)
  simp [passCommandList, draws, drawContext, hb]

theorem slot1_before_passes [LinearOrderedField K] (E : Env K M) (s : Scene K M)
    (d : Device K M) :
    (beforePortalPass s d).context.psResource1
        = keptView .gPortalRenderTarget d.context.psResource1
    ∧ (beforeMainPass E s d).context.psResource1
        = some .gTwoTextureCubeDiffuseSpecularMap2SRV := by
  refine ⟨rfl, ?_⟩
  simp only [beforeMainPass, beforePortalPass, portalTargetSetup, RenderSceneFromCamera_eq,
    mainTargetSetup, OMSetRenderTargets, ClearRenderTargetView, ClearDepthStencilView,
    RSSetViewports, commonSettings, Render.start, drawContext]
  rfl

theorem draws_frameCommands [LinearOrderedField K] (E : Env K M) (s : Scene K M)
    (d : Device K M) :
    draws (frameCommands E s d)
      = draws (portalPassCommands E s d) ++ draws (mainPassCommands E s d) := by
  rw [frameCommands_split]
  simp [draws, List.filterMap_append]

/-- C20 fails as stated. In the portal pass of the first `RenderScene` call after
`InitScene` the robot, the last draw, is issued with NULL in pixel-shader slot 0, not
with the portal colour texture: the binding requested for the portal model was refused
because the portal texture is the render target of that pass. -/
theorem C20_portal_pass_draws_robot_without_texture :
    (draws (portalPassCommands ratEnv (InitScene ratEnv)
        (Device.fresh : Device ℚ (MatrixExpr ℚ)))).getLast?.map
        (fun call => (call.model, call.context.renderTarget, call.context.psResource0))
      = some (.gRobot, some .gPortalRenderTarget, none)
    ∧ (none : Option ShaderResourceView) ≠ some .gPortalTextureSRV := by
  refine ⟨?_, fun h => nomatch h⟩
  rw [portalPassCommands_eq]
  simp [passCommandList, draws, drawContext,
    (beforePortalPass_fields (InitScene ratEnv) (Device.fresh : Device ℚ (MatrixExpr ℚ))).2.2.1,
    boundView_portal.1]

/-- C20 as amended. In every pass the last draw is the robot, issued with pixel-shader
slot 0 as the portal model's draw left it: from the binding of `gPortalTextureSRV` for
the portal model to the end of the pass there are the portal model's draw and the
robot's draw and no other texture binding. In the main pass of `RenderScene` the slot
holds the portal colour texture; in the portal pass it is NULL, the portal texture being
the render target. No command of `RenderScene` binds the robot's own texture
`gRobotDiffuseSpecularMapSRV`, no draw of `RenderScene` has it in slot 0, and none has
it in slot 1 unless it was already bound there when `RenderScene` was called. -/
theorem C20_robot_drawn_with_slot_left_by_portal [LinearOrderedField K] (E : Env K M)
    (s : Scene K M) (d : Device K M) (camera : Camera K) (r : Render K M) :
    ((draws (issuedBy (RenderSceneFromCamera E s camera) r)).getLast?.map
        (fun call => (call.model, call.context.psResource0))
      = some (.gRobot, boundView r.context.renderTarget .gPortalTextureSRV)
    ∧ ((issuedBy (RenderSceneFromCamera E s camera) r).drop 84).head?
        = some (Command.PSSetShaderResources 0 .gPortalTextureSRV)
    ∧ ((issuedBy (RenderSceneFromCamera E s camera) r).drop 84).map isTextureBinding
        = [true, false, false, false, false, false, false, false, false, false]
    ∧ (draws ((issuedBy (RenderSceneFromCamera E s camera) r).drop 84)).map
        (fun call => (call.model, call.context.psResource0))
      = [(.gPortal, boundView r.context.renderTarget .gPortalTextureSRV),
          (.gRobot, boundView r.context.renderTarget .gPortalTextureSRV)])
    ∧ (draws (portalPassCommands E s d)).getLast?.map
        (fun call => (call.model, call.context.psResource0))
      = some (.gRobot, none)
    ∧ (draws (mainPassCommands E s d)).getLast?.map
        (fun call => (call.model, call.context.psResource0))
      = some (.gRobot, some .gPortalTextureSRV)
    ∧ (∀ cmd ∈ frameCommands E s d, bindsView .gRobotDiffuseSpecularMapSRV cmd = false)
    ∧ (∀ call ∈ draws (frameCommands E s d),
        call.context.psResource0 ≠ some .gRobotDiffuseSpecularMapSRV)
    ∧ (d.context.psResource1 ≠ some .gRobotDiffuseSpecularMapSRV →
        ∀ call ∈ draws (frameCommands E s d),
          call.context.psResource1 ≠ some .gRobotDiffuseSpecularMapSRV) := by
  refine ⟨?_, ?_, ?_, ?_, ?_, ?_⟩
  · rw [issuedBy_RenderSceneFromCamera]
    exact ⟨passCommandList_last_draw _ _ _ _ _ _,
      (passCommandList_from_portal_binding _ _ _ _ _ _).1,
      (passCommandList_from_portal_binding _ _ _ _ _ _).2.1,
      (passCommandList_from_portal_binding _ _ _ _ _ _).2.2⟩
  · rw [portalPassCommands_eq, passCommandList_last_draw,
      (beforePortalPass_fields s d).2.2.1, boundView_portal.1]
  · rw [mainPassCommands_eq, passCommandList_last_draw,
      (beforeMainPass_fields E s d).2.2.1, boundView_portal.2]
  · intro cmd h
    rw [frameCommands_split] at h
    rcases List.mem_append.mp h with h | h
    · rcases List.mem_append.mp h with h | h
      · simp only [List.mem_cons, List.mem_singleton, List.not_mem_nil, or_false] at h
        rcases h with rfl | rfl | rfl | rfl <;> rfl
      · rw [portalPassCommands_eq] at h
        exact passCommandList_not_bindsView_robot _ _ _ _ _ _ cmd h
    · rcases List.mem_append.mp h with h | h
      · rcases List.mem_append.mp h with h | h
        · simp only [List.mem_cons, List.mem_singleton, List.not_mem_nil, or_false] at h
          rcases h with rfl | rfl | rfl | rfl <;> rfl
        · rw [mainPassCommands_eq] at h
          exact passCommandList_not_bindsView_robot _ _ _ _ _ _ cmd h
      · simp only [List.mem_singleton] at h
        rw [h]
        rfl
  · intro call h
    rw [draws_frameCommands, portalPassCommands_eq, mainPassCommands_eq] at h
    rcases List.mem_append.mp h with h | h
    · exact passCommandList_draw_texture0 _ _ _ _ _ _ call h
    · exact passCommandList_draw_texture0 _ _ _ _ _ _ call h
  · intro hd call h
    rw [draws_frameCommands, portalPassCommands_eq, mainPassCommands_eq] at h
    rcases List.mem_append.mp h with h | h
    · refine (passCommandList_draw_textures _ _ _ _ _ _ ?_ call h).2
      rw [(slot1_before_passes E s d).1]
      exact keptView_ne_robot _ _ hd
    · refine (passCommandList_draw_textures _ _ _ _ _ _ ?_ call h).2
      rw [(slot1_before_passes E s d).2]
      decide

end RenderProofs

/-! ### InitGeometry and ReleaseResources -/

theorem runSteps_all_succeed (o : InitOutcomes) (err : String) (steps : List InitStep)
    (calls : List InitCall) (h : ∀ step ∈ steps, step.succeeds o = true) :
    runSteps o err steps calls = ⟨true, err, calls ++ steps.flatMap InitStep.calls⟩ := by
  induction steps generalizing calls with
  | nil => simp [runSteps]
  | cons step rest ih =>
    have h1 := h step (List.mem_cons_self step rest)
    simp only [runSteps, h1, if_true, List.flatMap_cons]
    rw [ih _ (fun x hx => h x (List.mem_cons_of_mem step hx)), List.append_assoc]

theorem runSteps_first_failure (o : InitOutcomes) (err : String)
    (before : List InitStep) (step : InitStep) (after : List InitStep)
    (calls : List InitCall) (h : ∀ x ∈ before, x.succeeds o = true)
    (hf : step.succeeds o = false) :
    runSteps o err (before ++ step :: after) calls
      = ⟨false, step.message o, calls ++ (before ++ [step]).flatMap InitStep.calls⟩ := by
  induction before generalizing calls with
  | nil => simp [runSteps, hf]
  | cons x rest ih =>
    have h1 := h x (List.mem_cons_self x rest)
    have h2 := ih (calls ++ x.calls) (fun y hy => h y (List.mem_cons_of_mem x hy))
    simpa [runSteps, h1, List.append_assoc] using h2

theorem runSteps_result (o : InitOutcomes) (err : String) (steps : List InitStep)
    (calls : List InitCall) :
    (runSteps o err steps calls).result = true ↔ ∀ step ∈ steps, step.succeeds o = true := by
  induction steps generalizing calls with
  | nil => simp [runSteps]
  | cons step rest ih =>
    by_cases h1 : step.succeeds o = true
    · simp only [runSteps, h1, if_true, ih, List.mem_cons, forall_eq_or_imp, true_and]
    · simp [runSteps, h1]

theorem InitGeometry_eq_runSteps (o : InitOutcomes) (err : String) :
    InitGeometry o err = runSteps o err initSteps [] := by
  simp only [InitGeometry, initSteps, runSteps, InitStep.succeeds, InitStep.calls,
    InitStep.message, List.nil_append, List.cons_append, List.append_assoc]
  cases o.meshError Mesh.gLightMesh <;>
    simp only [Option.isNone_none, Option.isNone_some, Option.getD_some, Bool.and_true,
      Bool.and_false, Bool.true_and, Bool.false_and, Bool.false_eq_true, or_self, or_true,
      true_or, or_false, false_or, ↓reduceIte, reduceCtorEq]
  cases o.meshError Mesh.gPortalMesh <;>
    simp only [Option.isNone_none, Option.isNone_some, Option.getD_some, Bool.and_true,
      Bool.and_false, Bool.true_and, Bool.false_and, Bool.false_eq_true, or_self, or_true,
      true_or, or_false, false_or, ↓reduceIte, reduceCtorEq]
  cases o.meshError Mesh.gFloorMesh <;>
    simp only [Option.isNone_none, Option.isNone_some, Option.getD_some, Bool.and_true,
      Bool.and_false, Bool.true_and, Bool.false_and, Bool.false_eq_true, or_self, or_true,
      true_or, or_false, false_or, ↓reduceIte, reduceCtorEq]
  cases o.meshError Mesh.gTeapotMesh <;>
    simp only [Option.isNone_none, Option.isNone_some, Option.getD_some, Bool.and_true,
      Bool.and_false, Bool.true_and, Bool.false_and, Bool.false_eq_true, or_self, or_true,
      true_or, or_false, false_or, ↓reduceIte, reduceCtorEq]
  cases o.meshError Mesh.gSphereMesh <;>
    simp only [Option.isNone_none, Option.isNone_some, Option.getD_some, Bool.and_true,
      Bool.and_false, Bool.true_and, Bool.false_and, Bool.false_eq_true, or_self, or_true,
      true_or, or_false, false_or, ↓reduceIte, reduceCtorEq]
  cases o.meshError Mesh.gCubeMesh <;>
    simp only [Option.isNone_none, Option.isNone_some, Option.getD_some, Bool.and_true,
      Bool.and_false, Bool.true_and, Bool.false_and, Bool.false_eq_true, or_self, or_true,
      true_or, or_false, false_or, ↓reduceIte, reduceCtorEq]
  cases o.meshError Mesh.gTrollMesh <;>
    simp only [Option.isNone_none, Option.isNone_some, Option.getD_some, Bool.and_true,
      Bool.and_false, Bool.true_and, Bool.false_and, Bool.false_eq_true, or_self, or_true,
      true_or, or_false, false_or, ↓reduceIte, reduceCtorEq]
  cases o.meshError Mesh.gRobotMesh <;>
    simp only [Option.isNone_none, Option.isNone_some, Option.getD_some, Bool.and_true,
      Bool.and_false, Bool.true_and, Bool.false_and, Bool.false_eq_true, or_self, or_true,
      true_or, or_false, false_or, ↓reduceIte, reduceCtorEq]
  cases o.ok InitCall.LoadShaders <;>
    simp only [Option.isNone_none, Option.isNone_some, Option.getD_some, Bool.and_true,
      Bool.and_false, Bool.true_and, Bool.false_and, Bool.false_eq_true, or_self, or_true,
      true_or, or_false, false_or, ↓reduceIte, reduceCtorEq]
  cases o.ok (InitCall.CreateConstantBuffer .gPerFrameConstantBuffer) <;>
  cases o.ok (InitCall.CreateConstantBuffer .gPerModelConstantBuffer) <;>
    simp only [Option.isNone_none, Option.isNone_some, Option.getD_some, Bool.and_true,
      Bool.and_false, Bool.true_and, Bool.false_and, Bool.false_eq_true, or_self, or_true,
      true_or, or_false, false_or, ↓reduceIte, reduceCtorEq]
  cases o.ok (InitCall.LoadTexture .gLightDiffuseMapSRV) <;>
    simp only [Option.isNone_none, Option.isNone_some, Option.getD_some, Bool.and_true,
      Bool.and_false, Bool.true_and, Bool.false_and, Bool.false_eq_true, or_self, or_true,
      true_or, or_false, false_or, ↓reduceIte, reduceCtorEq]
  cases o.ok (InitCall.LoadTexture .gFloorDiffuseSpecularMapSRV) <;>
    simp only [Option.isNone_none, Option.isNone_some, Option.getD_some, Bool.and_true,
      Bool.and_false, Bool.true_and, Bool.false_and, Bool.false_eq_true, or_self, or_true,
      true_or, or_false, false_or, ↓reduceIte, reduceCtorEq]
  cases o.ok (InitCall.LoadTexture .gTeapotDiffuseSpecularMapSRV) <;>
    simp only [Option.isNone_none, Option.isNone_some, Option.getD_some, Bool.and_true,
      Bool.and_false, Bool.true_and, Bool.false_and, Bool.false_eq_true, or_self, or_true,
      true_or, or_false, false_or, ↓reduceIte, reduceCtorEq]
  cases o.ok (InitCall.LoadTexture .gSphereDiffuseSpecularMapSRV) <;>
    simp only [Option.isNone_none, Option.isNone_some, Option.getD_some, Bool.and_true,
      Bool.and_false, Bool.true_and, Bool.false_and, Bool.false_eq_true, or_self, or_true,
      true_or, or_false, false_or, ↓reduceIte, reduceCtorEq]
  cases o.ok (InitCall.LoadTexture .gTwoTextureCubeDiffuseSpecularMap1SRV) <;>
    simp only [Option.isNone_none, Option.isNone_some, Option.getD_some, Bool.and_true,
      Bool.and_false, Bool.true_and, Bool.false_and, Bool.false_eq_true, or_self, or_true,
      true_or, or_false, false_or, ↓reduceIte, reduceCtorEq]
  cases o.ok (InitCall.LoadTexture .gTwoTextureCubeDiffuseSpecularMap2SRV) <;>
    simp only [Option.isNone_none, Option.isNone_some, Option.getD_some, Bool.and_true,
      Bool.and_false, Bool.true_and, Bool.false_and, Bool.false_eq_true, or_self, or_true,
      true_or, or_false, false_or, ↓reduceIte, reduceCtorEq]
  cases o.ok (InitCall.LoadTexture .gAddBlendCubeDiffuseSpecularMapSRV) <;>
    simp only [Option.isNone_none, Option.isNone_some, Option.getD_some, Bool.and_true,
      Bool.and_false, Bool.true_and, Bool.false_and, Bool.false_eq_true, or_self, or_true,
      true_or, or_false, false_or, ↓reduceIte, reduceCtorEq]
  cases o.ok (InitCall.LoadTexture .gMultiBlendCubeDiffuseSpecularMapSRV) <;>
    simp only [Option.isNone_none, Option.isNone_some, Option.getD_some, Bool.and_true,
      Bool.and_false, Bool.true_and, Bool.false_and, Bool.false_eq_true, or_self, or_true,
      true_or, or_false, false_or, ↓reduceIte, reduceCtorEq]
  cases o.ok (InitCall.LoadTexture .gAlphaBlendCubeDiffuseSpecularMapSRV) <;>
    simp only [Option.isNone_none, Option.isNone_some, Option.getD_some, Bool.and_true,
      Bool.and_false, Bool.true_and, Bool.false_and, Bool.false_eq_true, or_self, or_true,
      true_or, or_false, false_or, ↓reduceIte, reduceCtorEq]
  cases o.ok (InitCall.LoadTexture .gNormalMapCubeDiffuseSpecularMapSRV) <;>
    simp only [Option.isNone_none, Option.isNone_some, Option.getD_some, Bool.and_true,
      Bool.and_false, Bool.true_and, Bool.false_and, Bool.false_eq_true, or_self, or_true,
      true_or, or_false, false_or, ↓reduceIte, reduceCtorEq]
  cases o.ok (InitCall.LoadTexture .gNormalMapCubeNormalMapSRV) <;>
    simp only [Option.isNone_none, Option.isNone_some, Option.getD_some, Bool.and_true,
      Bool.and_false, Bool.true_and, Bool.false_and, Bool.false_eq_true, or_self, or_true,
      true_or, or_false, false_or, ↓reduceIte, reduceCtorEq]
  cases o.ok (InitCall.LoadTexture .gTrollDiffuseMapSRV) <;>
    simp only [Option.isNone_none, Option.isNone_some, Option.getD_some, Bool.and_true,
      Bool.and_false, Bool.true_and, Bool.false_and, Bool.false_eq_true, or_self, or_true,
      true_or, or_false, false_or, ↓reduceIte, reduceCtorEq]
  cases o.ok (InitCall.LoadTexture .gCellMapSRV) <;>
    simp only [Option.isNone_none, Option.isNone_some, Option.getD_some, Bool.and_true,
      Bool.and_false, Bool.true_and, Bool.false_and, Bool.false_eq_true, or_self, or_true,
      true_or, or_false, false_or, ↓reduceIte, reduceCtorEq]
  cases o.ok (InitCall.LoadTexture .gRobotDiffuseSpecularMapSRV) <;>
    simp only [Option.isNone_none, Option.isNone_some, Option.getD_some, Bool.and_true,
      Bool.and_false, Bool.true_and, Bool.false_and, Bool.false_eq_true, or_self, or_true,
      true_or, or_false, false_or, ↓reduceIte, reduceCtorEq]
  cases o.ok (InitCall.CreateTexture2D .gPortalTexture) <;>
    simp only [Option.isNone_none, Option.isNone_some, Option.getD_some, Bool.and_true,
      Bool.and_false, Bool.true_and, Bool.false_and, Bool.false_eq_true, or_self, or_true,
      true_or, or_false, false_or, ↓reduceIte, reduceCtorEq]
  cases o.ok (InitCall.CreateRenderTargetView .gPortalRenderTarget) <;>
    simp only [Option.isNone_none, Option.isNone_some, Option.getD_some, Bool.and_true,
      Bool.and_false, Bool.true_and, Bool.false_and, Bool.false_eq_true, or_self, or_true,
      true_or, or_false, false_or, ↓reduceIte, reduceCtorEq]
  cases o.ok (InitCall.CreateShaderResourceView .gPortalTextureSRV) <;>
    simp only [Option.isNone_none, Option.isNone_some, Option.getD_some, Bool.and_true,
      Bool.and_false, Bool.true_and, Bool.false_and, Bool.false_eq_true, or_self, or_true,
      true_or, or_false, false_or, ↓reduceIte, reduceCtorEq]
  cases o.ok (InitCall.CreateTexture2D .gPortalDepthStencil) <;>
    simp only [Option.isNone_none, Option.isNone_some, Option.getD_some, Bool.and_true,
      Bool.and_false, Bool.true_and, Bool.false_and, Bool.false_eq_true, or_self, or_true,
      true_or, or_false, false_or, ↓reduceIte, reduceCtorEq]
  cases o.ok (InitCall.CreateDepthStencilView .gPortalDepthStencilView) <;>
    simp only [Option.isNone_none, Option.isNone_some, Option.getD_some, Bool.and_true,
      Bool.and_false, Bool.true_and, Bool.false_and, Bool.false_eq_true, or_self, or_true,
      true_or, or_false, false_or, ↓reduceIte, reduceCtorEq]
  cases o.ok InitCall.CreateStates <;>
    simp only [Option.isNone_none, Option.isNone_some, Option.getD_some, Bool.and_true,
      Bool.and_false, Bool.true_and, Bool.false_and, Bool.false_eq_true, or_self, or_true,
      true_or, or_false, false_or, ↓reduceIte, reduceCtorEq]

/-- C14. `InitGeometry` returns true if and only if every one of its thirty sub-steps
succeeds (eight mesh loads, `LoadShaders`, the creation of the two constant buffers,
fourteen texture loads, the five portal objects, `CreateStates`), and then it has made
every call and left the last-error string alone; when a sub-step fails after all the
sub-steps before it succeeded, `InitGeometry` returns false with that sub-step's message
as last error, having made the calls of the sub-steps up to that one and no later call. -/
theorem C14_InitGeometry_first_failure_wins (o : InitOutcomes) (err : String) :
    ((InitGeometry o err).result = true ↔ ∀ step ∈ initSteps, step.succeeds o = true)
    ∧ ((∀ step ∈ initSteps, step.succeeds o = true) →
        InitGeometry o err = ⟨true, err, initSteps.flatMap InitStep.calls⟩)
    ∧ (∀ before step after, initSteps = before ++ step :: after →
        (∀ x ∈ before, x.succeeds o = true) → step.succeeds o = false →
        InitGeometry o err
          = ⟨false, step.message o, (before ++ [step]).flatMap InitStep.calls⟩) := by
  refine ⟨?_, ?_, ?_⟩
  · rw [InitGeometry_eq_runSteps]
    exact runSteps_result o err initSteps []
  · intro h
    rw [InitGeometry_eq_runSteps, runSteps_all_succeed o err initSteps [] h, List.nil_append]
  · intro before step after hsplit hb hf
    rw [InitGeometry_eq_runSteps, hsplit,
      runSteps_first_failure o err before step after [] hb hf, List.nil_append]

/-- Instance of C14: when `LoadShaders` is the first call to fail, `InitGeometry` returns
false with the shader message after the eight mesh loads and the `LoadShaders` call. -/
theorem C14_InitGeometry_first_failure_wins_witness :
    InitGeometry shadersFail "none"
      = ⟨false, "Error loading shaders",
          [.newMesh .gLightMesh, .newMesh .gPortalMesh, .newMesh .gFloorMesh,
            .newMesh .gTeapotMesh, .newMesh .gSphereMesh, .newMesh .gCubeMesh,
            .newMesh .gTrollMesh, .newMesh .gRobotMesh, .LoadShaders]⟩ :=
  (C14_InitGeometry_first_failure_wins shadersFail "none").2.2 (initSteps.take 8)
    InitStep.loadShaders (initSteps.drop 9) (by decide) (by decide) (by decide)

/-- C15. Evaluation of `ReleaseResources` after a successful `InitGeometry` and
`InitScene`: of the 61 distinct objects acquired, exactly three are not given back exactly
once, and these three are not given back at all: the robot mesh is never deleted, and
the two-texture cube's second texture and its shader-resource view are never released. -/
theorem C15_release_skips_robot_mesh_and_second_map :
    acquired.length = 61 ∧ acquired.Nodup
    ∧ acquired.filter
        (fun object => (ReleaseResources liveAfterInit).count object.teardown != 1)
      = [.mesh .gRobotMesh, .texture .gTwoTextureCubeDiffuseSpecularMap2,
          .shaderResourceView .gTwoTextureCubeDiffuseSpecularMap2SRV]
    ∧ (ReleaseResources liveAfterInit).count (.Delete (.mesh .gRobotMesh)) = 0
    ∧ (ReleaseResources liveAfterInit).count
        (.Release (.texture .gTwoTextureCubeDiffuseSpecularMap2)) = 0
    ∧ (ReleaseResources liveAfterInit).count
        (.Release (.shaderResourceView .gTwoTextureCubeDiffuseSpecularMap2SRV)) = 0 := by
  refine ⟨by decide, by decide, by decide, by decide, by decide, by decide⟩

end SceneCpp
